import Mathlib

/-!
# Hotel_Registration: a verification development of the browser client

Shallow embedding of the pure and state-passing parts of the client
(`src/api.js`, `src/pages/BookingForm.jsx`, `src/pages/AdminDashboard.jsx`,
`src/pages/PaymentPage.jsx`, `src/pages/EditProfile.jsx`).

JavaScript values are embedded as the inductive type `JsVal`; exceptions are
embedded with `Except JsThrow`; browser state (storage, location) is passed
explicitly.
-/

namespace HotelRegistration

/-! ## JavaScript values -/

/-- JavaScript values as the client sees them (parsed JSON bodies, error objects,
state variables). Numbers are the integers together with `NaN`; `obj` is a plain
object, given by its own fields (the first binding of a key is the one read). The
arrays that the client works on are embedded as lists. -/
inductive JsVal where
  | undefined : JsVal
  | null : JsVal
  | bool (b : Bool) : JsVal
  | num (n : Int) : JsVal
  | nan : JsVal
  | str (s : String) : JsVal
  | obj (fields : List (String × JsVal)) : JsVal

/-- Exceptions that the embedded code can raise. -/
inductive JsThrow where
  | typeError : JsThrow
  | rangeError : JsThrow
  | securityError : JsThrow
  deriving DecidableEq, Repr

namespace JsVal

/-- ECMAScript `ToBoolean`: the value as seen by `if (v)`, `!v`, `v || w`. -/
def truthy : JsVal → Bool
  | undefined => false
  | null => false
  | bool b => b
  | num n => decide (n ≠ 0)
  | nan => false
  | str s => decide (s ≠ "")
  | obj _ => true

/-- The test `typeof v === "string"`. -/
def isString : JsVal → Bool
  | str _ => true
  | _ => false

/-- The test `v == null` (true of `null` and `undefined` only). -/
def isNullish : JsVal → Bool
  | undefined => true
  | null => true
  | _ => false

/-- Own-property lookup in a field list; an absent key reads as `undefined`. -/
def lookupField (fields : List (String × JsVal)) (k : String) : JsVal :=
  match fields.lookup k with
  | some v => v
  | none => undefined

/-- Property read `v.k`, for the data keys used by the client (none of them is
defined on a primitive wrapper prototype): a `TypeError` on `null` and
`undefined`, `undefined` on every other primitive. -/
def prop (v : JsVal) (k : String) : Except JsThrow JsVal :=
  match v with
  | undefined => .error .typeError
  | null => .error .typeError
  | obj fields => .ok (lookupField fields k)
  | _ => .ok undefined

/-- Optional chaining `v?.k`: `undefined` on `null` and `undefined`. -/
def optProp (v : JsVal) (k : String) : JsVal :=
  match v with
  | obj fields => lookupField fields k
  | _ => undefined

/-- Logical or `a || b`: the left operand when it is truthy, else the right one. -/
def or (a b : JsVal) : JsVal :=
  if a.truthy then a else b

/-- Nullish coalescing `a ?? b`. -/
def coalesce (a b : JsVal) : JsVal :=
  if a.isNullish then b else a

/-- ECMAScript `ToString` as used by template literals. -/
def toTemplate : JsVal → String
  | undefined => "undefined"
  | null => "null"
  | bool true => "true"
  | bool false => "false"
  | num n => toString n
  | nan => "NaN"
  | str s => s
  | obj _ => "[object Object]"

end JsVal

/-! ## `src/api.js`: error-message extraction -/

/-- Embedding of `extractError(err)` of `src/api.js`. -/
def extractError (err : JsVal) : Except JsThrow JsVal := do
  let res := err.optProp "response"
  if !res.truthy then
    return (err.optProp "message").or (.str "Network error")
  if (← res.prop "data").truthy then
    if (← res.prop "data").isString then
      return (← res.prop "data")
    if (← (← res.prop "data").prop "error").truthy then
      return (← (← res.prop "data").prop "error")
    if (← (← res.prop "data").prop "message").truthy then
      return (← (← res.prop "data").prop "message")
    if (← (← res.prop "data").prop "detail").truthy then
      return (← (← res.prop "data").prop "detail")
  return .str ("Server error (" ++ (← res.prop "status").toTemplate ++ ")")

/-- The error `{ response: { status: 500, data: "" } }`. -/
def errEmptyStringBody : JsVal :=
  .obj [("response", .obj [("status", .num 500), ("data", .str "")])]

/-- The error `{ response: { status: 400, data: { error: false, message: "Room is not available" } } }`. -/
def errFalsyErrorField : JsVal :=
  .obj [("response", .obj [("status", .num 400),
    ("data", .obj [("error", .bool false), ("message", .str "Room is not available")])])]

/-- The error `{ message: "timeout of 15000ms exceeded", code: "ECONNABORTED" }`, as raised
for a request that ran into the client timeout: no `response` was received. -/
def errTimeout : JsVal :=
  .obj [("message", .str "timeout of 15000ms exceeded"), ("code", .str "ECONNABORTED")]

/-- The error `{ response: { status: 404, data: "Room not found" } }`. -/
def errStringBody : JsVal :=
  .obj [("response", .obj [("status", .num 404), ("data", .str "Room not found")])]

/-- The error `{ response: { status: 500, data: {} } }`. -/
def errEmptyObjectBody : JsVal :=
  .obj [("response", .obj [("status", .num 500), ("data", .obj [])])]

/-! ## JavaScript numbers, dates and the time zone -/

/-- JavaScript numbers of the embedding: an integer or `NaN`. -/
inductive JsNum where
  | nan : JsNum
  | int (n : Int) : JsNum
  deriving DecidableEq, Repr

namespace JsNum

/-- Difference `a - b` of two numbers. -/
def sub : JsNum → JsNum → JsNum
  | int a, int b => int (a - b)
  | _, _ => nan

/-- The call `Math.max(a, b)`: `NaN` as soon as one argument is `NaN`. -/
def max : JsNum → JsNum → JsNum
  | int a, int b => int (Max.max a b)
  | _, _ => nan

/-- The comparison `a <= b`: false as soon as one side is `NaN`. -/
def le : JsNum → JsNum → Bool
  | int a, int b => decide (a ≤ b)
  | _, _ => false

end JsNum

/-- Numbers extended with the two infinities: the results of arithmetic on whole
numbers, and what a sort comparator can return. -/
inductive JsExt where
  | nan : JsExt
  | negInf : JsExt
  | fin (n : Int) : JsExt
  | posInf : JsExt
  deriving DecidableEq, Repr

/-- A number of the embedding as an extended number. -/
def JsNum.toExt : JsNum → JsExt
  | .nan => .nan
  | .int n => .fin n

/-- Difference `a - b` of two extended numbers (`Infinity - Infinity` is `NaN`). -/
def JsExt.sub : JsExt → JsExt → JsExt
  | .nan, _ => .nan
  | _, .nan => .nan
  | .fin a, .fin b => .fin (a - b)
  | .fin _, .posInf => .negInf
  | .fin _, .negInf => .posInf
  | .posInf, .posInf => .nan
  | .posInf, _ => .posInf
  | .negInf, .negInf => .nan
  | .negInf, _ => .negInf

/-- How `Array.prototype.sort` reads a comparator result `v`: `a` may stay before `b`
unless `v > 0`; a `NaN` result counts as `0`. -/
def JsExt.notPositive : JsExt → Bool
  | .nan => true
  | .negInf => true
  | .fin n => decide (n ≤ 0)
  | .posInf => false

/-- The least shift `e`, from `e` on, for which `a / 2 ^ e` has at most 53 binary
digits, searched over `fuel` candidates. -/
def shiftTo53 (a : Nat) : Nat → Nat → Nat
  | 0, e => e
  | fuel + 1, e => if a >>> e < 2 ^ 53 then e else shiftTo53 a fuel (e + 1)

/-- The number that IEEE-754 double arithmetic returns when the exact result of an
operation is the integer `n` (round to nearest, ties to even): an integer of magnitude
below `2 ^ 53` is a double; a larger one keeps its 53 leading binary digits `q`, rounded
by the remainder `r`, and the result is an infinity when it reaches `2 ^ 1024`. -/
def JsExt.ofExact (n : Int) : JsExt :=
  let a := n.natAbs
  if a < 2 ^ 53 then .fin n
  else if a >>> 1024 ≠ 0 then (if n < 0 then .negInf else .posInf)
  else
    let e := shiftTo53 a 971 0
    let q := a >>> e
    let r := a - (q <<< e)
    let half := 1 <<< (e - 1)
    let m := if half < r ∨ (half = r ∧ q % 2 = 1) then q + 1 else q
    if (m <<< e) >>> 1024 ≠ 0 then (if n < 0 then .negInf else .posInf)
    else .fin (Int.sign n * ((m <<< e : Nat) : Int))

/-- The double that a whole number of the embedding denotes. -/
def JsNum.toDouble : JsNum → JsExt
  | .nan => .nan
  | .int n => JsExt.ofExact n

/-- Sum `a + b` in double arithmetic (`Infinity + -Infinity` is `NaN`). -/
def JsExt.add : JsExt → JsExt → JsExt
  | .nan, _ => .nan
  | _, .nan => .nan
  | .fin a, .fin b => JsExt.ofExact (a + b)
  | .posInf, .negInf => .nan
  | .negInf, .posInf => .nan
  | .posInf, _ => .posInf
  | .negInf, _ => .negInf
  | .fin _, .posInf => .posInf
  | .fin _, .negInf => .negInf

/-- The sign of an extended number that is not `NaN`: `-1`, `0` or `1`. -/
def JsExt.sign : JsExt → Int
  | .nan => 0
  | .negInf => -1
  | .fin n => Int.sign n
  | .posInf => 1

/-- Product `a * b` in double arithmetic (`Infinity * 0` is `NaN`). -/
def JsExt.mul : JsExt → JsExt → JsExt
  | .nan, _ => .nan
  | _, .nan => .nan
  | .fin a, .fin b => JsExt.ofExact (a * b)
  | a, b =>
    if a.sign * b.sign = 0 then .nan
    else if 0 < a.sign * b.sign then .posInf else .negInf

/-- The call `Math.max(a, b)` on extended numbers. -/
def JsExt.max : JsExt → JsExt → JsExt
  | .nan, _ => .nan
  | _, .nan => .nan
  | .posInf, _ => .posInf
  | _, .posInf => .posInf
  | .negInf, b => b
  | a, .negInf => a
  | .fin a, .fin b => .fin (Max.max a b)

/-- ECMAScript `ToBoolean` on an extended number: `0` and `NaN` are falsy. -/
def JsExt.truthy : JsExt → Bool
  | .fin n => decide (n ≠ 0)
  | .nan => false
  | _ => true

/-- Logical or `a || b` of two extended numbers. -/
def JsExt.or (a b : JsExt) : JsExt :=
  if a.truthy then a else b

/-- Ceiling of the quotient `a / b` for a positive divisor `b`, computed on integers
(`/` on `Int` rounds towards minus infinity for a positive divisor). -/
def ceilDiv (a b : Int) : Int :=
  -((-a) / b)

/-- The constant `1000 * 60 * 60 * 24`: milliseconds in a day. -/
def msPerDay : Int := 1000 * 60 * 60 * 24

/-- The call `Math.ceil(x / (1000 * 60 * 60 * 24))`. -/
def ceilDays : JsNum → JsNum
  | .int x => .int (ceilDiv x msPerDay)
  | .nan => .nan

/-- The browser's time zone as ECMAScript reads it: the offset (in ms) of local time
from UTC at a UTC instant (`LocalTZA(t, true)`) and at a local time value
(`LocalTZA(t, false)`). -/
structure TimeZone where
  offsetAtUtc : Int → Int
  offsetAtLocal : Int → Int

/-- The call `d.setHours(0, 0, 0, 0)` on a `Date` with time value `tv`: the new time
value is local midnight of the local day of `tv` (ECMAScript `LocalTime`, `MakeDate`
of `Day(t)` with time `0`, then `UTC`). An invalid date stays invalid. -/
def setHoursMidnight (tz : TimeZone) : JsNum → JsNum
  | .nan => .nan
  | .int tv =>
    let t := tv + tz.offsetAtUtc tv
    let date := (t / msPerDay) * msPerDay
    .int (date - tz.offsetAtLocal date)

/-- A time zone with a constant offset from UTC (no daylight saving). -/
def TimeZone.fixed (offset : Int) : TimeZone :=
  { offsetAtUtc := fun _ => offset, offsetAtLocal := fun _ => offset }

/-- The zone America/New_York around the end of daylight saving time in 2025: UTC-4
until 2025-11-02T06:00:00Z (02:00 local, `1762063200000`), UTC-5 from then on. -/
def TimeZone.newYork2025 : TimeZone :=
  { offsetAtUtc := fun t => if t < 1762063200000 then -(4 * 3600000) else -(5 * 3600000),
    offsetAtLocal := fun l => if l < 1762048800000 then -(4 * 3600000) else -(5 * 3600000) }

/-! ## `src/pages/BookingForm.jsx` -/

/-- The value of a date input (`startDate`, `endDate`): the empty string, or a
non-empty string, which is represented by the time value that `new Date(value)` has
(milliseconds since the epoch; `NaN` when the string is not a date). An
`<input type="date">` holds `""` or `"YYYY-MM-DD"`, which parses as UTC midnight. -/
inductive DateInput where
  | empty : DateInput
  | value (timeValue : JsNum) : DateInput
  deriving DecidableEq, Repr

/-- The test `!d` on a date input: true of the empty string only. -/
def DateInput.isEmpty : DateInput → Bool
  | .empty => true
  | .value _ => false

/-- The time value of `new Date(d)` for a date input `d` (the empty string is not a date). -/
def DateInput.newDate : DateInput → JsNum
  | .empty => .nan
  | .value t => t

/-- Embedding of the `daysCount` effect of `BookingForm` (lines 90-106): the value
passed to `setDaysCount`. Nothing in the `try` block throws, so the `catch` branch
is never taken. -/
def daysCountEffect (tz : TimeZone) (startDate endDate : DateInput) : JsNum :=
  if startDate.isEmpty || endDate.isEmpty then
    .int 1
  else
    let s := setHoursMidnight tz startDate.newDate
    let e := setHoursMidnight tz endDate.newDate
    let diffMs := e.sub s
    let days := JsNum.max (.int 1) (ceilDays diffMs)
    days

/-- The local calendar day (days since the epoch) on which the instant `tv` falls. -/
def localDay (tz : TimeZone) (tv : Int) : Int :=
  (tv + tz.offsetAtUtc tv) / msPerDay

/-- A JavaScript object known not to be `null`: its own fields. Entities of the
client (rooms' services, users, bookings) are such objects. -/
abbrev JsObject := List (String × JsVal)

/-- Property read `o.k` on an object. -/
def JsObject.get (o : JsObject) (k : String) : JsVal :=
  JsVal.lookupField o k

/-- ECMAScript `Number(v)`. The conversion of a string (`StringToNumber`) is the
parameter `strToNum`; a plain object converts to `NaN`. -/
def JsVal.toNumber (strToNum : String → JsNum) : JsVal → JsNum
  | .undefined => .nan
  | .null => .int 0
  | .bool true => .int 1
  | .bool false => .int 0
  | .num n => .int n
  | .nan => .nan
  | .str s => strToNum s
  | .obj _ => .nan

/-- ECMAScript `SameValueZero`, the comparison of `Array.prototype.includes`, on
primitive values. Two objects are the same value only if they are the same
reference, which the embedding does not track: identifiers are primitive values. -/
def JsVal.sameValueZero : JsVal → JsVal → Bool
  | .undefined, .undefined => true
  | .null, .null => true
  | .bool a, .bool b => a == b
  | .num a, .num b => a == b
  | .nan, .nan => true
  | .str a, .str b => a == b
  | _, _ => false

/-- The call `xs.includes(v)`. -/
def jsIncludes (xs : List JsVal) (v : JsVal) : Bool :=
  xs.any (fun x => x.sameValueZero v)

/-- The expression `Number(room?.pricePerNight || room?.price || 0)`. -/
def roomPrice (strToNum : String → JsNum) (room : JsVal) : JsNum :=
  JsVal.toNumber strToNum
    (((room.optProp "pricePerNight").or (room.optProp "price")).or (.num 0))

/-- Embedding of the `calculatedTotal` effect of `BookingForm` (lines 108-115): the
value passed to `setCalculatedTotal`. The state `availableServices` always holds an
array, so `availableServices || []` is `availableServices`. Amounts are whole numbers
(the embedding has no fractions); products and sums are those of double arithmetic. -/
def calculatedTotalEffect (strToNum : String → JsNum) (room : JsVal)
    (availableServices : List JsObject) (selectedServices : List JsVal)
    (daysCount : JsNum) : JsExt :=
  let roomTotal :=
    (roomPrice strToNum room).toDouble.mul (JsExt.max (.fin 1) (daysCount.toDouble.or (.fin 1)))
  let servicesTotal :=
    (availableServices.filter (fun s => jsIncludes selectedServices (s.get "id"))).foldl
      (fun sum s => sum.add ((JsVal.toNumber strToNum (s.get "price")).toDouble.or (.fin 0)))
      (.fin 0)
  roomTotal.add servicesTotal

/-- The price a service contributes to the total: its numeric price, and `0` when the
price is missing or not a number. -/
def priceOrZero (strToNum : String → JsNum) (s : JsObject) : Int :=
  match JsVal.toNumber strToNum (s.get "price") with
  | .int p => p
  | .nan => 0

/-- A string-to-number conversion for the examples: every string is `NaN`. -/
def noNumericStrings : String → JsNum := fun _ => .nan

/-- The room `{ number: "101", pricePerNight: 1000 }`. -/
def exampleRoom : JsVal :=
  .obj [("number", .str "101"), ("pricePerNight", .num 1000)]

/-- Three available services: breakfast (150), a spa (no price), a transfer (80). -/
def exampleServices : List JsObject :=
  [[("id", .str "svc-breakfast"), ("name", .str "Breakfast"), ("price", .num 150)],
   [("id", .str "svc-spa"), ("name", .str "Spa")],
   [("id", .str "svc-transfer"), ("name", .str "Transfer"), ("price", .num 80)]]

/-- The room `{ number: "900", pricePerNight: 9007199254740992 }`, whose rate is the
double `2 ^ 53`. -/
def roomLargeRate : JsVal :=
  .obj [("number", .str "900"), ("pricePerNight", .num 9007199254740992)]

/-- One available service, priced 1. -/
def serviceOfOne : List JsObject :=
  [[("id", .str "svc-water"), ("name", .str "Water"), ("price", .num 1)]]

/-! ## Browser state: storage and location -/

/-- A Web Storage area (`localStorage`, `sessionStorage`): its key/value entries. -/
structure Storage where
  entries : List (String × String)
  deriving DecidableEq, Repr

/-- The call `storage.getItem(k)`: the stored string, or `null` (`none`). -/
def Storage.getItem (s : Storage) (k : String) : Option String :=
  s.entries.lookup k

/-- The call `storage.removeItem(k)`. -/
def Storage.removeItem (s : Storage) (k : String) : Storage :=
  { entries := s.entries.filter (fun kv => kv.1 != k) }

/-- The part of `window.location` that the client reads and writes. -/
structure Location where
  pathname : String
  search : String
  hash : String
  deriving DecidableEq, Repr

/-- The location after the assignment `window.location.href = path` of a path
without query and fragment. -/
def Location.assignHref (path : String) : Location :=
  { pathname := path, search := "", hash := "" }

/-- Browser state seen by the client. A storage area is `none` when the browser
denies access to it, in which case every use of it throws. -/
structure Browser where
  localStorage : Option Storage
  sessionStorage : Option Storage
  location : Location
  deriving DecidableEq, Repr

/-- The call `localStorage.getItem(k)` in browser state `b`. -/
def Browser.localGetItem (b : Browser) (k : String) : Except JsThrow (Option String) :=
  match b.localStorage with
  | none => .error .securityError
  | some s => .ok (s.getItem k)

/-- ECMAScript `ToBoolean` on the result of `getItem`: `null` and `""` are falsy. -/
def tokenTruthy : Option String → Bool
  | none => false
  | some t => decide (t ≠ "")

/-! ## `src/pages/BookingForm.jsx`: submission -/

/-- The body of the create-booking request. An ISO date string is represented by
the time value it denotes. -/
structure BookingPayload where
  roomId : JsVal
  startDate : Int
  endDate : Int
  serviceIds : List JsVal

/-- Observable actions of a form handler, in the order in which they happen. -/
inductive Effect where
  | preventDefault : Effect
  | swal (title : String) (text : JsVal) (icon : String) : Effect
  | navigate (path : String) : Effect
  | setSubmitting (b : Bool) : Effect
  | postBooking (payload : BookingPayload) (headers : List (String × String)) : Effect

/-- Whether an action is a network call. -/
def Effect.isRequest : Effect → Bool
  | .postBooking _ _ => true
  | _ => false

/-- The call `d.toISOString()` on a `Date` with the given time value: a `RangeError`
on an invalid date. -/
def toISOString : JsNum → Except JsThrow Int
  | .nan => .error .rangeError
  | .int t => .ok t

/-- The error object that a `catch` clause receives for an exception raised by the
runtime (the message texts are those of V8). -/
def JsThrow.toError : JsThrow → JsVal
  | .typeError => .obj [("name", .str "TypeError"), ("message", .str "Cannot read properties of undefined")]
  | .rangeError => .obj [("name", .str "RangeError"), ("message", .str "Invalid time value")]
  | .securityError => .obj [("name", .str "SecurityError"), ("message", .str "Access is denied for this document.")]

/-- The helper `getAuthHeader()` of `BookingForm`. -/
def getAuthHeader (b : Browser) : Except JsThrow (List (String × String)) := do
  let token ← b.localGetItem "jwt_token"
  if tokenTruthy token then
    return [("Authorization", "Bearer " ++ token.getD "null")]
  else
    return []

/-- The `try` block of `handleSubmit` up to the point where `api.post` is called:
the payload and the headers of the request, or the exception raised on the way. -/
def buildBookingRequest (b : Browser) (id : JsVal) (startDate endDate : DateInput)
    (selectedServices : List JsVal) :
    Except JsThrow (BookingPayload × List (String × String)) := do
  let sd ← toISOString startDate.newDate
  let ed ← toISOString endDate.newDate
  let auth ← getAuthHeader b
  return ({ roomId := id, startDate := sd, endDate := ed, serviceIds := selectedServices },
    ("Content-Type", "application/json") :: auth)

/-- The message shown by the `catch` clause of `handleSubmit`:
`err?.response?.data?.message || err?.response?.data?.error || err?.message
 || "Failed to create booking."`. -/
def bookingErrorMessage (err : JsVal) : JsVal :=
  (((((err.optProp "response").optProp "data").optProp "message").or
      (((err.optProp "response").optProp "data").optProp "error")).or
      (err.optProp "message")).or (.str "Failed to create booking.")

/-- The actions that follow a fulfilled `api.post` with response `res`. -/
def afterBookingCreated (res : JsVal) : List Effect :=
  let data := (res.optProp "data").or (.obj [])
  [.swal "Success" (.str "Booking created. Proceed to payment.") "success",
   if (data.optProp "paymentIntentId").truthy then
     .navigate ("/payment/" ++ ((data.optProp "bookingId").or (.str "")).toTemplate)
   else
     .navigate "/my-bookings"]

/-- Embedding of `handleSubmit` of `BookingForm` (lines 129-173): the actions it
performs, in order, and the exception it ends with when one escapes. `postResult`
is the outcome of the network call (`.ok` a response, `.error` a rejection), read
only when the call is made. -/
def handleSubmit (b : Browser) (id : JsVal) (startDate endDate : DateInput)
    (selectedServices : List JsVal) (postResult : Except JsVal JsVal) :
    List Effect × Option JsThrow :=
  if startDate.isEmpty || endDate.isEmpty then
    ([.preventDefault,
      .swal "Dates required" (.str "Please select check-in and check-out dates.") "warning"],
     none)
  else
    let s := startDate.newDate
    let eD := endDate.newDate
    if eD.le s then
      ([.preventDefault,
        .swal "Invalid dates" (.str "Check-out must be after check-in.") "warning"], none)
    else
      match b.localGetItem "jwt_token" with
      | .error t => ([.preventDefault], some t)
      | .ok token =>
        if !tokenTruthy token then
          ([.preventDefault,
            .swal "Login Required" (.str "Please sign in to complete booking.") "warning",
            .navigate "/signin"], none)
        else
          match buildBookingRequest b id startDate endDate selectedServices with
          | .error t =>
            ([.preventDefault, .setSubmitting true,
              .swal "Error" (bookingErrorMessage t.toError) "error",
              .setSubmitting false], none)
          | .ok (payload, headers) =>
            ([.preventDefault, .setSubmitting true, .postBooking payload headers]
              ++ (match postResult with
                  | .ok res => afterBookingCreated res
                  | .error err => [.swal "Error" (bookingErrorMessage err) "error"])
              ++ [.setSubmitting false], none)

/-! ## `src/api.js`: the response interceptor -/

/-- Strict equality `v === n` with a number literal `n`. -/
def JsVal.strictEqNum (v : JsVal) (n : Int) : Bool :=
  match v with
  | .num m => m == n
  | _ => false

/-- The `try` block of the response interceptor, whose `catch` clause only logs a
warning: the three `removeItem` calls in order, stopping at the first that throws. -/
def clearAuthStorage (b : Browser) : Browser :=
  match b.localStorage with
  | none => b
  | some ls =>
    let b1 := { b with
      localStorage := some ((ls.removeItem "jwt_token").removeItem "refresh_token") }
    match b.sessionStorage with
    | none => b1
    | some ss => { b1 with sessionStorage := some (ss.removeItem "some_session_key") }

/-- Embedding of the rejection handler of `API.interceptors.response` (lines 45-60):
the browser state it leaves and the promise it returns (`.error e` is
`Promise.reject(e)`). In the browser `typeof window !== "undefined"` holds. -/
def responseErrorInterceptor (b : Browser) (error : JsVal) : Browser × Except JsVal JsVal :=
  let status := (error.optProp "response").optProp "status"
  if status.strictEqNum 401 then
    let b1 := clearAuthStorage b
    let b2 :=
      if b1.location.pathname != "/signin" then
        { b1 with location := Location.assignHref "/signin" }
      else b1
    (b2, .error error)
  else
    (b, .error error)

/-- A browser holding a token, on the booking page of room 7. -/
def exampleBrowser : Browser :=
  { localStorage := some { entries := [("jwt_token", "abc.def.ghi"),
      ("refresh_token", "r-123"), ("user", "(profile)")] },
    sessionStorage := some { entries := [("some_session_key", "1")] },
    location := { pathname := "/booking/7", search := "", hash := "" } }

/-! ## `src/pages/AdminDashboard.jsx`: pagination and the user filter -/

/-- The constant `ITEMS_PER_PAGE`. -/
def ITEMS_PER_PAGE : Int := 5

/-- The call `data.slice(start, stop)` of `Array.prototype.slice` on integer
arguments: a negative index counts from the end, and both ends are clamped to
`0 .. data.length`. -/
def jsSlice {α : Type} (data : List α) (start stop : Int) : List α :=
  let len : Int := data.length
  let k := if start < 0 then max (len + start) 0 else min start len
  let final := if stop < 0 then max (len + stop) 0 else min stop len
  (data.drop k.toNat).take (final - k).toNat

/-- Embedding of `getPaginatedData(data, page)` (lines 122-125). -/
def getPaginatedData {α : Type} (data : List α) (page : Int) : List α :=
  let startIndex := (page - 1) * ITEMS_PER_PAGE
  jsSlice data startIndex (startIndex + ITEMS_PER_PAGE)

/-- Embedding of `getTotalPages(data)` (line 126): `Math.ceil(data.length / ITEMS_PER_PAGE)`. -/
def getTotalPages {α : Type} (data : List α) : Int :=
  ceilDiv data.length ITEMS_PER_PAGE

/-- Strict equality `v === s` with a string literal `s`. -/
def JsVal.strictEqStr (v : JsVal) (s : String) : Bool :=
  match v with
  | .str t => t == s
  | _ => false

/-- The part of the state of `AdminDashboard` that the list views read. -/
structure DashboardState where
  users : List JsObject
  bookings : List JsObject
  userFilter : String
  usersPage : Int
  bookingsPage : Int

/-- Embedding of `getFilteredUsers()` (lines 138-142), a closure over the state. -/
def getFilteredUsers (st : DashboardState) : List JsObject :=
  if st.userFilter == "admin" then
    st.users.filter (fun u => (u.get "role").strictEqStr "Admin")
  else if st.userFilter == "user" then
    st.users.filter (fun u => !(u.get "role").strictEqStr "Admin")
  else
    st.users

/-- The state after a click on a filter tab: `setUserFilter(tab)`. -/
def setUserFilter (st : DashboardState) (tab : String) : DashboardState :=
  { st with userFilter := tab }

/-- Four users: an admin, two guests, and a user whose role is spelled in lower case. -/
def exampleUsers : List JsObject :=
  [[("id", .num 1), ("role", .str "Admin")],
   [("id", .num 2), ("role", .str "User")],
   [("id", .num 3)],
   [("id", .num 4), ("role", .str "admin")]]

/-- The error `{ response: { status: 401, data: "" } }` of an unauthorized call. -/
def errUnauthorized : JsVal :=
  .obj [("response", .obj [("status", .num 401), ("data", .str "")])]

/-! ## `src/api.js`: the request interceptor -/

/-- An outgoing request configuration as the request interceptor receives it: its
`headers` (an object, or absent) and all its other fields (`url`, `method`, `data`,
`params`, ...). -/
structure RequestConfig where
  headers : Option JsObject
  others : JsObject

/-- The assignment `o.k = v` on an object: the binding of `k` is replaced when there
is one, and added otherwise. -/
def JsObject.set (o : JsObject) (k : String) (v : JsVal) : JsObject :=
  match o with
  | [] => [(k, v)]
  | (k', v') :: rest => if k' == k then (k, v) :: rest else (k', v') :: JsObject.set rest k v

/-- Embedding of the request interceptor of `src/api.js` (lines 12-23): the
configuration it returns. Storage is only read; when reading throws, the `catch`
clause logs a warning and the configuration is returned as it came. -/
def requestInterceptor (b : Browser) (config : RequestConfig) : RequestConfig :=
  match b.localGetItem "jwt_token" with
  | .error _ => config
  | .ok token =>
    if tokenTruthy token then
      { config with
        headers := some (JsObject.set (config.headers.getD []) "Authorization"
          (.str ("Bearer " ++ token.getD "null"))) }
    else
      config

/-- A `GET /Admin/users` request configuration with an `Accept` header. -/
def exampleConfig : RequestConfig :=
  { headers := some [("Accept", .str "application/json")],
    others := [("url", .str "/Admin/users"), ("method", .str "get"), ("timeout", .num 15000)] }

/-! ## `src/pages/AdminDashboard.jsx`: the dashboard load -/

/-- Functions of the JavaScript runtime that the dashboard code calls and that the
embedding takes as parameters: the time value of `new Date(v)` (`NaN` for an invalid
date), `String.prototype.toLowerCase` and `String.prototype.trim`. -/
structure JsLib where
  dateOf : JsVal → JsNum
  toLowerCase : String → String
  trim : String → String

/-- The call `xs.sort(cmp)` (on a copy of `xs`). `Array.prototype.sort` is stable, and
for a consistent comparator its result is the one stable sorted arrangement of `xs`,
which insertion sort computes. For a comparator that is not consistent on `xs` (one
that answers `NaN` for some pairs) ECMAScript leaves the order to the engine: the
result is then a permutation of `xs`, and it is `xs` itself when no element compares
as smaller than its left neighbour, which is also what insertion sort gives. -/
def jsSort {α : Type} (cmp : α → α → JsExt) (xs : List α) : List α :=
  xs.insertionSort (fun a b => (cmp a b).notPositive = true)

/-- The expression `b.startDate ? new Date(b.startDate).getTime() : 0`. -/
def bookingStartTime (lib : JsLib) (b : JsObject) : JsNum :=
  if (b.get "startDate").truthy then lib.dateOf (b.get "startDate") else .int 0

/-- The comparator of the bookings sort: `da - db`. -/
def compareBookings (lib : JsLib) (a b : JsObject) : JsExt :=
  ((bookingStartTime lib a).sub (bookingStartTime lib b)).toExt

/-- The list `allBookings` of `loadData` (lines 202-206). The comparator is consistent
when every start date that is present is a valid date. -/
def sortBookings (lib : JsLib) (allBookingsRaw : List JsObject) : List JsObject :=
  jsSort (compareBookings lib) allBookingsRaw

/-- Embedding of `parseUserCreatedAt(u)` (lines 209-219) on a user object: the time
value of the first candidate field that is truthy and a valid date, `none` for `null`. -/
def parseUserCreatedAt (lib : JsLib) (u : JsObject) : Option Int :=
  [u.get "createdAt", u.get "created_at", u.get "createdOn", u.get "registeredAt",
    u.get "registered_on", u.get "created"].findSome? (fun c =>
      if c.truthy then
        match lib.dateOf c with
        | .int t => some t
        | .nan => none
      else none)

/-- The comparator of the users sort (lines 220-227). -/
def compareUsers (lib : JsLib) (a b : JsObject) : JsExt :=
  match parseUserCreatedAt lib a, parseUserCreatedAt lib b with
  | some ta, some tb => .fin (ta - tb)
  | some _, none => .fin (-1)
  | none, some _ => .fin 1
  | none, none => .fin 0

/-- The list `allUsers` of `loadData` (lines 220-227). -/
def sortUsers (lib : JsLib) (allUsersRaw : List JsObject) : List JsObject :=
  jsSort (compareUsers lib) allUsersRaw

/-- The method call `v.toLowerCase()`: defined on strings only. -/
def toLowerCaseCall (lib : JsLib) : JsVal → Except JsThrow String
  | .str s => .ok (lib.toLowerCase s)
  | _ => .error .typeError

/-- The callback of the `activeList` filter (lines 231-236) at current time `now`. -/
def isActiveBooking (lib : JsLib) (now : Int) (b : JsObject) : Except JsThrow Bool := do
  let endDate : Option JsNum :=
    if (b.get "endDate").truthy then some (lib.dateOf (b.get "endDate")) else none
  let status ← toLowerCaseCall lib ((b.get "status").or (.str ""))
  match endDate with
  | none => return false
  | some t => return (JsNum.le (.int now) t && status != "cancelled" && status != "rejected")

/-- The list `activeList` of `loadData`: `allBookings.filter(...)`, or the exception
that the callback raises. -/
def activeList (lib : JsLib) (now : Int) : List JsObject → Except JsThrow (List JsObject)
  | [] => .ok []
  | b :: rest => do
    let keep ← isActiveBooking lib now b
    let tail ← activeList lib now rest
    return (if keep then b :: tail else tail)

/-- The call `set.add(k)` on a `Set` of strings, kept in insertion order. -/
def setAdd (set : List String) (k : String) : List String :=
  if k ∈ set then set else set ++ [k]

/-- The expression `a.room?.id ?? a.roomId ?? a.room?.roomId`. -/
def bookingRoomId (a : JsObject) : JsVal :=
  (((a.get "room").optProp "id").coalesce (a.get "roomId")).coalesce
    ((a.get "room").optProp "roomId")

/-- The set `roomIdSetActive` of `loadData` after its loop (lines 255-259). -/
def roomIdSetActive (active : List JsObject) : List String :=
  active.foldl (fun set a =>
    if (bookingRoomId a).truthy then setAdd set (bookingRoomId a).toTemplate else set) []

/-- The statistic `roomsBooked`: `roomIdSetActive.size`. -/
def roomsBooked (active : List JsObject) : Int :=
  (roomIdSetActive active).length

/-- The statistic `roomsFree`: `Math.max(0, roomsTotal - roomsBooked)`. -/
def roomsFree (allRooms active : List JsObject) : Int :=
  max 0 ((allRooms.length : Int) - roomsBooked active)

/-- The room key that an active booking contributes: `String(rid)` when its room id
`rid` is truthy. -/
def bookingRoomKey (a : JsObject) : Option String :=
  if (bookingRoomId a).truthy then some (bookingRoomId a).toTemplate else none

/-- The expression `u.id ?? u.userId ?? bk.userId ?? u._id ?? null` of
`getBookingUserKey`, where `u` is `bk.user || {}`. -/
def bookingPossibleId (bk : JsObject) : JsVal :=
  let u := (bk.get "user").or (.obj [])
  ((((u.optProp "id").coalesce (u.optProp "userId")).coalesce (bk.get "userId")).coalesce
    (u.optProp "_id")).coalesce .null

/-- Embedding of `getBookingUserKey(bk)` (lines 241-246). `randomText` is the text of
the value that `Math.random()` returns if it is called for this booking. -/
def getBookingUserKey (lib : JsLib) (randomText : String) (bk : JsObject) : String :=
  if (bookingPossibleId bk).truthy then
    lib.toLowerCase (lib.trim (bookingPossibleId bk).toTemplate)
  else
    "booking:" ++ (if (bk.get "id").isNullish then randomText else (bk.get "id").toTemplate)

/-- The set `userKeys` of `loadData` after its loop (lines 248-252) over the bookings
from position `i` on, started with the set `set`. `randomText i` is the text of the
value that `Math.random()` returns if it is called for the booking at position `i`. -/
def userKeysLoop (lib : JsLib) (randomText : Nat → String) :
    Nat → List String → List JsObject → List String
  | _, set, [] => set
  | i, set, bk :: rest =>
    let key := getBookingUserKey lib (randomText i) bk
    userKeysLoop lib randomText (i + 1) (if key ≠ "" then setAdd set key else set) rest

/-- The statistic `usersWithBookings`: `userKeys.size`. -/
def usersWithBookings (lib : JsLib) (randomText : Nat → String) (allBookings : List JsObject) :
    Int :=
  (userKeysLoop lib randomText 0 [] allBookings).length

/-- The booking-owner keys of the bookings from position `i` on, in list order (an
empty key is not a key). -/
def bookingUserKeys (lib : JsLib) (randomText : Nat → String) :
    Nat → List JsObject → List String
  | _, [] => []
  | i, bk :: rest =>
    (if getBookingUserKey lib (randomText i) bk ≠ "" then
      [getBookingUserKey lib (randomText i) bk] else [])
      ++ bookingUserKeys lib randomText (i + 1) rest

/-- The value `{ roomNumber, date }` stored as next vacancy. -/
structure NextFree where
  roomNumber : JsVal
  date : JsNum

/-- The expression `x.endDate ? new Date(x.endDate).getTime() : Infinity`. -/
def bookingEndTime (lib : JsLib) (x : JsObject) : JsExt :=
  if (x.get "endDate").truthy then (lib.dateOf (x.get "endDate")).toExt else .posInf

/-- The comparator of the sort by end date: `ex - ey`. -/
def compareByEnd (lib : JsLib) (x y : JsObject) : JsExt :=
  (bookingEndTime lib x).sub (bookingEndTime lib y)

/-- The expression `first.room?.number ?? first.Number ?? first.roomNumber ?? "Unknown"`. -/
def bookingRoomNumber (first : JsObject) : JsVal :=
  ((((first.get "room").optProp "number").coalesce (first.get "Number")).coalesce
    (first.get "roomNumber")).coalesce (.str "Unknown")

/-- The value `nextFree` of `loadData` (lines 265-276). -/
def nextFree (lib : JsLib) (active : List JsObject) : Option NextFree :=
  if active.length > 0 then
    match (jsSort (compareByEnd lib) active).head? with
    | none => none
    | some first =>
      if (first.get "endDate").truthy then
        some { roomNumber := bookingRoomNumber first, date := lib.dateOf (first.get "endDate") }
      else none
  else none

/-- The values that a dashboard load stores when it succeeds. -/
structure DashboardData where
  users : List JsObject
  bookings : List JsObject
  rooms : List JsObject
  accountsCount : Int
  usersWithBookingCount : Int
  roomsBookedNow : Int
  roomsFreeNow : Int
  nextRoomFree : Option NextFree

/-- The body of `loadData` (lines 190-287) after the four fetches have succeeded with
the arrays `allUsersRaw`, `allBookingsRaw` and `allRooms`, at current time `now`:
the values passed to the state setters, or the exception raised on the way. (The
services list is normalized independently of these values.) -/
def loadDataValues (lib : JsLib) (now : Int) (randomText : Nat → String)
    (allUsersRaw allBookingsRaw allRooms : List JsObject) : Except JsThrow DashboardData := do
  let allBookings := sortBookings lib allBookingsRaw
  let allUsers := sortUsers lib allUsersRaw
  let active ← activeList lib now allBookings
  return {
    users := allUsers
    bookings := allBookings
    rooms := allRooms
    accountsCount := allUsers.length
    usersWithBookingCount := usersWithBookings lib randomText allBookings
    roomsBookedNow := roomsBooked active
    roomsFreeNow := roomsFree allRooms active
    nextRoomFree := nextFree lib active }

/-- Embedding of `reloadUsers()` (lines 582-588): the state after the fetch of
`/Admin/users` has ended with `res` (`.ok data` for a response whose `data || []` is
the array `data`, `.error e` for a rejection, which is only logged). -/
def reloadUsers (st : DashboardState) (res : Except JsVal (List JsObject)) : DashboardState :=
  match res with
  | .ok data => { st with users := data }
  | .error _ => st

/-- Embedding of the pagination safety effect (lines 161-169): the state after the
effect has run on the state `st` of the render. -/
def paginationSafetyEffect (st : DashboardState) : DashboardState :=
  let st1 :=
    if st.bookingsPage > getTotalPages st.bookings && st.bookings.length > 0 then
      { st with bookingsPage := 1 }
    else st
  let filteredUsersCount := (getFilteredUsers st).length
  let totalUserPages := ceilDiv (filteredUsersCount : Int) ITEMS_PER_PAGE
  if st.usersPage > totalUserPages && filteredUsersCount > 0 then
    { st1 with usersPage := 1 }
  else st1

/-- Library functions for the examples: dates are given as time values or as one of
a few ISO strings; lower-casing and trimming act on ASCII. -/
def exampleLib : JsLib :=
  { dateOf := fun v =>
      match v with
      | .num n => .int n
      | .str "2024-01-10T00:00:00.000Z" => .int 1704844800000
      | .str "2024-02-20T00:00:00.000Z" => .int 1708387200000
      | .str "2025-11-05T00:00:00.000Z" => .int 1762300800000
      | .str "2025-11-08T00:00:00.000Z" => .int 1762560000000
      | _ => .nan,
    toLowerCase := fun s => String.mk (s.data.map Char.toLower),
    trim := fun s =>
      String.mk ((s.data.dropWhile Char.isWhitespace).reverse.dropWhile
        Char.isWhitespace).reverse }

/-- The lower-cased status text of a booking: `(b.status || "").toLowerCase()` for a
status that is a string or falsy. -/
def bookingStatusLower (lib : JsLib) (b : JsObject) : String :=
  match (b.get "status").or (.str "") with
  | .str s => lib.toLowerCase s
  | _ => ""

/-- Whether a booking is active at time `now`: it has an end date whose time value is
at or after `now`, and its lower-cased status is neither `cancelled` nor `rejected`. -/
def activeAt (lib : JsLib) (now : Int) (b : JsObject) : Bool :=
  (b.get "endDate").truthy
    && JsNum.le (.int now) (lib.dateOf (b.get "endDate"))
    && bookingStatusLower lib b != "cancelled"
    && bookingStatusLower lib b != "rejected"

/-- A booking of room 7 that ends on 2025-11-05 at 00:00 UTC, approved. -/
def bookingEndingToday : JsObject :=
  [("id", .num 31), ("roomId", .num 7), ("userId", .str "U-7"),
   ("startDate", .str "2025-11-03T00:00:00.000Z"),
   ("endDate", .str "2025-11-05T00:00:00.000Z"), ("status", .str "Approved")]

/-- A booking of room 7 that ends on 2025-11-08 at 00:00 UTC, pending. -/
def bookingEndingLater : JsObject :=
  [("id", .num 32), ("room", .obj [("id", .num 7), ("number", .str "107")]),
   ("user", .obj [("id", .str "u-7")]),
   ("startDate", .str "2025-11-05T00:00:00.000Z"),
   ("endDate", .str "2025-11-08T00:00:00.000Z"), ("status", .str "Pending")]

/-- A booking of room 9 that ends on 2025-11-08 at 00:00 UTC, approved, without owner. -/
def bookingOtherRoom : JsObject :=
  [("id", .num 33), ("room", .obj [("id", .num 9), ("number", .str "109")]),
   ("endDate", .str "2025-11-08T00:00:00.000Z"), ("status", .str "approved")]

/-- Three rooms. -/
def exampleRooms : List JsObject :=
  [[("id", .num 7), ("number", .str "107")], [("id", .num 8), ("number", .str "108")],
   [("id", .num 9), ("number", .str "109")]]

/-- Random texts for the examples: `0.251`, `0.252`, ... -/
def exampleRandomText : Nat → String := fun i => "0.25" ++ toString (i + 1)

/-- The start timestamp by which a booking is sorted: the time value of its start
date, and `0` when it has no start date. -/
def startKey (lib : JsLib) (b : JsObject) : Int :=
  match bookingStartTime lib b with
  | .int n => n
  | .nan => 0

/-- Four fetched bookings: starts on 2024-02-20, none, 2024-01-10, 2024-02-20. -/
def exampleBookingsRaw : List JsObject :=
  [[("id", .num 1), ("startDate", .str "2024-02-20T00:00:00.000Z")],
   [("id", .num 2)],
   [("id", .num 3), ("startDate", .str "2024-01-10T00:00:00.000Z")],
   [("id", .num 4), ("startDate", .str "2024-02-20T00:00:00.000Z")]]

/-- Four fetched users: created on 2024-02-20, unknown, created on 2024-01-10 (under
the key `created_at`), and one whose `createdAt` is not a date. -/
def exampleUsersRaw : List JsObject :=
  [[("id", .num 1), ("createdAt", .str "2024-02-20T00:00:00.000Z")],
   [("id", .num 2)],
   [("id", .num 3), ("created_at", .str "2024-01-10T00:00:00.000Z")],
   [("id", .num 4), ("createdAt", .str "yesterday")]]

/-- A booking of the room with id `"7"` (a string) by the user `U-7`, from 2025-11-05
to 2025-11-08, approved. -/
def bookingSameRoomText : JsObject :=
  [("id", .num 34), ("roomId", .str "7"), ("userId", .str "U-7"),
   ("startDate", .str "2025-11-05T00:00:00.000Z"),
   ("endDate", .str "2025-11-08T00:00:00.000Z"), ("status", .str "Approved")]

/-- A booking of the room with id `0`, from 2025-11-05 to 2025-11-08, approved. -/
def bookingRoomZero : JsObject :=
  [("id", .num 35), ("roomId", .num 0), ("userId", .str "u-9"),
   ("startDate", .str "2025-11-05T00:00:00.000Z"),
   ("endDate", .str "2025-11-08T00:00:00.000Z"), ("status", .str "approved")]

/-- A hotel of one room, whose id is `0`. -/
def roomZeroOnly : List JsObject :=
  [[("id", .num 0), ("number", .str "100")]]

/-- A booking without owner and without booking id, ending on 2025-11-08. -/
def bookingAnonymous : JsObject :=
  [("roomId", .num 8), ("endDate", .str "2025-11-08T00:00:00.000Z"),
   ("status", .str "approved")]

/-- Three fetched bookings: one that starts on 2024-02-20, one whose start date is
not a date, one without start date. -/
def exampleBookingsUnparsed : List JsObject :=
  [[("id", .num 1), ("startDate", .str "2024-02-20T00:00:00.000Z")],
   [("id", .num 3), ("startDate", .str "garbage")],
   [("id", .num 4)]]

/-- The end timestamp of a booking with a valid end date. -/
def endKey (lib : JsLib) (b : JsObject) : Int :=
  match lib.dateOf (b.get "endDate") with
  | .int t => t
  | .nan => 0

/-- The dashboard on page 2 of the users, just after the `admin` tab was selected:
one of the four users is an admin, so the filtered list has a single page. -/
def exampleDashboard : DashboardState :=
  { users := exampleUsers, bookings := exampleBookingsRaw, userFilter := "admin",
    usersPage := 2, bookingsPage := 1 }

/-! ## Requests of the booking actions -/

/-- Method and path of a request handed to the HTTP client. -/
structure HttpRequest where
  method : String
  path : String
  deriving DecidableEq, Repr

/-- Embedding of `approveBooking(id)` of `src/api.js` (line 135). -/
def approveBooking (id : JsVal) : HttpRequest :=
  { method := "PUT", path := "/Admin/bookings/" ++ id.toTemplate ++ "/approve" }

/-- Embedding of `rejectBooking(id)` of `src/api.js` (line 136). -/
def rejectBooking (id : JsVal) : HttpRequest :=
  { method := "DELETE", path := "/Admin/bookings/" ++ id.toTemplate ++ "/reject" }

/-- Embedding of `completeBooking(id)` of `src/api.js` (line 137). -/
def completeBooking (id : JsVal) : HttpRequest :=
  { method := "PUT", path := "/Admin/bookings/" ++ id.toTemplate ++ "/complete" }

/-- The request that `handleBookingAction(id, action)` of `AdminDashboard`
(lines 531-538) issues, if any: none when `id` or `action` is falsy, and none for an
action other than `approve`, `reject`, `complete`. -/
def handleBookingActionRequest (id : JsVal) (action : String) : Option HttpRequest :=
  if !id.truthy || action == "" then none
  else if action == "approve" then
    some { method := "PUT", path := "/Admin/bookings/" ++ id.toTemplate ++ "/approve" }
  else if action == "reject" then
    some { method := "PUT", path := "/Admin/bookings/" ++ id.toTemplate ++ "/reject" }
  else if action == "complete" then
    some { method := "PUT", path := "/Admin/bookings/" ++ id.toTemplate ++ "/complete" }
  else none

/-! ## Rendering of a user row -/

/-- The value `isAdmin` of a user row of `AdminDashboard` (line 813):
`String(u.role || "").toLowerCase() === "admin"`. A row with `isAdmin` shows the admin
badge and the action "Demote to Guest", any other row the guest badge and the action
"Promote to Admin". -/
def rowIsAdmin (lib : JsLib) (u : JsObject) : Bool :=
  lib.toLowerCase ((u.get "role").or (.str "")).toTemplate == "admin"

/-- The dashboard state with the example users and the given filter tab. -/
def exampleDashboardTab (tab : String) : DashboardState :=
  { users := exampleUsers, bookings := [], userFilter := tab, usersPage := 1,
    bookingsPage := 1 }

/-- The pages `1 .. n` of a list, one after the other. -/
def pagesConcat {α : Type} (l : List α) (n : Nat) : List α :=
  (List.range n).flatMap (fun i => getPaginatedData l ((i : Int) + 1))

/-! ## `src/pages/PaymentPage.jsx` -/

/-- The state of `PaymentPage`. -/
structure PaymentState where
  clientSecret : JsVal
  bd : JsVal
  loading : Bool
  errorMsg : String

/-- The initial state of `PaymentPage` (lines 122-125). -/
def PaymentState.initial : PaymentState :=
  { clientSecret := .null, bd := .null, loading := true, errorMsg := "" }

/-- What `PaymentPage` renders (lines 178-190 and 282): the spinner, the error view
"Unable to Process" with a message, or the checkout page, on which the checkout form
is mounted when there is a client secret. -/
inductive PaymentView where
  | spinner : PaymentView
  | errorView (msg : String) : PaymentView
  | checkout (formShown : Bool) : PaymentView
  deriving DecidableEq, Repr

/-- The render branches of `PaymentPage`: `loading ? ... : errorMsg ? ... : ...`. -/
def paymentView (st : PaymentState) : PaymentView :=
  if st.loading then .spinner
  else if st.errorMsg ≠ "" then .errorView st.errorMsg
  else .checkout st.clientSecret.truthy

/-- Embedding of `initPage()` of `PaymentPage` (lines 128-154): the state after it has
run, `bookingRes` being the outcome of `getBooking` and `intentRes` that of
`createPaymentIntent` (`.ok` a response, `.error` a rejection). -/
def initPage (st : PaymentState) (bookingRes intentRes : Except JsVal JsVal) : PaymentState :=
  let st0 := { st with loading := true }
  let st1 :=
    match bookingRes with
    | .ok r =>
      match r.prop "data" with
      | .ok d => { st0 with bd := d }
      | .error _ => { st0 with errorMsg := "Could not load booking details." }
    | .error _ => { st0 with errorMsg := "Could not load booking details." }
  let st2 :=
    match intentRes with
    | .error _ => { st1 with errorMsg := "Error connecting to payment server." }
    | .ok res =>
      match res.prop "data" with
      | .error _ => { st1 with errorMsg := "Error connecting to payment server." }
      | .ok data =>
        if data.truthy && (data.optProp "clientSecret").truthy then
          { st1 with clientSecret := data.optProp "clientSecret" }
        else
          { st1 with errorMsg := "Failed to initialize payment gateway." }
  { st2 with loading := false }

/-- The effect of `PaymentPage` (lines 127-157): `if (bookingId) initPage()`. -/
def paymentPageEffect (bookingId : JsVal) (st : PaymentState)
    (bookingRes intentRes : Except JsVal JsVal) : PaymentState :=
  if bookingId.truthy then initPage st bookingRes intentRes else st

/-- The response `{ data: { clientSecret: "pi_3_secret_9", bookingId: 31 } }` of a
created payment intent. -/
def intentResponse : JsVal :=
  .obj [("data", .obj [("clientSecret", .str "pi_3_secret_9"), ("bookingId", .num 31)])]

/-- The response `{ data: { id: 31, totalAmount: 3150 } }` of the booking detail. -/
def bookingResponse : JsVal :=
  .obj [("data", .obj [("id", .num 31), ("totalAmount", .num 3150)])]

/-- The state of `CheckoutForm`. -/
structure CheckoutState where
  loading : Bool
  error : JsVal

/-- What a run of `handleSubmit` of `CheckoutForm` leaves: the state, whether
`confirmPayment` was called, whether `onSuccess` was invoked, and the exception that
escaped, if any. -/
structure CheckoutOutcome where
  state : CheckoutState
  confirmCalled : Bool
  successInvoked : Bool
  uncaught : Option JsThrow

/-- Embedding of `handleSubmit` of `CheckoutForm` (lines 49-78). `stripe` and `elements`
tell whether the two hooks have a value, `result` is what `stripe.confirmCardPayment`
resolves with, `confirmResult` the outcome of `confirmPayment(bookingId)`. The handler
starts with `setLoading(true)` and `setError(null)`. -/
def checkoutHandleSubmit (stripe elements : Bool) (result : JsVal)
    (confirmResult : Except JsVal JsVal) : CheckoutOutcome :=
  let st0 : CheckoutState := { loading := true, error := .null }
  if !stripe || !elements then
    { state := st0, confirmCalled := false, successInvoked := false, uncaught := none }
  else
    match result.prop "error" with
    | .error t =>
      { state := st0, confirmCalled := false, successInvoked := false, uncaught := some t }
    | .ok err =>
      if err.truthy then
        { state := { loading := false, error := err.optProp "message" },
          confirmCalled := false, successInvoked := false, uncaught := none }
      else
        match (result.optProp "paymentIntent").prop "status" with
        | .error t =>
          { state := st0, confirmCalled := false, successInvoked := false, uncaught := some t }
        | .ok status =>
          if status.strictEqStr "succeeded" then
            match confirmResult with
            | .ok _ =>
              { state := st0, confirmCalled := true, successInvoked := true, uncaught := none }
            | .error _ =>
              { state :=
                  { loading := false,
                    error := .str "Payment succeeded but failed to confirm with server." },
                confirmCalled := true, successInvoked := false, uncaught := none }
          else
            { state := st0, confirmCalled := false, successInvoked := false, uncaught := none }

/-- Whether the pay button is disabled: `disabled={!stripe || loading}`. -/
def payButtonDisabled (stripe : Bool) (st : CheckoutState) : Bool :=
  !stripe || st.loading

/-- The charge result `{ paymentIntent: { id: "pi_3", status: "succeeded" } }`. -/
def chargeSucceeded : JsVal :=
  .obj [("paymentIntent", .obj [("id", .str "pi_3"), ("status", .str "succeeded")])]

/-- The charge result `{ paymentIntent: { id: "pi_3", status: "requires_capture" } }` of
a card that was authorized but not captured. -/
def chargeRequiresCapture : JsVal :=
  .obj [("paymentIntent", .obj [("id", .str "pi_3"), ("status", .str "requires_capture")])]

/-- The charge result `{ error: { message: "Your card was declined." } }`. -/
def chargeDeclined : JsVal :=
  .obj [("error", .obj [("code", .str "card_declined"),
    ("message", .str "Your card was declined.")])]

/-! ## `src/pages/AdminDashboard.jsx`: the whole dashboard load -/

/-- A number as a JavaScript value. -/
def JsNum.toVal : JsNum → JsVal
  | .nan => .nan
  | .int n => .num n

/-- The normalization of one service in `loadData` (lines 195-199): the object
`{ ...s, price: isNaN(p) ? 0 : p }` with
`p = Number(s.price ?? s.Price ?? s.amount ?? s.cost ?? s.value ?? 0)`. -/
def normalizeService (strToNum : String → JsNum) (s : JsObject) : JsObject :=
  let possible :=
    (((((s.get "price").coalesce (s.get "Price")).coalesce (s.get "amount")).coalesce
      (s.get "cost")).coalesce (s.get "value")).coalesce (.num 0)
  let p := JsVal.toNumber strToNum possible
  JsObject.set s "price" (if p = .nan then .num 0 else p.toVal)

/-- Everything that `AdminDashboard` stores about its data: the lists with their
pagination and filter, the rooms, the services, the five statistics and the
`loading` flag. -/
structure DashboardStore where
  lists : DashboardState
  rooms : List JsObject
  services : List JsObject
  accountsCount : Int
  usersWithBookingCount : Int
  roomsBookedNow : Int
  roomsFreeNow : Int
  nextRoomFree : Option NextFree
  loading : Bool

/-- The outcome of one `api.get` of a list: `.ok data` for a response whose
`data || []` is the array `data`, `.error e` for a rejection with `e`. -/
abbrev FetchResult := Except JsVal (List JsObject)

/-- The dialog of the `catch` clause of `loadData`. -/
def loadDataErrorDialog : Effect :=
  .swal "Error" (.str "Failed to load dashboard data.") "error"

/-- Embedding of `loadData()` (lines 180-294): the store after the load and the
dialogs it raised. The four fetches are joined with `Promise.all`, which rejects as
soon as one of them is rejected; the state setters are called only after all values
have been computed; the `finally` clause resets `loading`. -/
def loadData (lib : JsLib) (strToNum : String → JsNum) (now : Int)
    (randomText : Nat → String) (st : DashboardStore) (uRes bRes rRes sRes : FetchResult) :
    DashboardStore × List Effect :=
  match uRes, bRes, rRes, sRes with
  | .ok allUsersRaw, .ok allBookingsRaw, .ok allRooms, .ok rawServices =>
    match loadDataValues lib now randomText allUsersRaw allBookingsRaw allRooms with
    | .ok d =>
      ({ lists := { st.lists with users := d.users, bookings := d.bookings },
         rooms := d.rooms,
         services := rawServices.map (normalizeService strToNum),
         accountsCount := d.accountsCount,
         usersWithBookingCount := d.usersWithBookingCount,
         roomsBookedNow := d.roomsBookedNow,
         roomsFreeNow := d.roomsFreeNow,
         nextRoomFree := d.nextRoomFree,
         loading := false }, [])
    | .error _ => ({ st with loading := false }, [loadDataErrorDialog])
  | _, _, _, _ => ({ st with loading := false }, [loadDataErrorDialog])

/-- A dashboard store that holds data of an earlier load. -/
def exampleStore : DashboardStore :=
  { lists := exampleDashboard, rooms := exampleRooms, services := exampleServices,
    accountsCount := 4, usersWithBookingCount := 2, roomsBookedNow := 2, roomsFreeNow := 1,
    nextRoomFree := some { roomNumber := .str "107", date := .int 1762560000000 },
    loading := false }

/-! ## `src/pages/EditProfile.jsx` -/

/-- The character class `\s` of JavaScript regular expressions, which is also the set
of characters that `String.prototype.trim` removes (white space and line terminators). -/
def jsIsWhitespace (c : Char) : Bool :=
  c.toNat == 9 || c.toNat == 10 || c.toNat == 11 || c.toNat == 12 || c.toNat == 13
    || c.toNat == 32 || c.toNat == 0xA0 || c.toNat == 0x1680
    || (decide (0x2000 ≤ c.toNat) && decide (c.toNat ≤ 0x200A))
    || c.toNat == 0x2028 || c.toNat == 0x2029 || c.toNat == 0x202F || c.toNat == 0x205F
    || c.toNat == 0x3000 || c.toNat == 0xFEFF

/-- The call `s.trim()`. -/
def jsTrim (s : String) : String :=
  String.mk ((s.data.dropWhile jsIsWhitespace).reverse.dropWhile jsIsWhitespace).reverse

/-- The call `s.replace(/\s+/g, "")`. -/
def removeWhitespace (s : String) : String :=
  String.mk (s.data.filter (fun c => !jsIsWhitespace c))

/-- The call `s.replace(/\D/g, "")`: the decimal digits `0`-`9` of `s`, in order. -/
def digitsOf (s : String) : String :=
  String.mk (s.data.filter Char.isDigit)

/-- Embedding of `sanitizePhoneInput(input)` (lines 44-50). -/
def sanitizePhoneInput (input : String) : String :=
  if input = "" then ""
  else
    let hasPlus := input.data.head? == some '+'
    let digits := digitsOf input
    let capped := String.mk (digits.data.take 15)
    if hasPlus then "+" ++ capped else capped

/-- The test `/^\+?\d{10,15}$/.test(s)`: an optional `+`, then 10 to 15 decimal digits,
and nothing else. -/
def phoneRegexTest (s : String) : Bool :=
  let body :=
    match s.data with
    | '+' :: rest => rest
    | l => l
  body.all Char.isDigit && decide (10 ≤ body.length) && decide (body.length ≤ 15)

/-- Embedding of `isRepeatingDigits(phone)` (lines 68-75): the test `/^(\d)\1+$/` on
the digits of `phone`, that is one digit followed by one or more copies of it. -/
def isRepeatingDigits (phone : String) : Bool :=
  match (digitsOf phone).data with
  | [] => false
  | d :: rest => !rest.isEmpty && rest.all (fun c => c == d)

/-- The state `formData` of `EditProfile`. -/
structure ProfileForm where
  fullName : String
  email : String
  phoneNumber : String

/-- Observable actions of `handleSubmit` of `EditProfile`, in order. `setUser profile`
is `localStorage.setItem("user", JSON.stringify(profile))`, and `updateProfile` the
request with the three fields of the form data payload. -/
inductive ProfileEffect where
  | preventDefault : ProfileEffect
  | setLoading (b : Bool) : ProfileEffect
  | swal (icon title : String) (text : JsVal) : ProfileEffect
  | updateProfile (fullName email phoneNumber : String) : ProfileEffect
  | setToken (token : String) : ProfileEffect
  | setUser (profile : JsObject) : ProfileEffect
  | dispatchUserLogin : ProfileEffect
  | navigate (path : String) : ProfileEffect

/-- Whether an action is the update request. -/
def ProfileEffect.isRequest : ProfileEffect → Bool
  | .updateProfile _ _ _ => true
  | _ => false

/-- The profile written after an update that returned a token (lines 133-144);
`decoded` is the result of `parseJwt(newToken)` (the claims, or `null`). -/
def profileFromToken (lib : JsLib) (form : ProfileForm) (decoded : JsVal) : JsObject :=
  let rawRole :=
    ((decoded.optProp "http://schemas.microsoft.com/ws/2008/06/identity/claims/role").or
      (decoded.optProp "role")).or (.str "user")
  let rawName :=
    ((decoded.optProp "http://schemas.xmlsoap.org/ws/2005/05/identity/claims/name").or
      (decoded.optProp "unique_name")).or (.str form.fullName)
  let rawEmail :=
    ((decoded.optProp "http://schemas.xmlsoap.org/ws/2005/05/identity/claims/emailaddress").or
      (decoded.optProp "email")).or (.str form.email)
  let rawPhone :=
    ((decoded.optProp "http://schemas.xmlsoap.org/ws/2005/05/identity/claims/mobilephone").or
      (decoded.optProp "mobilephone")).or (.str form.phoneNumber)
  [("fullName", rawName), ("email", rawEmail), ("phoneNumber", rawPhone),
   ("role", if lib.toLowerCase rawRole.toTemplate == "admin" then .str "admin"
            else .str "user")]

/-- The profile written after an update that returned a user object and no token
(lines 147-152). -/
def profileFromUser (form : ProfileForm) (returnedUser : JsVal) : JsObject :=
  [("fullName", (returnedUser.optProp "fullName").or (.str form.fullName)),
   ("email", (returnedUser.optProp "email").or (.str form.email)),
   ("phoneNumber", (returnedUser.optProp "phoneNumber").or (.str form.phoneNumber)),
   ("role", (returnedUser.optProp "role").or (.str "user"))]

/-- The storage writes that follow a fulfilled `updateProfile` with response `res`
(lines 128-154). -/
def storeUpdatedProfile (lib : JsLib) (parseJwt : JsVal → JsVal) (form : ProfileForm)
    (res : JsVal) : List ProfileEffect :=
  let newToken := (res.optProp "data").optProp "token"
  let returnedUser := ((res.optProp "data").optProp "user").or .null
  if newToken.truthy then
    [.setToken newToken.toTemplate, .setUser (profileFromToken lib form (parseJwt newToken))]
  else if returnedUser.truthy then
    [.setUser (profileFromUser form returnedUser)]
  else []

/-- The text of the "Update Failed" dialog (lines 169-173). -/
def profileErrorText (err : JsVal) : JsVal :=
  (((((err.optProp "response").optProp "data").optProp "error").or
      (((err.optProp "response").optProp "data").optProp "message")).or
      ((err.optProp "response").optProp "data")).or (err.optProp "message")
    |>.or (.str "Something went wrong. Please try again.")

/-- Embedding of `handleSubmit` of `EditProfile` (lines 77-178): its actions in order.
`updateResult` is the outcome of the `updateProfile` request, read only when the
request is made; storage writes are taken to succeed. -/
def profileHandleSubmit (lib : JsLib) (parseJwt : JsVal → JsVal) (form : ProfileForm)
    (updateResult : Except JsVal JsVal) : List ProfileEffect :=
  let phone := jsTrim form.phoneNumber
  if !phoneRegexTest phone then
    [.preventDefault, .setLoading true,
     .swal "error" "Invalid Phone Number"
       (.str "Please enter a valid phone number (10-15 digits). Example: 01012345678 or +2010..."),
     .setLoading false, .setLoading false]
  else if isRepeatingDigits phone then
    [.preventDefault, .setLoading true,
     .swal "error" "Fake Number Detected"
       (.str "You cannot use a sequence of repeating digits as a phone number."),
     .setLoading false, .setLoading false]
  else if jsTrim form.fullName = "" then
    [.preventDefault, .setLoading true,
     .swal "error" "Invalid Name" (.str "Please enter a valid name."),
     .setLoading false, .setLoading false]
  else if jsTrim form.email = "" then
    [.preventDefault, .setLoading true,
     .swal "error" "Invalid Email" (.str "Please enter a valid email address."),
     .setLoading false, .setLoading false]
  else
    [.preventDefault, .setLoading true,
     .updateProfile (jsTrim form.fullName) (jsTrim form.email) (removeWhitespace phone)]
      ++ (match updateResult with
          | .ok res =>
            storeUpdatedProfile lib parseJwt form res
              ++ [.dispatchUserLogin,
                  .swal "success" "Profile Updated"
                    (.str "Your information has been saved successfully."),
                  .navigate "/profile"]
          | .error err => [.swal "error" "Update Failed" (profileErrorText err)])
      ++ [.setLoading false]

/-- A filled profile form. -/
def exampleForm : ProfileForm :=
  { fullName := "Sara Adel", email := "sara@example.com", phoneNumber := "+201012345678" }

/-- The response `{ data: { user: { fullName: "Sara Adel", role: "Admin" } } }` of a
profile update that returns the user and no token. -/
def updateResponseWithUser : JsVal :=
  .obj [("data", .obj [("user", .obj [("fullName", .str "Sara Adel"), ("role", .str "Admin")])])]

/-- The response `{ data: { token: "aaa.bbb.ccc" } }` of a profile update that returns a
new token. -/
def updateResponseWithToken : JsVal :=
  .obj [("data", .obj [("token", .str "aaa.bbb.ccc")])]

/-- A token decoder for the examples: every token carries the role claim `Admin`. -/
def exampleParseJwt : JsVal → JsVal :=
  fun _ => .obj [("role", .str "Admin"), ("email", .str "sara@example.com")]

/-! ## Theorems -/

/-! ### Basic facts about JavaScript values -/

theorem JsVal.prop_of_truthy (v : JsVal) (k : String) (h : v.truthy = true) :
    v.prop k = .ok (v.optProp k) := by
  cases v <;> simp_all [JsVal.prop, JsVal.optProp, JsVal.truthy]

theorem JsVal.optProp_truthy_false (v : JsVal) (k : String) (h : v.truthy = false) :
    (v.optProp k) = .undefined ∨ v = .str "" := by
  cases v <;> simp_all [JsVal.optProp, JsVal.truthy]

theorem except_ok_bind {ε α β : Type} (a : α) (f : α → Except ε β) :
    (Except.ok a >>= f) = f a := rfl

theorem except_pure_eq {ε α : Type} (a : α) : (pure a : Except ε α) = Except.ok a := rfl

/-! ### `extractError` -/

/-- Unfolded form of `extractError` on an error that carries a (truthy) response. -/
theorem extractError_with_response (err : JsVal)
    (ht : (err.optProp "response").truthy = true) :
    extractError err = .ok (
      let res := err.optProp "response"
      let data := res.optProp "data"
      if data.truthy then
        if data.isString then data
        else if (data.optProp "error").truthy then data.optProp "error"
        else if (data.optProp "message").truthy then data.optProp "message"
        else if (data.optProp "detail").truthy then data.optProp "detail"
        else .str ("Server error (" ++ (res.optProp "status").toTemplate ++ ")")
      else .str ("Server error (" ++ (res.optProp "status").toTemplate ++ ")")) := by
  unfold extractError
  simp only [ht, JsVal.prop_of_truthy _ _ ht, except_ok_bind]
  by_cases hd : ((err.optProp "response").optProp "data").truthy = true
  · simp only [JsVal.prop_of_truthy _ _ hd, hd, except_ok_bind]
    by_cases h1 : ((err.optProp "response").optProp "data").isString = true
    · simp [h1, except_pure_eq]; rfl
    · by_cases h2 : (((err.optProp "response").optProp "data").optProp "error").truthy = true
      · simp [h1, h2, except_pure_eq]; rfl
      · by_cases h3 : (((err.optProp "response").optProp "data").optProp "message").truthy = true
        · simp [h1, h2, h3, except_pure_eq]; rfl
        · by_cases h4 : (((err.optProp "response").optProp "data").optProp "detail").truthy = true
          · simp [h1, h2, h3, h4, except_pure_eq]; rfl
          · simp [h1, h2, h3, h4, except_pure_eq]; rfl
  · simp [hd, except_pure_eq]; rfl

/-- C1 (counterexample). A response whose body is the empty string: the body is a
string, yet `extractError` returns the synthesized `"Server error (500)"`, not the body. -/
theorem extractError_empty_string_body_counterexample :
    (errEmptyStringBody.optProp "response").truthy = true
      ∧ (errEmptyStringBody.optProp "response").optProp "data" = .str ""
      ∧ extractError errEmptyStringBody = .ok (.str "Server error (500)")
      ∧ extractError errEmptyStringBody ≠ .ok (.str "") := by
  refine ⟨rfl, rfl, rfl, ?_⟩
  have h : extractError errEmptyStringBody = .ok (.str "Server error (500)") := rfl
  rw [h]
  simp

/-- C1 (amended). For every failed call that carries a response whose body is a
non-empty string, `extractError` returns exactly that string, whatever the status
and the other fields of the error are. -/
theorem extractError_nonempty_string_body (err : JsVal) (s : String)
    (ht : (err.optProp "response").truthy = true)
    (hdata : (err.optProp "response").optProp "data" = .str s)
    (hs : s ≠ "") :
    extractError err = .ok (.str s) := by
  rw [extractError_with_response err ht]
  simp [hdata, JsVal.truthy, JsVal.isString, hs]

/-- Witness for C1: `{ response: { status: 404, data: "Room not found" } }`. -/
theorem extractError_nonempty_string_body_witness :
    (errStringBody.optProp "response").truthy = true
      ∧ (errStringBody.optProp "response").optProp "data" = .str "Room not found"
      ∧ "Room not found" ≠ ""
      ∧ extractError errStringBody = .ok (.str "Room not found") :=
  ⟨rfl, rfl, by decide,
    extractError_nonempty_string_body errStringBody "Room not found" rfl rfl (by decide)⟩

/-- C2 (counterexample). The body `{ error: false, message: "Room is not available" }`
has an `error` field, yet `extractError` returns the `message` field. -/
theorem extractError_falsy_error_field_counterexample :
    (errFalsyErrorField.optProp "response").truthy = true
      ∧ ((errFalsyErrorField.optProp "response").optProp "data").isString = false
      ∧ ((errFalsyErrorField.optProp "response").optProp "data").optProp "error" = .bool false
      ∧ extractError errFalsyErrorField = .ok (.str "Room is not available")
      ∧ extractError errFalsyErrorField ≠ .ok (.bool false) := by
  refine ⟨rfl, rfl, rfl, rfl, ?_⟩
  have h : extractError errFalsyErrorField = .ok (.str "Room is not available") := rfl
  rw [h]
  simp

/-- C2 (amended). For every failed call that carries a response with status `status`
whose body `data` is not a string, `extractError` returns the body's `error` field if
that field is truthy, otherwise its `message` field if truthy, otherwise its `detail`
field if truthy, and otherwise (including an absent or empty body) the synthesized
string `"Server error (<status>)"`. -/
theorem extractError_non_string_body (err data status : JsVal)
    (ht : (err.optProp "response").truthy = true)
    (hdata : (err.optProp "response").optProp "data" = data)
    (hstatus : (err.optProp "response").optProp "status" = status)
    (hns : data.isString = false) :
    extractError err = .ok (
      if (data.optProp "error").truthy then data.optProp "error"
      else if (data.optProp "message").truthy then data.optProp "message"
      else if (data.optProp "detail").truthy then data.optProp "detail"
      else .str ("Server error (" ++ status.toTemplate ++ ")")) := by
  rw [extractError_with_response err ht]
  simp only [hdata, hstatus, hns]
  by_cases hd : data.truthy = true
  · simp [hd]
  · have hf : data.truthy = false := by simpa using hd
    have hu : ∀ k, data.optProp k = .undefined := by
      intro k
      rcases JsVal.optProp_truthy_false data k hf with h | h
      · exact h
      · rw [h] at hns; simp [JsVal.isString] at hns
    simp [hf, hu, JsVal.truthy]

/-- Witness for C2: `{ response: { status: 500, data: {} } }` gives `"Server error (500)"`. -/
theorem extractError_non_string_body_witness :
    (errEmptyObjectBody.optProp "response").truthy = true
      ∧ (JsVal.obj []).isString = false
      ∧ extractError errEmptyObjectBody = .ok (.str "Server error (500)") :=
  ⟨rfl, rfl,
    extractError_non_string_body errEmptyObjectBody (.obj []) (.num 500) rfl rfl rfl rfl⟩

/-- C3 (counterexample). A timeout error carries no response, yet `extractError`
returns the error's own message, not `"Network error"`. -/
theorem extractError_timeout_counterexample :
    errTimeout.optProp "response" = .undefined
      ∧ extractError errTimeout = .ok (.str "timeout of 15000ms exceeded")
      ∧ extractError errTimeout ≠ .ok (.str "Network error") := by
  refine ⟨rfl, rfl, ?_⟩
  have h : extractError errTimeout = .ok (.str "timeout of 15000ms exceeded") := rfl
  rw [h]
  simp

/-- C3 (amended). For every failed call for which no response was received,
`extractError` returns the error's own `message` when that is truthy, and the
fallback string `"Network error"` otherwise. -/
theorem extractError_no_response (err : JsVal)
    (h : err.optProp "response" = .undefined) :
    extractError err = .ok (
      if (err.optProp "message").truthy then err.optProp "message"
      else .str "Network error") := by
  unfold extractError
  simp [h, JsVal.truthy, JsVal.or, except_pure_eq]

/-- Witness for C3: the empty error object `{}` gives `"Network error"`. -/
theorem extractError_no_response_witness :
    (JsVal.obj []).optProp "response" = .undefined
      ∧ extractError (.obj []) = .ok (.str "Network error") :=
  ⟨rfl, extractError_no_response (.obj []) rfl⟩

/-! ### Night count of the booking form -/

theorem msPerDay_pos : 0 < msPerDay := by decide

/-- On integers, `ceilDiv a b` is the ceiling of the exact quotient `a / b`. -/
theorem ceilDiv_eq_ceil (a b : Int) (hb : 0 < b) : ceilDiv a b = ⌈(a : ℚ) / (b : ℚ)⌉ := by
  unfold ceilDiv
  symm
  rw [Int.ceil_eq_iff]
  have hbq : (0 : ℚ) < (b : ℚ) := by exact_mod_cast hb
  have h1 : (-a) / b * b ≤ -a := Int.ediv_mul_le _ (ne_of_gt hb)
  have h2 : -a < ((-a) / b + 1) * b := Int.lt_ediv_add_one_mul_self _ hb
  constructor
  · rw [lt_div_iff₀ hbq]
    have : ((-(-a / b) - 1) * b : ℤ) < a := by linarith
    exact_mod_cast this
  · rw [div_le_iff₀ hbq]
    have : a ≤ (-(-a / b)) * b := by linarith
    exact_mod_cast this

theorem ceilDiv_mul_self (k b : Int) (hb : 0 < b) : ceilDiv (k * b) b = k := by
  unfold ceilDiv
  rw [← Int.neg_mul, Int.mul_ediv_cancel _ (ne_of_gt hb)]
  simp

/-- The night count on two valid dates is `max(1, ceil((e - s) / one day))` taken on
the two time values after `setHours(0, 0, 0, 0)`. -/
theorem daysCountEffect_formula (tz : TimeZone) (s e s0 e0 : Int)
    (hs : setHoursMidnight tz (.int s) = .int s0)
    (he : setHoursMidnight tz (.int e) = .int e0) :
    daysCountEffect tz (.value (.int s)) (.value (.int e))
      = .int (max 1 ⌈((e0 - s0 : Int) : ℚ) / (msPerDay : ℚ)⌉) := by
  simp [daysCountEffect, DateInput.isEmpty, DateInput.newDate, hs, he, JsNum.sub, ceilDays,
    JsNum.max, ceilDiv_eq_ceil _ _ msPerDay_pos]

/-- The night count on two valid dates is never less than 1. -/
theorem daysCountEffect_ge_one (tz : TimeZone) (s e : Int) :
    ∃ n : Int, daysCountEffect tz (.value (.int s)) (.value (.int e)) = .int n ∧ 1 ≤ n := by
  simp [daysCountEffect, DateInput.isEmpty, DateInput.newDate, setHoursMidnight, JsNum.sub,
    ceilDays, JsNum.max]

/-- In a time zone without offset changes the night count of a stay of at least one
calendar day is the number of calendar days between check-in and check-out. -/
theorem daysCountEffect_fixed_offset (offset s e : Int)
    (h : localDay (.fixed offset) s < localDay (.fixed offset) e) :
    daysCountEffect (.fixed offset) (.value (.int s)) (.value (.int e))
      = .int (localDay (.fixed offset) e - localDay (.fixed offset) s) := by
  have hk : ((e + offset) / msPerDay * msPerDay - offset
      - ((s + offset) / msPerDay * msPerDay - offset))
      = ((e + offset) / msPerDay - (s + offset) / msPerDay) * msPerDay := by ring
  simp only [localDay, TimeZone.fixed] at h
  simp only [daysCountEffect, DateInput.isEmpty, DateInput.newDate, setHoursMidnight,
    TimeZone.fixed, JsNum.sub, ceilDays, JsNum.max, localDay, hk,
    ceilDiv_mul_self _ _ msPerDay_pos]
  simp
  omega

theorem daysCountEffect_fixed_offset_witness :
    localDay (.fixed 7200000) 1762128000000 < localDay (.fixed 7200000) 1762387200000
      ∧ daysCountEffect (.fixed 7200000) (.value (.int 1762128000000))
          (.value (.int 1762387200000)) = .int 3 :=
  ⟨by decide, daysCountEffect_fixed_offset 7200000 1762128000000 1762387200000 (by decide)⟩

/-- C4 (failing input). Browser in America/New_York, check-in `"2025-11-03"`
(`1762128000000`), check-out `"2025-11-04"` (`1762214400000`): the two dates are
exactly one day apart and fall on consecutive local calendar days, yet the night
count is 2, because the two local midnights are 25 hours apart. -/
theorem daysCountEffect_dst_two_nights :
    (1762214400000 - 1762128000000 : Int) = msPerDay
      ∧ localDay .newYork2025 1762214400000 - localDay .newYork2025 1762128000000 = 1
      ∧ setHoursMidnight .newYork2025 (.int 1762128000000) = .int 1762056000000
      ∧ setHoursMidnight .newYork2025 (.int 1762214400000) = .int 1762146000000
      ∧ (1762146000000 - 1762056000000 : Int) = 25 * 3600000
      ∧ daysCountEffect .newYork2025 (.value (.int 1762128000000))
          (.value (.int 1762214400000)) = .int 2 := by
  decide

/-! ### Total of the booking form -/

/-- An exact result of magnitude below `2 ^ 53` is a double: it is not rounded. -/
theorem JsExt.ofExact_of_lt (n : Int) (h : |n| < 2 ^ 53) : JsExt.ofExact n = .fin n := by
  have h2 : n.natAbs < 2 ^ 53 := by
    have h3 : ((n.natAbs : Nat) : Int) < 2 ^ 53 := by rw [Int.natCast_natAbs]; exact h
    exact_mod_cast h3
  unfold JsExt.ofExact
  simp only [h2, if_true]

/-- The summand `Number(s.price) || 0` of a service whose price is below `2 ^ 53` in
magnitude. -/
theorem servicePrice_eq (strToNum : String → JsNum) (s : JsObject)
    (h : |priceOrZero strToNum s| < 2 ^ 53) :
    (JsVal.toNumber strToNum (s.get "price")).toDouble.or (.fin 0)
      = .fin (priceOrZero strToNum s) := by
  unfold priceOrZero at h ⊢
  cases hp : JsVal.toNumber strToNum (s.get "price") with
  | nan => simp [JsNum.toDouble, JsExt.or, JsExt.truthy]
  | int p =>
    rw [hp] at h
    simp only at h
    simp only [JsNum.toDouble]
    rw [JsExt.ofExact_of_lt p h]
    by_cases h0 : p = 0
    · simp [JsExt.or, JsExt.truthy, h0]
    · simp [JsExt.or, JsExt.truthy, h0]

theorem foldl_add_price (strToNum : String → JsNum) (l : List JsObject) (acc : Int)
    (h : |acc| + (l.map (fun s => |priceOrZero strToNum s|)).sum < 2 ^ 53) :
    l.foldl (fun (sum : JsExt) (s : JsObject) =>
          sum.add ((JsVal.toNumber strToNum (s.get "price")).toDouble.or (.fin 0))) (.fin acc)
      = .fin (acc + (l.map (priceOrZero strToNum)).sum) := by
  induction l generalizing acc with
  | nil => simp
  | cons s l ih =>
    simp only [List.foldl_cons, List.map_cons, List.sum_cons] at h ⊢
    have hnn : 0 ≤ (l.map (fun s => |priceOrZero strToNum s|)).sum :=
      List.sum_nonneg (by
        intro x hx
        obtain ⟨y, _, rfl⟩ := List.mem_map.mp hx
        exact abs_nonneg _)
    have hacc : 0 ≤ |acc| := abs_nonneg acc
    have hp : |priceOrZero strToNum s| < 2 ^ 53 := by omega
    have hsum : |acc + priceOrZero strToNum s| < 2 ^ 53 :=
      lt_of_le_of_lt (abs_add acc _) (by omega)
    rw [servicePrice_eq strToNum s hp]
    have hstep : (JsExt.fin acc).add (.fin (priceOrZero strToNum s))
        = .fin (acc + priceOrZero strToNum s) := by
      simp only [JsExt.add]
      exact JsExt.ofExact_of_lt _ hsum
    rw [hstep, ih (acc + priceOrZero strToNum s)
      (lt_of_le_of_lt (add_le_add_right (abs_add acc _) _) (by omega))]
    congr 1
    ring

/-- C5 (counterexample). For the rate `2 ^ 53`, one night and one selected service
priced 1, the computed total is `9007199254740992`, not
`R * N + 1 = 9007199254740993`: the sum is rounded to the nearest double. -/
theorem calculatedTotalEffect_rounding_counterexample :
    roomPrice noNumericStrings roomLargeRate = .int 9007199254740992
      ∧ (serviceOfOne.filter
            (fun s => jsIncludes [.str "svc-water"] (s.get "id"))).map
          (priceOrZero noNumericStrings) = [1]
      ∧ calculatedTotalEffect noNumericStrings roomLargeRate serviceOfOne
          [.str "svc-water"] (.int 1) = .fin 9007199254740992
      ∧ calculatedTotalEffect noNumericStrings roomLargeRate serviceOfOne
          [.str "svc-water"] (.int 1) ≠ .fin (9007199254740992 * 1 + 1) := by
  refine ⟨rfl, by decide, by decide, by decide⟩

/-- C5 (amended). For whole-number amounts: for every room whose rate resolves to `R`,
every night count `N` with `1 <= N < 2 ^ 53`, every list of available services and
every list of selected ids such that `|R * N|` plus the sum of the magnitudes of the
selected prices stays below `2 ^ 53`, the computed total is exactly `R * N` plus the
sum of the prices of exactly those available services whose id is among the selected
ids, a missing or non-numeric price counting as 0. -/
theorem calculatedTotalEffect_exact (strToNum : String → JsNum) (room : JsVal)
    (availableServices : List JsObject) (selectedServices : List JsVal) (R N : Int)
    (hR : roomPrice strToNum room = .int R) (hN : 1 ≤ N) (hN53 : N < 2 ^ 53)
    (hbound : |R * N|
        + ((availableServices.filter
              (fun s => jsIncludes selectedServices (s.get "id"))).map
            (fun s => |priceOrZero strToNum s|)).sum < 2 ^ 53) :
    calculatedTotalEffect strToNum room availableServices selectedServices (.int N)
      = .fin (R * N
          + ((availableServices.filter
                (fun s => jsIncludes selectedServices (s.get "id"))).map
              (priceOrZero strToNum)).sum) := by
  have hN0 : N ≠ 0 := by omega
  have hnn : 0 ≤ ((availableServices.filter
      (fun s => jsIncludes selectedServices (s.get "id"))).map
        (fun s => |priceOrZero strToNum s|)).sum :=
    List.sum_nonneg (by
      intro x hx
      obtain ⟨y, _, rfl⟩ := List.mem_map.mp hx
      exact abs_nonneg _)
  have hRN : |R * N| < 2 ^ 53 := by omega
  have hRle : |R| ≤ |R * N| := by
    rw [abs_mul]
    have h1 : (1 : Int) ≤ |N| := by rw [abs_of_pos (by omega)]; exact hN
    nlinarith [abs_nonneg R]
  have hR53 : |R| < 2 ^ 53 := lt_of_le_of_lt hRle hRN
  have hNabs : |N| < 2 ^ 53 := by rw [abs_of_pos (by omega)]; exact hN53
  have hfold := foldl_add_price strToNum
    (availableServices.filter (fun s => jsIncludes selectedServices (s.get "id"))) 0
    (by simpa using lt_of_le_of_lt (le_add_of_nonneg_left (abs_nonneg (R * N))) hbound)
  have hS : |((availableServices.filter
      (fun s => jsIncludes selectedServices (s.get "id"))).map
        (priceOrZero strToNum)).sum|
      ≤ ((availableServices.filter
      (fun s => jsIncludes selectedServices (s.get "id"))).map
        (fun s => |priceOrZero strToNum s|)).sum := by
    generalize availableServices.filter
      (fun s => jsIncludes selectedServices (s.get "id")) = l
    induction l with
    | nil => simp
    | cons s l ih =>
      simp only [List.map_cons, List.sum_cons]
      exact le_trans (abs_add _ _) (add_le_add_left ih _)
  have htot : |R * N + ((availableServices.filter
      (fun s => jsIncludes selectedServices (s.get "id"))).map
        (priceOrZero strToNum)).sum| < 2 ^ 53 :=
    lt_of_le_of_lt (abs_add _ _) (by omega)
  rw [zero_add] at hfold
  unfold calculatedTotalEffect
  simp only []
  rw [hfold, hR]
  simp only [JsNum.toDouble, JsExt.ofExact_of_lt R hR53, JsExt.ofExact_of_lt N hNabs]
  have hor : (JsExt.fin N).or (.fin 1) = .fin N := by simp [JsExt.or, JsExt.truthy, hN0]
  have hmax : JsExt.max (.fin 1) (.fin N) = .fin N := by
    simp only [JsExt.max]
    rw [max_eq_right hN]
  rw [hor, hmax]
  simp only [JsExt.mul, JsExt.ofExact_of_lt (R * N) hRN, JsExt.add]
  exact JsExt.ofExact_of_lt _ htot

/-- Witness for C5: rate 1000, 3 nights, one selected service priced 150 gives 3150. -/
theorem calculatedTotalEffect_exact_witness :
    roomPrice noNumericStrings exampleRoom = .int 1000
      ∧ (1 : Int) ≤ 3
      ∧ calculatedTotalEffect noNumericStrings exampleRoom exampleServices
          [.str "svc-breakfast"] (.int 3) = .fin 3150 :=
  ⟨rfl, by decide,
    calculatedTotalEffect_exact noNumericStrings exampleRoom exampleServices
      [.str "svc-breakfast"] 1000 3 rfl (by decide) (by decide) (by decide)⟩

/-! ### Submission of the booking form -/

theorem handleSubmit_request_dates (b : Browser) (id : JsVal) (startDate endDate : DateInput)
    (selectedServices : List JsVal) (postResult : Except JsVal JsVal)
    (h : (handleSubmit b id startDate endDate selectedServices postResult).1.any
      Effect.isRequest = true) :
    ∃ s e : Int, startDate = .value (.int s) ∧ endDate = .value (.int e) ∧ s < e := by
  unfold handleSubmit at h
  rcases startDate with _ | ts
  · simp [DateInput.isEmpty, Effect.isRequest] at h
  rcases endDate with _ | te
  · simp [DateInput.isEmpty, Effect.isRequest] at h
  rcases ts with _ | s
  · -- invalid check-in date: `toISOString` throws before the call
    simp only [DateInput.isEmpty, DateInput.newDate, Bool.or_self, Bool.false_eq_true,
      if_false] at h
    cases te <;> simp only [JsNum.le, Bool.false_eq_true, if_false] at h <;>
      (split at h
       · simp [Effect.isRequest] at h
       · split at h
         · simp [Effect.isRequest] at h
         · simp [buildBookingRequest, DateInput.newDate, toISOString, Effect.isRequest,
             bind, Except.bind] at h)
  rcases te with _ | e
  · simp only [DateInput.isEmpty, DateInput.newDate, Bool.or_self, Bool.false_eq_true,
      if_false, JsNum.le] at h
    split at h
    · simp [Effect.isRequest] at h
    · split at h
      · simp [Effect.isRequest] at h
      · cases hg : getAuthHeader b <;>
          simp [buildBookingRequest, DateInput.newDate, toISOString, Effect.isRequest,
            bind, Except.bind, hg] at h
  refine ⟨s, e, rfl, rfl, ?_⟩
  by_contra hlt
  have hle : e ≤ s := not_lt.mp hlt
  simp [DateInput.isEmpty, DateInput.newDate, JsNum.le, hle, Effect.isRequest] at h

theorem handleSubmit_blocked (b : Browser) (id : JsVal) (startDate endDate : DateInput)
    (selectedServices : List JsVal) (postResult : Except JsVal JsVal)
    (h : startDate = .empty ∨ endDate = .empty
      ∨ ∃ s e : Int, startDate = .value (.int s) ∧ endDate = .value (.int e) ∧ e ≤ s) :
    ∃ title text,
      handleSubmit b id startDate endDate selectedServices postResult
        = ([.preventDefault, .swal title text "warning"], none) := by
  rcases h with h | h | ⟨s, e, hs, he, hle⟩
  · subst h
    exact ⟨"Dates required", .str "Please select check-in and check-out dates.",
      by simp [handleSubmit, DateInput.isEmpty]⟩
  · subst h
    exact ⟨"Dates required", .str "Please select check-in and check-out dates.",
      by simp [handleSubmit, DateInput.isEmpty]⟩
  · subst hs he
    exact ⟨"Invalid dates", .str "Check-out must be after check-in.",
      by simp [handleSubmit, DateInput.isEmpty, DateInput.newDate, JsNum.le, hle]⟩

/-- With both dates valid, check-out after check-in and a stored token, the
create-booking request is issued, with the two dates and the selected services. -/
theorem handleSubmit_sends_request (ls : Storage) (ss : Option Storage) (loc : Location)
    (token : String) (id : JsVal) (s e : Int) (selectedServices : List JsVal)
    (postResult : Except JsVal JsVal)
    (htoken : ls.getItem "jwt_token" = some token) (hne : token ≠ "") (hlt : s < e) :
    Effect.postBooking
        { roomId := id, startDate := s, endDate := e, serviceIds := selectedServices }
        [("Content-Type", "application/json"), ("Authorization", "Bearer " ++ token)]
      ∈ (handleSubmit { localStorage := some ls, sessionStorage := ss, location := loc } id
          (.value (.int s)) (.value (.int e)) selectedServices postResult).1 := by
  have hle : ¬ e ≤ s := not_le.mpr hlt
  simp [handleSubmit, DateInput.isEmpty, DateInput.newDate, JsNum.le, hle,
    Browser.localGetItem, htoken, tokenTruthy, hne, buildBookingRequest, toISOString,
    getAuthHeader, bind, Except.bind, pure, Except.pure]

/-- C6. Submitting the booking form issues the create-booking call only if both
dates are present and check-out is strictly after check-in; if either date is
absent, or check-out is not after check-in, the submission consists of one warning
dialog and no request is sent. -/
theorem handleSubmit_guard (b : Browser) (id : JsVal) (startDate endDate : DateInput)
    (selectedServices : List JsVal) (postResult : Except JsVal JsVal) :
    ((handleSubmit b id startDate endDate selectedServices postResult).1.any
        Effect.isRequest = true →
      ∃ s e : Int, startDate = .value (.int s) ∧ endDate = .value (.int e) ∧ s < e)
    ∧ ((startDate = .empty ∨ endDate = .empty
        ∨ ∃ s e : Int, startDate = .value (.int s) ∧ endDate = .value (.int e) ∧ e ≤ s) →
      (∃ title text,
        handleSubmit b id startDate endDate selectedServices postResult
          = ([.preventDefault, .swal title text "warning"], none))
      ∧ (handleSubmit b id startDate endDate selectedServices postResult).1.any
          Effect.isRequest = false) := by
  refine ⟨handleSubmit_request_dates b id startDate endDate selectedServices postResult, ?_⟩
  intro h
  obtain ⟨title, text, heq⟩ :=
    handleSubmit_blocked b id startDate endDate selectedServices postResult h
  exact ⟨⟨title, text, heq⟩, by rw [heq]; simp [Effect.isRequest]⟩

/-- Witness for C6: submitting with only a start date (`"2025-11-03"`) and no end
date is blocked with the "Dates required" warning and sends no request. -/
theorem handleSubmit_guard_witness :
    handleSubmit exampleBrowser (.str "7") (.value (.int 1762128000000)) .empty []
        (.ok (.obj []))
      = ([.preventDefault,
          .swal "Dates required" (.str "Please select check-in and check-out dates.")
            "warning"], none)
    ∧ (handleSubmit exampleBrowser (.str "7") (.value (.int 1762128000000)) .empty []
        (.ok (.obj []))).1.any Effect.isRequest = false :=
  ⟨rfl, ((handleSubmit_guard exampleBrowser (.str "7") (.value (.int 1762128000000)) .empty []
      (.ok (.obj []))).2 (Or.inr (Or.inl rfl))).2⟩

/-! ### Pagination -/

theorem jsSlice_nonneg {α : Type} (l : List α) (n m : Nat) :
    jsSlice l (n : Int) ((n : Int) + (m : Int)) = (l.drop n).take m := by
  unfold jsSlice
  have h1 : ¬ ((n : Int) < 0) := by omega
  have h2 : ¬ ((n : Int) + (m : Int) < 0) := by omega
  simp only [h1, h2, if_false]
  apply List.ext_getElem?
  intro i
  simp only [List.getElem?_take, List.getElem?_drop]
  by_cases hn : n ≤ l.length
  · have hk : (min (n : Int) (l.length : Int)).toNat = n := by omega
    rw [hk]
    by_cases hi : n + i < l.length
    · have : (i < (min ((n : Int) + (m : Int)) (l.length : Int) - min (n : Int) (l.length : Int)).toNat)
          ↔ i < m := by omega
      simp only [this]
    · have hnone : l[n + i]? = none := List.getElem?_eq_none (by omega)
      simp [hnone]
  · have hk : (min (n : Int) (l.length : Int)).toNat = l.length := by omega
    rw [hk]
    have hnone1 : l[l.length + i]? = none := List.getElem?_eq_none (by omega)
    have hnone2 : l[n + i]? = none := List.getElem?_eq_none (by omega)
    simp [hnone1, hnone2]

theorem getPaginatedData_eq {α : Type} (l : List α) (p : Int) (hp : 1 ≤ p) :
    getPaginatedData l p = (l.drop ((p - 1) * 5).toNat).take 5 := by
  obtain ⟨n, hn⟩ : ∃ n : Nat, (p - 1) * 5 = (n : Int) := ⟨((p - 1) * 5).toNat, by omega⟩
  unfold getPaginatedData ITEMS_PER_PAGE
  rw [hn]
  have := jsSlice_nonneg l n 5
  simpa using this

/-- C7. For every list and every page number `p >= 1`, `getPaginatedData(list, p)`
is the contiguous slice of the list from index `(p-1)*5` up to but not including
index `p*5` (cut at the list's end), in the original order; it has at most 5
elements. -/
theorem getPaginatedData_slice {α : Type} (l : List α) (p : Int) (hp : 1 ≤ p) :
    getPaginatedData l p = (l.take (p * 5).toNat).drop ((p - 1) * 5).toNat
      ∧ (getPaginatedData l p).length ≤ 5
      ∧ ∀ i : Nat, (getPaginatedData l p)[i]?
          = if i < 5 then l[((p - 1) * 5).toNat + i]? else none := by
  rw [getPaginatedData_eq l p hp]
  refine ⟨?_, ?_, ?_⟩
  · rw [List.drop_take]
    congr 1
    omega
  · simp [List.length_take]
  · intro i
    simp [List.getElem?_take, List.getElem?_drop]

/-- Witness for C7: page 2 of a list of seven elements holds the last two. -/
theorem getPaginatedData_slice_witness :
    (1 : Int) ≤ 2
      ∧ getPaginatedData [10, 11, 12, 13, 14, 15, 16] 2 = [15, 16]
      ∧ (getPaginatedData [10, 11, 12, 13, 14, 15, 16] 2).length ≤ 5 :=
  ⟨by decide,
    (getPaginatedData_slice [10, 11, 12, 13, 14, 15, 16] 2 (by decide)).1,
    (getPaginatedData_slice [10, 11, 12, 13, 14, 15, 16] 2 (by decide)).2.1⟩

theorem le_ceilDiv_mul (a b : Int) (hb : 0 < b) : a ≤ ceilDiv a b * b := by
  unfold ceilDiv
  have h1 : (-a) / b * b ≤ -a := Int.ediv_mul_le _ (ne_of_gt hb)
  linarith

theorem ceilDiv_nonneg (a b : Int) (ha : 0 ≤ a) (hb : 0 < b) : 0 ≤ ceilDiv a b := by
  unfold ceilDiv
  have h1 : (-a) / b * b ≤ -a := Int.ediv_mul_le _ (ne_of_gt hb)
  have h : (-a) / b ≤ 0 := by
    by_contra hq
    have hq1 : 1 ≤ (-a) / b := by omega
    nlinarith
  omega

/-- C8. For every list, `getTotalPages(list)` is `ceil(length / 5)` (0 for the empty
list), and `getPaginatedData(list, p)` is empty for every page `p` greater than
`getTotalPages(list)`. -/
theorem getTotalPages_spec {α : Type} (l : List α) :
    getTotalPages l = ⌈(l.length : ℚ) / 5⌉
      ∧ getTotalPages ([] : List α) = 0
      ∧ ∀ p : Int, getTotalPages l < p → getPaginatedData l p = [] := by
  refine ⟨?_, rfl, ?_⟩
  · unfold getTotalPages ITEMS_PER_PAGE
    rw [ceilDiv_eq_ceil _ _ (by decide)]
    simp
  · intro p hp
    unfold getTotalPages ITEMS_PER_PAGE at hp
    have h0 : 0 ≤ ceilDiv (l.length : Int) 5 := ceilDiv_nonneg _ _ (by omega) (by decide)
    have h1 : (l.length : Int) ≤ ceilDiv (l.length : Int) 5 * 5 :=
      le_ceilDiv_mul _ _ (by decide)
    rw [getPaginatedData_eq l p (by omega)]
    have hlen : l.length ≤ ((p - 1) * 5).toNat := by omega
    simp [List.drop_eq_nil_of_le hlen]

/-- Witness for C8: a list of seven elements has two pages, and page 3 is empty. -/
theorem getTotalPages_spec_witness :
    getTotalPages [10, 11, 12, 13, 14, 15, 16] = 2
      ∧ getTotalPages [10, 11, 12, 13, 14, 15, 16] < 3
      ∧ getPaginatedData [10, 11, 12, 13, 14, 15, 16] 3 = [] :=
  ⟨by decide, by decide,
    (getTotalPages_spec [10, 11, 12, 13, 14, 15, 16]).2.2 3 (by decide)⟩

/-! ### The user filter -/

/-- C9. For every user list and every value of the filter tab, `getFilteredUsers`
returns a sub-sequence of the user list (only users of the list, each at most once,
in the same relative order); selecting a tab leaves the user list unchanged; for
the tab `all` the whole list is returned. -/
theorem getFilteredUsers_sublist (st : DashboardState) (tab : String) :
    (getFilteredUsers (setUserFilter st tab)).Sublist st.users
      ∧ (setUserFilter st tab).users = st.users
      ∧ getFilteredUsers (setUserFilter st "all") = st.users := by
  refine ⟨?_, rfl, ?_⟩
  · unfold getFilteredUsers setUserFilter
    simp only
    split
    · exact List.filter_sublist _
    · split
      · exact List.filter_sublist _
      · exact List.Sublist.refl _
  · simp [getFilteredUsers, setUserFilter]

/-- The admin tab shows the users whose role is exactly `"Admin"`. -/
theorem getFilteredUsers_example :
    getFilteredUsers
        { users := exampleUsers, bookings := [], userFilter := "admin", usersPage := 1,
          bookingsPage := 1 }
      = [[("id", .num 1), ("role", .str "Admin")]] := by
  rfl

/-! ### The response interceptor -/

theorem lookup_filter_key_self (k : String) (l : List (String × String)) :
    (l.filter (fun kv => kv.1 != k)).lookup k = none := by
  induction l with
  | nil => rfl
  | cons kv rest ih =>
    obtain ⟨key, val⟩ := kv
    by_cases h : key = k
    · have hb : ((key != k) = false) := by simp [h]
      simp only [List.filter_cons, hb]
      exact ih
    · have hb : ((key != k) = true) := by simp [h]
      have hk : (k == key) = false := by
        simp only [beq_eq_false_iff_ne]
        exact fun h' => h h'.symm
      simp only [List.filter_cons, hb, if_true, List.lookup_cons, hk]
      exact ih

theorem lookup_filter_key_other (k k' : String) (hne : k' ≠ k) (l : List (String × String)) :
    (l.filter (fun kv => kv.1 != k)).lookup k' = l.lookup k' := by
  induction l with
  | nil => rfl
  | cons kv rest ih =>
    obtain ⟨key, val⟩ := kv
    by_cases h : key = k
    · have hb : ((key != k) = false) := by simp [h]
      have hk : (k' == key) = false := by
        simp only [beq_eq_false_iff_ne]
        rw [h]
        exact hne
      simp only [List.filter_cons, hb, List.lookup_cons, hk]
      exact ih
    · have hb : ((key != k) = true) := by simp [h]
      simp only [List.filter_cons, hb, if_true, List.lookup_cons]
      cases (k' == key)
      · exact ih
      · rfl

theorem Storage.getItem_removeItem_self (s : Storage) (k : String) :
    (s.removeItem k).getItem k = none :=
  lookup_filter_key_self k s.entries

theorem Storage.getItem_removeItem_other (s : Storage) (k k' : String) (hne : k' ≠ k) :
    (s.removeItem k).getItem k' = s.getItem k' :=
  lookup_filter_key_other k k' hne s.entries

theorem clearAuthStorage_location (b : Browser) : (clearAuthStorage b).location = b.location := by
  unfold clearAuthStorage
  cases b.localStorage <;> cases b.sessionStorage <;> rfl

theorem clearAuthStorage_local (b : Browser) (ls : Storage) (h : b.localStorage = some ls) :
    (clearAuthStorage b).localStorage
      = some ((ls.removeItem "jwt_token").removeItem "refresh_token") := by
  unfold clearAuthStorage
  rw [h]
  cases b.sessionStorage <;> rfl

theorem JsVal.strictEqNum_iff (v : JsVal) (n : Int) : v.strictEqNum n = true ↔ v = .num n := by
  cases v <;> simp [JsVal.strictEqNum]

/-- C10. For every failed response with status 401 the response interceptor removes
the auth token and the refresh token from local storage, sets the location to the
sign-in view unless the current path is already the sign-in view (in which case the
location is unchanged), and rejects with the same error; for every other status it
changes neither storage nor location and rejects with the same error. -/
theorem responseErrorInterceptor_spec (b : Browser) (error : JsVal) :
    ((error.optProp "response").optProp "status" = .num 401 →
      (∀ ls, b.localStorage = some ls →
        ∃ ls', (responseErrorInterceptor b error).1.localStorage = some ls'
          ∧ ls'.getItem "jwt_token" = none ∧ ls'.getItem "refresh_token" = none)
      ∧ (b.location.pathname ≠ "/signin" →
          (responseErrorInterceptor b error).1.location = Location.assignHref "/signin")
      ∧ (b.location.pathname = "/signin" →
          (responseErrorInterceptor b error).1.location = b.location)
      ∧ (responseErrorInterceptor b error).2 = .error error)
    ∧ ((error.optProp "response").optProp "status" ≠ .num 401 →
        responseErrorInterceptor b error = (b, .error error)) := by
  constructor
  · intro h401
    have hs : ((error.optProp "response").optProp "status").strictEqNum 401 = true :=
      (JsVal.strictEqNum_iff _ _).mpr h401
    refine ⟨?_, ?_, ?_, ?_⟩
    · intro ls hls
      refine ⟨(ls.removeItem "jwt_token").removeItem "refresh_token", ?_, ?_, ?_⟩
      · simp only [responseErrorInterceptor, hs, if_true]
        split <;> simp [clearAuthStorage_local b ls hls]
      · rw [Storage.getItem_removeItem_other _ _ _ (by decide)]
        exact Storage.getItem_removeItem_self _ _
      · exact Storage.getItem_removeItem_self _ _
    · intro hp
      simp [responseErrorInterceptor, hs, clearAuthStorage_location, hp]
    · intro hp
      simp [responseErrorInterceptor, hs, clearAuthStorage_location, hp]
    · simp [responseErrorInterceptor, hs]
  · intro hne
    have hs : ((error.optProp "response").optProp "status").strictEqNum 401 = false := by
      cases hb : ((error.optProp "response").optProp "status").strictEqNum 401
      · rfl
      · exact absurd ((JsVal.strictEqNum_iff _ _).mp hb) hne
    simp [responseErrorInterceptor, hs]

/-- Witness for C10: a 401 received on the booking page clears both tokens, moves to
the sign-in view and is passed on; a 404 changes nothing. -/
theorem responseErrorInterceptor_spec_witness :
    (errUnauthorized.optProp "response").optProp "status" = .num 401
      ∧ (∃ ls', (responseErrorInterceptor exampleBrowser errUnauthorized).1.localStorage
            = some ls'
          ∧ ls'.getItem "jwt_token" = none ∧ ls'.getItem "refresh_token" = none)
      ∧ (responseErrorInterceptor exampleBrowser errUnauthorized).1.location
          = Location.assignHref "/signin"
      ∧ (responseErrorInterceptor exampleBrowser errUnauthorized).2 = .error errUnauthorized
      ∧ responseErrorInterceptor exampleBrowser errStringBody
          = (exampleBrowser, .error errStringBody) :=
  ⟨rfl,
    ((responseErrorInterceptor_spec exampleBrowser errUnauthorized).1 rfl).1 _ rfl,
    ((responseErrorInterceptor_spec exampleBrowser errUnauthorized).1 rfl).2.1 (by decide),
    ((responseErrorInterceptor_spec exampleBrowser errUnauthorized).1 rfl).2.2.2,
    (responseErrorInterceptor_spec exampleBrowser errStringBody).2
      (by show JsVal.num 404 ≠ JsVal.num 401
          intro h
          cases h)⟩

/-- After an intercepted 401 the cached user profile is still in local storage,
whatever the storage held. -/
theorem responseErrorInterceptor_user_entry_kept (b : Browser) (error : JsVal) (ls : Storage)
    (h401 : (error.optProp "response").optProp "status" = .num 401)
    (hls : b.localStorage = some ls) :
    ∃ ls', (responseErrorInterceptor b error).1.localStorage = some ls'
      ∧ ls'.getItem "user" = ls.getItem "user" := by
  have hs : ((error.optProp "response").optProp "status").strictEqNum 401 = true :=
    (JsVal.strictEqNum_iff _ _).mpr h401
  refine ⟨(ls.removeItem "jwt_token").removeItem "refresh_token", ?_, ?_⟩
  · simp only [responseErrorInterceptor, hs, if_true]
    split <;> simp [clearAuthStorage_local b ls hls]
  · rw [Storage.getItem_removeItem_other _ _ _ (by decide),
      Storage.getItem_removeItem_other _ _ _ (by decide)]

/-- C11 (failing input). A 401 is intercepted in a browser whose local storage holds
the token, the refresh token and the cached profile under `user`: afterwards the two
tokens are gone but the `user` entry is still there. -/
theorem responseErrorInterceptor_leaves_user_profile :
    (errUnauthorized.optProp "response").optProp "status" = .num 401
      ∧ exampleBrowser.localStorage
          = some { entries := [("jwt_token", "abc.def.ghi"), ("refresh_token", "r-123"),
              ("user", "(profile)")] }
      ∧ (responseErrorInterceptor exampleBrowser errUnauthorized).1.localStorage
          = some { entries := [("user", "(profile)")] }
      ∧ ((responseErrorInterceptor exampleBrowser errUnauthorized).1.localStorage.map
          (fun ls => ls.getItem "user")) = some (some "(profile)") :=
  ⟨rfl, rfl, rfl, rfl⟩

/-! ### The request interceptor -/

theorem JsObject.lookup_set (o : JsObject) (k k' : String) (v : JsVal) :
    List.lookup k' (JsObject.set o k v) = if k' = k then some v else List.lookup k' o := by
  induction o with
  | nil =>
    by_cases h : k' = k
    · simp [JsObject.set, List.lookup, h]
    · have hb : (k' == k) = false := by simpa using h
      simp [JsObject.set, List.lookup, h, hb]
  | cons kv rest ih =>
    obtain ⟨k0, v0⟩ := kv
    by_cases h0 : k0 = k
    · have hb0 : (k0 == k) = true := by simpa using h0
      simp only [JsObject.set, hb0, if_true, List.lookup_cons]
      by_cases h : k' = k
      · have hb : (k' == k) = true := by simpa using h
        simp [h]
      · have hb : (k' == k) = false := by simpa using h
        have hb1 : (k' == k0) = false := by rw [h0]; exact hb
        simp [h, hb, hb1]
    · have hb0 : (k0 == k) = false := by simpa using h0
      simp only [JsObject.set, hb0, Bool.false_eq_true, if_false, List.lookup_cons]
      by_cases h1 : k' = k0
      · have hb1 : (k' == k0) = true := by simpa using h1
        have hk : ¬ k' = k := by rw [h1]; exact h0
        simp [hb1, hk]
      · have hb1 : (k' == k0) = false := by simpa using h1
        simp only [hb1]
        exact ih

theorem JsObject.get_set_self (o : JsObject) (k : String) (v : JsVal) :
    (JsObject.set o k v).get k = v := by
  simp [JsObject.get, JsVal.lookupField, JsObject.lookup_set]

theorem JsObject.get_set_other (o : JsObject) (k k' : String) (v : JsVal) (hne : k' ≠ k) :
    (JsObject.set o k v).get k' = o.get k' := by
  simp [JsObject.get, JsVal.lookupField, JsObject.lookup_set, hne]

/-- C12. For every request configuration and every storage state, the request
interceptor returns the configuration with the `Authorization` header set to
`"Bearer "` followed by the stored token when a non-empty token is stored, and
returns the configuration unchanged when no token is stored (or storage cannot be
read); every header other than `Authorization` and every other field of the
configuration is unchanged in both cases. -/
theorem requestInterceptor_spec (b : Browser) (config : RequestConfig) :
    (∀ ls t, b.localStorage = some ls → ls.getItem "jwt_token" = some t → t ≠ "" →
      ∃ h, (requestInterceptor b config).headers = some h
        ∧ h.get "Authorization" = .str ("Bearer " ++ t)
        ∧ ∀ k, k ≠ "Authorization" → h.get k = (config.headers.getD []).get k)
    ∧ ((∀ ls, b.localStorage = some ls → ls.getItem "jwt_token" = none) →
        requestInterceptor b config = config)
    ∧ (requestInterceptor b config).others = config.others := by
  refine ⟨?_, ?_, ?_⟩
  · intro ls t hls ht hne
    refine ⟨JsObject.set (config.headers.getD []) "Authorization" (.str ("Bearer " ++ t)),
      ?_, JsObject.get_set_self _ _ _, fun k hk => JsObject.get_set_other _ _ _ _ hk⟩
    simp [requestInterceptor, Browser.localGetItem, hls, ht, tokenTruthy, hne]
  · intro hnone
    unfold requestInterceptor Browser.localGetItem
    cases hls : b.localStorage with
    | none => rfl
    | some ls => simp [hnone ls hls, tokenTruthy]
  · unfold requestInterceptor
    split
    · rfl
    · split <;> rfl

/-- Witness for C12: with the token `abc.def.ghi` stored, the request gets the header
`Authorization: Bearer abc.def.ghi` and keeps its `Accept` header; with an empty
storage the configuration comes back unchanged. -/
theorem requestInterceptor_spec_witness :
    (∃ h, (requestInterceptor exampleBrowser exampleConfig).headers = some h
        ∧ h.get "Authorization" = .str "Bearer abc.def.ghi"
        ∧ ∀ k, k ≠ "Authorization" → h.get k = (exampleConfig.headers.getD []).get k)
      ∧ requestInterceptor
          { localStorage := some { entries := [] }, sessionStorage := none,
            location := { pathname := "/", search := "", hash := "" } } exampleConfig
        = exampleConfig :=
  ⟨(requestInterceptor_spec exampleBrowser exampleConfig).1 _ "abc.def.ghi" rfl rfl (by decide),
   (requestInterceptor_spec _ exampleConfig).2.1
     (fun ls hls => by
        have h : ls = { entries := [] } := by
          simp only [Option.some.injEq] at hls
          exact hls.symm
        rw [h]
        rfl)⟩

/-! ### The dashboard load: active bookings -/

theorem isActiveBooking_eq (lib : JsLib) (now : Int) (b : JsObject)
    (hstatus : (b.get "status").truthy = false ∨ (b.get "status").isString = true) :
    isActiveBooking lib now b = .ok (activeAt lib now b) := by
  have hs : ∃ s, (b.get "status").or (.str "") = .str s := by
    rcases hstatus with h | h
    · exact ⟨"", by simp [JsVal.or, h]⟩
    · cases hv : b.get "status" with
      | str s =>
        by_cases hne : s = ""
        · exact ⟨"", by simp [JsVal.or, JsVal.truthy, hne]⟩
        · exact ⟨s, by simp [JsVal.or, JsVal.truthy, hne]⟩
      | _ => simp [hv, JsVal.isString] at h
  obtain ⟨s, hs⟩ := hs
  unfold isActiveBooking activeAt bookingStatusLower
  rw [hs]
  by_cases he : (b.get "endDate").truthy = true
  · simp [he, toLowerCaseCall, except_ok_bind, except_pure_eq, Bool.and_assoc]
  · simp [he, toLowerCaseCall, except_ok_bind, except_pure_eq]

theorem activeList_eq_filter (lib : JsLib) (now : Int) (bookings : List JsObject)
    (hstatus : ∀ b ∈ bookings,
      (b.get "status").truthy = false ∨ (b.get "status").isString = true) :
    activeList lib now bookings = .ok (bookings.filter (activeAt lib now)) := by
  induction bookings with
  | nil => rfl
  | cons b rest ih =>
    have hb := hstatus b (List.mem_cons_self _ _)
    have hrest := ih (fun x hx => hstatus x (List.mem_cons_of_mem _ hx))
    unfold activeList
    rw [isActiveBooking_eq lib now b hb, hrest]
    simp only [except_ok_bind, except_pure_eq]
    cases hact : activeAt lib now b <;> simp [List.filter_cons, hact]

/-- C13 (counterexample). At 2025-11-05 10:00 UTC a booking that ends on 2025-11-05 at
00:00 UTC has an end date that is today and an approved status, yet it is not in the
active list. -/
theorem activeList_today_counterexample :
    localDay (.fixed 0) 1762300800000 = localDay (.fixed 0) 1762336800000
      ∧ exampleLib.dateOf (bookingEndingToday.get "endDate") = .int 1762300800000
      ∧ bookingStatusLower exampleLib bookingEndingToday = "approved"
      ∧ activeList exampleLib 1762336800000 [bookingEndingToday] = .ok [] := by
  refine ⟨by decide, rfl, by decide, rfl⟩

/-- C13 (amended). In the dashboard load, for every booking list (with statuses that
are strings or absent) and current time, a booking is in the active list if and only
if it has an end date whose time is at or after the current time (not merely on the
current day) and its status, compared in lower case, is neither `cancelled` nor
`rejected`; the active list keeps the order of the booking list. -/
theorem activeList_spec (lib : JsLib) (now : Int) (bookings : List JsObject)
    (hstatus : ∀ b ∈ bookings,
      (b.get "status").truthy = false ∨ (b.get "status").isString = true) :
    ∃ active, activeList lib now bookings = .ok active
      ∧ active.Sublist bookings
      ∧ ∀ b, b ∈ active ↔
          (b ∈ bookings
            ∧ (b.get "endDate").truthy = true
            ∧ (∃ t, lib.dateOf (b.get "endDate") = .int t ∧ now ≤ t)
            ∧ bookingStatusLower lib b ≠ "cancelled"
            ∧ bookingStatusLower lib b ≠ "rejected") := by
  refine ⟨bookings.filter (activeAt lib now), activeList_eq_filter lib now bookings hstatus,
    List.filter_sublist _, ?_⟩
  intro b
  rw [List.mem_filter]
  have hact : activeAt lib now b = true ↔
      ((b.get "endDate").truthy = true
        ∧ (∃ t, lib.dateOf (b.get "endDate") = .int t ∧ now ≤ t)
        ∧ bookingStatusLower lib b ≠ "cancelled"
        ∧ bookingStatusLower lib b ≠ "rejected") := by
    unfold activeAt
    cases hd : lib.dateOf (b.get "endDate") with
    | nan => simp [JsNum.le]
    | int t => simp [JsNum.le, and_assoc]
  rw [hact]

/-- Witness for C13: at 2025-11-05 10:00 UTC, of a booking that ended at 00:00 UTC and
one that ends on 2025-11-08, only the second is active. -/
theorem activeList_spec_witness :
    activeList exampleLib 1762336800000 [bookingEndingToday, bookingEndingLater]
        = .ok [bookingEndingLater]
      ∧ ∃ active,
          activeList exampleLib 1762336800000 [bookingEndingToday, bookingEndingLater]
            = .ok active
          ∧ active.Sublist [bookingEndingToday, bookingEndingLater]
          ∧ ∀ b, b ∈ active ↔
              (b ∈ [bookingEndingToday, bookingEndingLater]
                ∧ (b.get "endDate").truthy = true
                ∧ (∃ t, exampleLib.dateOf (b.get "endDate") = .int t ∧ 1762336800000 ≤ t)
                ∧ bookingStatusLower exampleLib b ≠ "cancelled"
                ∧ bookingStatusLower exampleLib b ≠ "rejected") :=
  ⟨rfl, activeList_spec exampleLib 1762336800000 [bookingEndingToday, bookingEndingLater]
    (by
      intro b hb
      simp only [List.mem_cons, List.mem_singleton, List.not_mem_nil, or_false] at hb
      rcases hb with rfl | rfl <;> exact Or.inr rfl)⟩

/-! ### The dashboard load: room statistics -/

theorem mem_setAdd (set : List String) (k x : String) :
    x ∈ setAdd set k ↔ x ∈ set ∨ x = k := by
  unfold setAdd
  by_cases h : k ∈ set
  · simp only [h, if_true]
    constructor
    · exact fun hx => Or.inl hx
    · rintro (hx | hx)
      · exact hx
      · rw [hx]; exact h
  · simp [h]

theorem nodup_setAdd (set : List String) (k : String) (hn : set.Nodup) :
    (setAdd set k).Nodup := by
  unfold setAdd
  by_cases h : k ∈ set
  · simp [h, hn]
  · simp only [h, if_false]
    rw [List.nodup_append]
    refine ⟨hn, List.nodup_singleton k, ?_⟩
    intro a ha hb
    simp only [List.mem_singleton] at hb
    exact h (hb ▸ ha)

theorem foldl_setAdd (keys set : List String) (hn : set.Nodup) :
    (keys.foldl setAdd set).Nodup
      ∧ ∀ x, x ∈ keys.foldl setAdd set ↔ x ∈ set ∨ x ∈ keys := by
  induction keys generalizing set with
  | nil => simp [hn]
  | cons k rest ih =>
    obtain ⟨h1, h2⟩ := ih (setAdd set k) (nodup_setAdd set k hn)
    refine ⟨h1, fun x => ?_⟩
    simp only [List.foldl_cons]
    rw [h2, mem_setAdd, List.mem_cons]
    tauto

/-- The size of a set built by repeated `add` is the number of distinct keys added. -/
theorem length_foldl_setAdd (keys : List String) :
    (keys.foldl setAdd []).length = keys.toFinset.card := by
  obtain ⟨h1, h2⟩ := foldl_setAdd keys [] List.nodup_nil
  rw [← List.toFinset_card_of_nodup h1]
  congr 1
  ext x
  simp [h2]

theorem roomIdSet_foldl (active : List JsObject) (set : List String) :
    active.foldl (fun set a =>
        if (bookingRoomId a).truthy then setAdd set (bookingRoomId a).toTemplate else set) set
      = (active.filterMap bookingRoomKey).foldl setAdd set := by
  induction active generalizing set with
  | nil => rfl
  | cons a rest ih =>
    simp only [List.foldl_cons, List.filterMap_cons, bookingRoomKey]
    by_cases h : (bookingRoomId a).truthy = true
    · simp only [h, if_true, List.foldl_cons]
      exact ih _
    · simp only [h, Bool.false_eq_true, if_false]
      exact ih _

/-- The two room statistics computed from a list of active bookings: the size of the
set of room keys, and `max(0, rooms - booked)`. -/
theorem roomsBooked_roomsFree_spec (allRooms active : List JsObject) :
    roomsBooked active = ((active.filterMap bookingRoomKey).toFinset.card : Int)
      ∧ roomsFree allRooms active = max 0 ((allRooms.length : Int) - roomsBooked active)
      ∧ 0 ≤ roomsFree allRooms active
      ∧ (roomsBooked active ≤ (allRooms.length : Int) →
          roomsBooked active + roomsFree allRooms active = (allRooms.length : Int)) := by
  refine ⟨?_, rfl, ?_, ?_⟩
  · unfold roomsBooked roomIdSetActive
    rw [roomIdSet_foldl, length_foldl_setAdd]
  · unfold roomsFree
    exact le_max_left _ _
  · intro h
    unfold roomsFree
    rw [max_eq_right (by omega)]
    ring

/-! ### The dashboard load: users with bookings -/

theorem userKeysLoop_eq_foldl (lib : JsLib) (randomText : Nat → String)
    (bookings : List JsObject) (i : Nat) (set : List String) :
    userKeysLoop lib randomText i set bookings
      = (bookingUserKeys lib randomText i bookings).foldl setAdd set := by
  induction bookings generalizing i set with
  | nil => rfl
  | cons bk rest ih =>
    simp only [userKeysLoop, bookingUserKeys]
    rw [ih, List.foldl_append]
    by_cases h : getBookingUserKey lib (randomText i) bk = ""
    · simp [h]
    · simp [h]

theorem string_append_left_cancel (p a b : String) : p ++ a = p ++ b ↔ a = b := by
  constructor
  · intro h
    have hd := congrArg String.data h
    simp only [String.data_append, List.append_cancel_left_eq] at hd
    exact String.ext hd
  · intro h
    rw [h]

/-! ### The dashboard load: sorting -/

theorem orderedInsert_congr {α : Type} (r r' : α → α → Prop) [DecidableRel r]
    [DecidableRel r'] (a : α) (l : List α) (h : ∀ b ∈ l, r a b ↔ r' a b) :
    l.orderedInsert r a = l.orderedInsert r' a := by
  induction l with
  | nil => rfl
  | cons b rest ih =>
    have hb := h b (List.mem_cons_self _ _)
    have hrest := ih (fun x hx => h x (List.mem_cons_of_mem _ hx))
    by_cases hr : r a b
    · simp [List.orderedInsert, hr, hb.mp hr]
    · have hr' : ¬ r' a b := fun h' => hr (hb.mpr h')
      simp [List.orderedInsert, hr, hr', hrest]

theorem insertionSort_congr {α : Type} (r r' : α → α → Prop) [DecidableRel r]
    [DecidableRel r'] (l : List α) (h : ∀ a ∈ l, ∀ b ∈ l, r a b ↔ r' a b) :
    l.insertionSort r = l.insertionSort r' := by
  induction l with
  | nil => rfl
  | cons a rest ih =>
    have hrest := ih (fun x hx y hy =>
      h x (List.mem_cons_of_mem _ hx) y (List.mem_cons_of_mem _ hy))
    simp only [List.insertionSort]
    rw [hrest]
    apply orderedInsert_congr
    intro b hb
    rw [List.mem_insertionSort] at hb
    exact h a (List.mem_cons_self _ _) b (List.mem_cons_of_mem _ hb)

theorem jsSort_perm {α : Type} (cmp : α → α → JsExt) (xs : List α) :
    (jsSort cmp xs).Perm xs :=
  List.perm_insertionSort _ xs

theorem jsSort_stable {α : Type} (cmp : α → α → JsExt) (xs c : List α)
    (hc : c.Pairwise (fun a b => (cmp a b).notPositive = true)) (hsub : c.Sublist xs) :
    c.Sublist (jsSort cmp xs) :=
  List.sublist_insertionSort hc hsub

/-- Sorting with a comparator that, on the elements of the list, is the difference of
an integer key gives a list sorted by that key. -/
theorem jsSort_sorted_by_key {α : Type} (cmp : α → α → JsExt) (key : α → Int) (xs : List α)
    (hkey : ∀ a ∈ xs, ∀ b ∈ xs, ((cmp a b).notPositive = true ↔ key a ≤ key b)) :
    jsSort cmp xs = xs.insertionSort (fun a b => key a ≤ key b)
      ∧ (jsSort cmp xs).Sorted (fun a b => key a ≤ key b) := by
  have heq : jsSort cmp xs = xs.insertionSort (fun a b => key a ≤ key b) :=
    insertionSort_congr _ _ xs hkey
  refine ⟨heq, ?_⟩
  rw [heq]
  haveI : IsTotal α (fun a b => key a ≤ key b) := ⟨fun a b => le_total (key a) (key b)⟩
  haveI : IsTrans α (fun a b => key a ≤ key b) := ⟨fun _ _ _ h1 h2 => le_trans h1 h2⟩
  exact List.sorted_insertionSort _ xs

theorem compareBookings_notPositive (lib : JsLib) (a b : JsObject)
    (ha : bookingStartTime lib a ≠ .nan) (hb : bookingStartTime lib b ≠ .nan) :
    (compareBookings lib a b).notPositive = true ↔ startKey lib a ≤ startKey lib b := by
  unfold compareBookings startKey
  cases hta : bookingStartTime lib a with
  | nan => exact absurd hta ha
  | int ta =>
    cases htb : bookingStartTime lib b with
    | nan => exact absurd htb hb
    | int tb =>
      simp only [JsNum.sub, JsNum.toExt, JsExt.notPositive, decide_eq_true_eq]
      omega

/-- When every start date that is present is a valid date, the sorted booking list is
a permutation of the list, sorted ascending by start timestamp, where a booking with
no start date has timestamp 0; two bookings that are in order of timestamp in the
list (in particular two with equal timestamps) keep their relative order. -/
theorem sortBookings_spec (lib : JsLib) (allBookingsRaw : List JsObject)
    (hvalid : ∀ b ∈ allBookingsRaw, bookingStartTime lib b ≠ .nan) :
    (sortBookings lib allBookingsRaw).Perm allBookingsRaw
      ∧ (sortBookings lib allBookingsRaw).Sorted (fun a b => startKey lib a ≤ startKey lib b)
      ∧ (∀ b, (b.get "startDate").truthy = false → startKey lib b = 0)
      ∧ (∀ a b, (a.get "startDate").truthy = false → 0 < startKey lib b →
          ¬ List.Sublist [b, a] (sortBookings lib allBookingsRaw))
      ∧ (∀ a b, List.Sublist [a, b] allBookingsRaw → startKey lib a ≤ startKey lib b →
          List.Sublist [a, b] (sortBookings lib allBookingsRaw)) := by
  have hkey : ∀ a ∈ allBookingsRaw, ∀ b ∈ allBookingsRaw,
      ((compareBookings lib a b).notPositive = true ↔ startKey lib a ≤ startKey lib b) :=
    fun a ha b hb => compareBookings_notPositive lib a b (hvalid a ha) (hvalid b hb)
  have hzero : ∀ b : JsObject, (b.get "startDate").truthy = false → startKey lib b = 0 := by
    intro b hb
    simp [startKey, bookingStartTime, hb]
  refine ⟨jsSort_perm _ _, (jsSort_sorted_by_key _ _ _ hkey).2, hzero, ?_, ?_⟩
  · intro a b ha hb hsub
    have hsorted := (jsSort_sorted_by_key _ _ _ hkey).2
    have hle : startKey lib b ≤ startKey lib a :=
      (List.pairwise_iff_forall_sublist.mp hsorted) hsub
    rw [hzero a ha] at hle
    omega
  · intro a b hsub hle
    have ha : a ∈ allBookingsRaw := hsub.subset (by simp)
    have hb : b ∈ allBookingsRaw := hsub.subset (by simp)
    exact jsSort_stable _ _ _ (List.pairwise_pair.mpr ((hkey a ha b hb).mpr hle)) hsub

theorem compareUsers_total (lib : JsLib) (a b : JsObject) :
    (compareUsers lib a b).notPositive = true ∨ (compareUsers lib b a).notPositive = true := by
  unfold compareUsers
  cases parseUserCreatedAt lib a <;> cases parseUserCreatedAt lib b <;>
    simp [JsExt.notPositive]
  omega

theorem compareUsers_trans (lib : JsLib) (a b c : JsObject)
    (hab : (compareUsers lib a b).notPositive = true)
    (hbc : (compareUsers lib b c).notPositive = true) :
    (compareUsers lib a c).notPositive = true := by
  unfold compareUsers at *
  generalize parseUserCreatedAt lib a = pa at *
  generalize parseUserCreatedAt lib b = pb at *
  generalize parseUserCreatedAt lib c = pc at *
  cases pa <;> cases pb <;> cases pc <;> simp [JsExt.notPositive] at *
  omega

theorem compareUsers_notPositive (lib : JsLib) (a b : JsObject) :
    (compareUsers lib a b).notPositive = true ↔
      ((parseUserCreatedAt lib b ≠ none → parseUserCreatedAt lib a ≠ none)
        ∧ ∀ ta tb, parseUserCreatedAt lib a = some ta → parseUserCreatedAt lib b = some tb →
            ta ≤ tb) := by
  unfold compareUsers
  cases parseUserCreatedAt lib a <;> cases parseUserCreatedAt lib b <;>
    simp [JsExt.notPositive]

/-- C18. In the dashboard load, the displayed user list is a permutation of the
fetched user list in which every user with a known (parseable) creation date comes
before every user without one, the users with known dates are in ascending order of
creation date, and the users without one keep their fetched relative order; the
comparator is a total preorder (total and transitive). -/
theorem sortUsers_spec (lib : JsLib) (allUsersRaw : List JsObject) :
    (sortUsers lib allUsersRaw).Perm allUsersRaw
      ∧ (∀ a b, List.Sublist [a, b] (sortUsers lib allUsersRaw) →
          (parseUserCreatedAt lib b ≠ none → parseUserCreatedAt lib a ≠ none)
            ∧ ∀ ta tb, parseUserCreatedAt lib a = some ta →
                parseUserCreatedAt lib b = some tb → ta ≤ tb)
      ∧ (sortUsers lib allUsersRaw).filter (fun u => (parseUserCreatedAt lib u).isNone)
          = allUsersRaw.filter (fun u => (parseUserCreatedAt lib u).isNone)
      ∧ (∀ a b, (compareUsers lib a b).notPositive = true
          ∨ (compareUsers lib b a).notPositive = true)
      ∧ (∀ a b c, (compareUsers lib a b).notPositive = true →
          (compareUsers lib b c).notPositive = true →
          (compareUsers lib a c).notPositive = true) := by
  refine ⟨jsSort_perm _ _, ?_, ?_, compareUsers_total lib, compareUsers_trans lib⟩
  · intro a b hsub
    haveI : IsTotal JsObject (fun a b => (compareUsers lib a b).notPositive = true) :=
      ⟨compareUsers_total lib⟩
    haveI : IsTrans JsObject (fun a b => (compareUsers lib a b).notPositive = true) :=
      ⟨compareUsers_trans lib⟩
    have hsorted : (sortUsers lib allUsersRaw).Sorted
        (fun a b => (compareUsers lib a b).notPositive = true) :=
      List.sorted_insertionSort _ allUsersRaw
    exact (compareUsers_notPositive lib a b).mp
      ((List.pairwise_iff_forall_sublist.mp hsorted) hsub)
  · symm
    have hpair : (allUsersRaw.filter (fun u => (parseUserCreatedAt lib u).isNone)).Pairwise
        (fun a b => (compareUsers lib a b).notPositive = true) := by
      apply List.pairwise_of_forall_mem_list
      intro a ha b hb
      have ha' := (List.mem_filter.mp ha).2
      have hb' := (List.mem_filter.mp hb).2
      rw [Option.isNone_iff_eq_none] at ha' hb'
      simp [compareUsers, ha', hb', JsExt.notPositive]
    have hsub : (allUsersRaw.filter (fun u => (parseUserCreatedAt lib u).isNone)).Sublist
        (sortUsers lib allUsersRaw) :=
      jsSort_stable _ _ _ hpair (List.filter_sublist _)
    have hsub2 := hsub.filter (fun u => (parseUserCreatedAt lib u).isNone)
    rw [List.filter_filter] at hsub2
    simp only [Bool.and_self] at hsub2
    apply hsub2.eq_of_length
    exact ((jsSort_perm (compareUsers lib) allUsersRaw).filter _).length_eq.symm

/-- Witness for C18: the two users with a creation date come first, oldest first, and
the two without one follow in their fetched order. -/
theorem sortUsers_spec_witness :
    sortUsers exampleLib exampleUsersRaw
        = [[("id", .num 3), ("created_at", .str "2024-01-10T00:00:00.000Z")],
           [("id", .num 1), ("createdAt", .str "2024-02-20T00:00:00.000Z")],
           [("id", .num 2)],
           [("id", .num 4), ("createdAt", .str "yesterday")]]
      ∧ (sortUsers exampleLib exampleUsersRaw).Perm exampleUsersRaw
      ∧ (sortUsers exampleLib exampleUsersRaw).filter
            (fun u => (parseUserCreatedAt exampleLib u).isNone)
          = exampleUsersRaw.filter (fun u => (parseUserCreatedAt exampleLib u).isNone) :=
  ⟨rfl, (sortUsers_spec exampleLib exampleUsersRaw).1,
    (sortUsers_spec exampleLib exampleUsersRaw).2.2.1⟩

/-! ### The dashboard load: next vacancy -/

theorem isActiveBooking_true (lib : JsLib) (now : Int) (b : JsObject)
    (h : isActiveBooking lib now b = .ok true) :
    (b.get "endDate").truthy = true
      ∧ ∃ t, lib.dateOf (b.get "endDate") = .int t ∧ now ≤ t := by
  unfold isActiveBooking at h
  cases hs : toLowerCaseCall lib ((b.get "status").or (.str "")) with
  | error e => rw [hs] at h; cases h
  | ok s =>
    rw [hs] at h
    simp only [except_ok_bind] at h
    by_cases he : (b.get "endDate").truthy = true
    · refine ⟨he, ?_⟩
      simp only [he, if_true, except_pure_eq, Except.ok.injEq, Bool.and_eq_true] at h
      cases hd : lib.dateOf (b.get "endDate") with
      | nan => rw [hd] at h; simp [JsNum.le] at h
      | int t =>
        rw [hd] at h
        exact ⟨t, rfl, by simpa [JsNum.le] using h.1.1⟩
    · simp [he, except_pure_eq] at h

theorem activeList_mem_valid (lib : JsLib) (now : Int) (bookings active : List JsObject)
    (h : activeList lib now bookings = .ok active) :
    ∀ b ∈ active, (b.get "endDate").truthy = true
      ∧ ∃ t, lib.dateOf (b.get "endDate") = .int t ∧ now ≤ t := by
  induction bookings generalizing active with
  | nil =>
    simp only [activeList, Except.ok.injEq] at h
    subst h
    simp
  | cons b rest ih =>
    unfold activeList at h
    cases hk : isActiveBooking lib now b with
    | error e => rw [hk] at h; cases h
    | ok keep =>
      cases ht : activeList lib now rest with
      | error e => rw [hk, ht] at h; cases h
      | ok tail =>
        rw [hk, ht] at h
        simp only [except_ok_bind, except_pure_eq, Except.ok.injEq] at h
        subst h
        intro x hx
        cases keep with
        | false =>
          simp only [Bool.false_eq_true, if_false] at hx
          exact ih tail ht x hx
        | true =>
          simp only [if_true, List.mem_cons] at hx
          rcases hx with rfl | hx
          · exact isActiveBooking_true lib now x hk
          · exact ih tail ht x hx

/-- The head of a list sorted (stably) by an integer key is the first element, in list
order, that has the least key. -/
theorem head_insertionSort_key {α : Type} (key : α → Int) (xs : List α) (hne : xs ≠ []) :
    ∃ first pre post,
      (xs.insertionSort (fun a b => key a ≤ key b)).head? = some first
        ∧ xs = pre ++ first :: post
        ∧ (∀ b ∈ xs, key first ≤ key b)
        ∧ (∀ b ∈ pre, key first < key b) := by
  induction xs with
  | nil => exact absurd rfl hne
  | cons a rest ih =>
    by_cases hrest : rest = []
    · subst hrest
      exact ⟨a, [], [], rfl, rfl, by simp, by simp⟩
    · obtain ⟨first, pre, post, hhead, hsplit, hmin, hpre⟩ := ih hrest
      cases hsorted : rest.insertionSort (fun a b => key a ≤ key b) with
      | nil => rw [hsorted] at hhead; cases hhead
      | cons h tl =>
        rw [hsorted] at hhead
        simp only [List.head?_cons, Option.some.injEq] at hhead
        subst hhead
        by_cases hle : key a ≤ key h
        · refine ⟨a, [], rest, ?_, rfl, ?_, by simp⟩
          · simp [List.insertionSort, hsorted, List.orderedInsert, hle]
          · intro b hb
            rcases List.mem_cons.mp hb with rfl | hb
            · exact le_refl _
            · exact le_trans hle (hmin b hb)
        · refine ⟨h, a :: pre, post, ?_, by rw [hsplit]; rfl, ?_, ?_⟩
          · simp [List.insertionSort, hsorted, List.orderedInsert, hle]
          · intro b hb
            rcases List.mem_cons.mp hb with rfl | hb
            · omega
            · exact hmin b hb
          · intro b hb
            rcases List.mem_cons.mp hb with rfl | hb
            · omega
            · exact hpre b hb

theorem compareByEnd_notPositive (lib : JsLib) (a b : JsObject) (ta tb : Int)
    (ha : (a.get "endDate").truthy = true) (hta : lib.dateOf (a.get "endDate") = .int ta)
    (hb : (b.get "endDate").truthy = true) (htb : lib.dateOf (b.get "endDate") = .int tb) :
    (compareByEnd lib a b).notPositive = true ↔ endKey lib a ≤ endKey lib b := by
  simp only [compareByEnd, bookingEndTime, ha, hb, hta, htb, if_true, JsNum.toExt, JsExt.sub,
    JsExt.notPositive, endKey, decide_eq_true_eq]
  omega

/-- The next vacancy computed from an active list: absent if and only if the list is
empty; otherwise its date is the least end date of the list and its room number is
that of the first booking of the list that has this end date. -/
theorem nextFree_spec (lib : JsLib) (now : Int) (bookings active : List JsObject)
    (hact : activeList lib now bookings = .ok active) :
    (nextFree lib active = none ↔ active = [])
      ∧ (active ≠ [] →
          ∃ first m pre post,
            nextFree lib active
                = some { roomNumber := bookingRoomNumber first, date := .int m }
              ∧ active = pre ++ first :: post
              ∧ lib.dateOf (first.get "endDate") = .int m
              ∧ (∀ b ∈ active, ∃ t, lib.dateOf (b.get "endDate") = .int t ∧ m ≤ t)
              ∧ (∀ b ∈ pre, ∃ t, lib.dateOf (b.get "endDate") = .int t ∧ m < t)) := by
  have hvalid := activeList_mem_valid lib now bookings active hact
  have hkey : ∀ a ∈ active, ∀ b ∈ active,
      ((compareByEnd lib a b).notPositive = true ↔ endKey lib a ≤ endKey lib b) := by
    intro a ha b hb
    obtain ⟨hat, ta, hta, _⟩ := hvalid a ha
    obtain ⟨hbt, tb, htb, _⟩ := hvalid b hb
    exact compareByEnd_notPositive lib a b ta tb hat hta hbt htb
  have hsort := (jsSort_sorted_by_key (compareByEnd lib) (endKey lib) active hkey).1
  have hmain : active ≠ [] →
      ∃ first m pre post,
        nextFree lib active
            = some { roomNumber := bookingRoomNumber first, date := .int m }
          ∧ active = pre ++ first :: post
          ∧ lib.dateOf (first.get "endDate") = .int m
          ∧ (∀ b ∈ active, ∃ t, lib.dateOf (b.get "endDate") = .int t ∧ m ≤ t)
          ∧ (∀ b ∈ pre, ∃ t, lib.dateOf (b.get "endDate") = .int t ∧ m < t) := by
    intro hne
    obtain ⟨first, pre, post, hhead, hsplit, hmin, hpre⟩ :=
      head_insertionSort_key (endKey lib) active hne
    have hfirst : first ∈ active := by rw [hsplit]; simp
    obtain ⟨hft, m, hm, _⟩ := hvalid first hfirst
    have hkm : endKey lib first = m := by simp [endKey, hm]
    have hlen : active.length > 0 := List.length_pos.mpr hne
    refine ⟨first, m, pre, post, ?_, hsplit, hm, ?_, ?_⟩
    · unfold nextFree
      rw [hsort, hhead]
      simp [hlen, hft, hm]
    · intro b hb
      obtain ⟨_, t, ht, _⟩ := hvalid b hb
      refine ⟨t, ht, ?_⟩
      have := hmin b hb
      rw [hkm] at this
      simpa [endKey, ht] using this
    · intro b hb
      have hbact : b ∈ active := by rw [hsplit]; simp [hb]
      obtain ⟨_, t, ht, _⟩ := hvalid b hbact
      refine ⟨t, ht, ?_⟩
      have := hpre b hb
      rw [hkm] at this
      simpa [endKey, ht] using this
  refine ⟨?_, hmain⟩
  constructor
  · intro hnone
    by_contra hne
    obtain ⟨first, m, pre, post, hsome, _⟩ := hmain hne
    rw [hsome] at hnone
    cases hnone
  · intro hnil
    subst hnil
    rfl

/-! ### The dashboard load: the stored values -/

/-- A dashboard load that succeeds has filtered the sorted booking list and stores the
values computed from the two sorted lists, the rooms and the active list. -/
theorem loadDataValues_ok (lib : JsLib) (now : Int) (randomText : Nat → String)
    (allUsersRaw allBookingsRaw allRooms : List JsObject) (d : DashboardData)
    (h : loadDataValues lib now randomText allUsersRaw allBookingsRaw allRooms = .ok d) :
    ∃ active, activeList lib now (sortBookings lib allBookingsRaw) = .ok active
      ∧ d.bookings = sortBookings lib allBookingsRaw
      ∧ d.rooms = allRooms
      ∧ d.usersWithBookingCount
          = usersWithBookings lib randomText (sortBookings lib allBookingsRaw)
      ∧ d.roomsBookedNow = roomsBooked active
      ∧ d.roomsFreeNow = roomsFree allRooms active
      ∧ d.nextRoomFree = nextFree lib active := by
  unfold loadDataValues at h
  simp only at h
  cases ha : activeList lib now (sortBookings lib allBookingsRaw) with
  | error e => rw [ha] at h; cases h
  | ok active =>
    rw [ha] at h
    simp only [except_ok_bind, except_pure_eq, Except.ok.injEq] at h
    rw [← h]
    exact ⟨active, rfl, rfl, rfl, rfl, rfl, rfl, rfl⟩

/-- The active list is a sub-list of the booking list: it keeps its order. -/
theorem activeList_sublist (lib : JsLib) (now : Int) (bookings active : List JsObject)
    (h : activeList lib now bookings = .ok active) : active.Sublist bookings := by
  induction bookings generalizing active with
  | nil =>
    simp only [activeList, Except.ok.injEq] at h
    subst h
    exact List.Sublist.refl _
  | cons b rest ih =>
    unfold activeList at h
    cases hk : isActiveBooking lib now b with
    | error e => rw [hk] at h; cases h
    | ok keep =>
      cases ht : activeList lib now rest with
      | error e => rw [hk, ht] at h; cases h
      | ok tail =>
        rw [hk, ht] at h
        simp only [except_ok_bind, except_pure_eq, Except.ok.injEq] at h
        subst h
        cases keep with
        | false =>
          simp only [Bool.false_eq_true, if_false]
          exact (ih tail ht).cons b
        | true =>
          simp only [if_true]
          exact (ih tail ht).cons₂ b

/-- The room keys of a list of bookings: the texts of their truthy room ids. -/
theorem filterMap_bookingRoomKey (active : List JsObject) :
    active.filterMap bookingRoomKey
      = (active.filter (fun a => (bookingRoomId a).truthy)).map
          (fun a => (bookingRoomId a).toTemplate) := by
  induction active with
  | nil => rfl
  | cons a rest ih =>
    by_cases h : (bookingRoomId a).truthy = true
    · simp [List.filterMap_cons, bookingRoomKey, h, ih]
    · simp [List.filterMap_cons, bookingRoomKey, h, ih]

/-- C14 (counterexample). A load whose only booking is active and is of the room with
id `0`, in a hotel whose only room is that room: the room id `0` appears in an active
booking, yet rooms-booked-now is 0 and rooms-free-now is 1. And a load with two
active bookings whose room ids are the number `7` and the string `"7"`: two values,
counted once. -/
theorem loadDataValues_rooms_counterexample :
    (∃ d, loadDataValues exampleLib 1762336800000 exampleRandomText [] [bookingRoomZero]
            roomZeroOnly = .ok d
        ∧ activeList exampleLib 1762336800000 d.bookings = .ok [bookingRoomZero]
        ∧ bookingRoomId bookingRoomZero = .num 0
        ∧ d.rooms.length = 1
        ∧ d.roomsBookedNow = 0
        ∧ d.roomsFreeNow = 1)
      ∧ (∃ d, loadDataValues exampleLib 1762336800000 exampleRandomText []
            [bookingEndingLater, bookingSameRoomText] exampleRooms = .ok d
        ∧ activeList exampleLib 1762336800000 d.bookings
            = .ok [bookingEndingLater, bookingSameRoomText]
        ∧ bookingRoomId bookingEndingLater = .num 7
        ∧ bookingRoomId bookingSameRoomText = .str "7"
        ∧ d.roomsBookedNow = 1) :=
  ⟨⟨_, rfl, rfl, rfl, rfl, rfl, rfl⟩, ⟨_, rfl, rfl, rfl, rfl, rfl⟩⟩

/-- C14 (amended). In a dashboard load that succeeds, rooms-booked-now is the number of
distinct texts `String(rid)` of the truthy room ids `rid` (`room?.id ?? roomId ??
room?.roomId`) of the active bookings, the active bookings being those of the stored
booking list; rooms-free-now is `max(0, number of rooms - rooms-booked-now)`; hence
rooms-free-now is never negative and, whenever rooms-booked-now does not exceed the
number of rooms, booked + free is the number of rooms. -/
theorem loadDataValues_rooms_spec (lib : JsLib) (now : Int) (randomText : Nat → String)
    (allUsersRaw allBookingsRaw allRooms : List JsObject) (d : DashboardData)
    (h : loadDataValues lib now randomText allUsersRaw allBookingsRaw allRooms = .ok d) :
    ∃ active, activeList lib now d.bookings = .ok active
      ∧ d.roomsBookedNow
          = ((((active.filter (fun a => (bookingRoomId a).truthy)).map
                (fun a => (bookingRoomId a).toTemplate)).toFinset.card : Nat) : Int)
      ∧ d.rooms = allRooms
      ∧ d.roomsFreeNow = max 0 ((d.rooms.length : Int) - d.roomsBookedNow)
      ∧ 0 ≤ d.roomsFreeNow
      ∧ (d.roomsBookedNow ≤ (d.rooms.length : Int) →
          d.roomsBookedNow + d.roomsFreeNow = (d.rooms.length : Int)) := by
  obtain ⟨active, hact, hb, hr, _, hbooked, hfree, _⟩ :=
    loadDataValues_ok lib now randomText allUsersRaw allBookingsRaw allRooms d h
  obtain ⟨h1, h2, h3, h4⟩ := roomsBooked_roomsFree_spec allRooms active
  refine ⟨active, by rw [hb]; exact hact, ?_, hr, ?_, ?_, ?_⟩
  · rw [hbooked, h1, filterMap_bookingRoomKey]
  · rw [hfree, hbooked, hr]; exact h2
  · rw [hfree]; exact h3
  · rw [hfree, hbooked, hr]; exact h4

/-- Witness for C14: a load with three active bookings, of the rooms `9`, `7` and
`"7"`, in a hotel of three rooms: two rooms booked, one free. -/
theorem loadDataValues_rooms_spec_witness :
    ∃ d, loadDataValues exampleLib 1762336800000 exampleRandomText exampleUsersRaw
          [bookingEndingLater, bookingOtherRoom, bookingSameRoomText] exampleRooms = .ok d
      ∧ d.roomsBookedNow = 2
      ∧ d.roomsFreeNow = 1
      ∧ ∃ active, activeList exampleLib 1762336800000 d.bookings = .ok active
          ∧ d.roomsBookedNow
              = ((((active.filter (fun a => (bookingRoomId a).truthy)).map
                    (fun a => (bookingRoomId a).toTemplate)).toFinset.card : Nat) : Int)
          ∧ d.rooms = exampleRooms
          ∧ d.roomsFreeNow = max 0 ((d.rooms.length : Int) - d.roomsBookedNow)
          ∧ 0 ≤ d.roomsFreeNow
          ∧ (d.roomsBookedNow ≤ (d.rooms.length : Int) →
              d.roomsBookedNow + d.roomsFreeNow = (d.rooms.length : Int)) :=
  ⟨_, rfl, rfl, rfl,
    loadDataValues_rooms_spec exampleLib 1762336800000 exampleRandomText exampleUsersRaw
      [bookingEndingLater, bookingOtherRoom, bookingSameRoomText] exampleRooms _ rfl⟩

/-- C15. In a dashboard load that succeeds, next-vacancy is absent if and only if
there is no active booking; otherwise its date is the minimum end date over all active
bookings and its room number is that of the first active booking, in list order,
that has this minimum end date. The list is the booking list that the load stores:
the active bookings are filtered from it and keep its order. -/
theorem loadDataValues_nextFree_spec (lib : JsLib) (now : Int) (randomText : Nat → String)
    (allUsersRaw allBookingsRaw allRooms : List JsObject) (d : DashboardData)
    (h : loadDataValues lib now randomText allUsersRaw allBookingsRaw allRooms = .ok d) :
    ∃ active, activeList lib now d.bookings = .ok active
      ∧ active.Sublist d.bookings
      ∧ (d.nextRoomFree = none ↔ active = [])
      ∧ (active ≠ [] →
          ∃ first m pre post,
            d.nextRoomFree = some { roomNumber := bookingRoomNumber first, date := .int m }
              ∧ active = pre ++ first :: post
              ∧ lib.dateOf (first.get "endDate") = .int m
              ∧ (∀ b ∈ active, ∃ t, lib.dateOf (b.get "endDate") = .int t ∧ m ≤ t)
              ∧ (∀ b ∈ pre, ∃ t, lib.dateOf (b.get "endDate") = .int t ∧ m < t)) := by
  obtain ⟨active, hact, hb, _, _, _, _, hnext⟩ :=
    loadDataValues_ok lib now randomText allUsersRaw allBookingsRaw allRooms d h
  rw [← hb] at hact
  obtain ⟨h1, h2⟩ := nextFree_spec lib now d.bookings active hact
  rw [← hnext] at h1 h2
  exact ⟨active, hact, activeList_sublist lib now d.bookings active hact, h1, h2⟩

/-- Witness for C15: the bookings 32 (room 107, starts on 2025-11-05) and 33 (room 109,
no start date) are fetched in this order and both end on 2025-11-08; the stored list
has booking 33 first, and the next vacancy is room 109 on 2025-11-08. -/
theorem loadDataValues_nextFree_spec_witness :
    ∃ d, loadDataValues exampleLib 1762336800000 exampleRandomText exampleUsersRaw
          [bookingEndingLater, bookingOtherRoom] exampleRooms = .ok d
      ∧ d.bookings = [bookingOtherRoom, bookingEndingLater]
      ∧ d.nextRoomFree = some { roomNumber := .str "109", date := .int 1762560000000 }
      ∧ ∃ active, activeList exampleLib 1762336800000 d.bookings = .ok active
          ∧ active.Sublist d.bookings
          ∧ (d.nextRoomFree = none ↔ active = [])
          ∧ (active ≠ [] →
              ∃ first m pre post,
                d.nextRoomFree
                    = some { roomNumber := bookingRoomNumber first, date := .int m }
                  ∧ active = pre ++ first :: post
                  ∧ exampleLib.dateOf (first.get "endDate") = .int m
                  ∧ (∀ b ∈ active, ∃ t, exampleLib.dateOf (b.get "endDate") = .int t ∧ m ≤ t)
                  ∧ (∀ b ∈ pre, ∃ t, exampleLib.dateOf (b.get "endDate") = .int t ∧ m < t)) :=
  ⟨_, rfl, rfl, rfl,
    loadDataValues_nextFree_spec exampleLib 1762336800000 exampleRandomText exampleUsersRaw
      [bookingEndingLater, bookingOtherRoom] exampleRooms _ rfl⟩

/-- The booking-owner keys of a list: the non-empty keys of its bookings, the booking
at position `i` being keyed with the random text `randomText i`. -/
theorem bookingUserKeys_eq (lib : JsLib) (randomText : Nat → String)
    (bookings : List JsObject) (i : Nat) :
    bookingUserKeys lib randomText i bookings
      = ((bookings.enumFrom i).map
          (fun p => getBookingUserKey lib (randomText p.1) p.2)).filter (fun k => k ≠ "") := by
  induction bookings generalizing i with
  | nil => rfl
  | cons bk rest ih =>
    simp only [bookingUserKeys, List.enumFrom_cons, List.map_cons, List.filter_cons]
    rw [ih (i + 1)]
    by_cases hk : getBookingUserKey lib (randomText i) bk = ""
    · simp [hk]
    · simp [hk]

/-- C16 (counterexample). With ASCII lower-casing, a load of two bookings whose user
ids `u-7` and `U-7` differ stores one user with bookings, since the two share one
owner key; and a load in which an owner-less booking is listed twice stores one, not
two: the two owner-less entries share the key `booking:33`. -/
theorem loadDataValues_usersWithBookings_counterexample :
    (∃ d, loadDataValues exampleLib 1762336800000 exampleRandomText []
            [bookingEndingLater, bookingSameRoomText] [] = .ok d
        ∧ d.bookings = [bookingEndingLater, bookingSameRoomText]
        ∧ bookingPossibleId bookingEndingLater = .str "u-7"
        ∧ bookingPossibleId bookingSameRoomText = .str "U-7"
        ∧ "u-7" ≠ "U-7"
        ∧ d.usersWithBookingCount = 1)
      ∧ (∃ d, loadDataValues exampleLib 1762336800000 exampleRandomText []
            [bookingOtherRoom, bookingOtherRoom] [] = .ok d
        ∧ d.bookings = [bookingOtherRoom, bookingOtherRoom]
        ∧ (bookingPossibleId bookingOtherRoom).truthy = false
        ∧ getBookingUserKey exampleLib (exampleRandomText 0) bookingOtherRoom = "booking:33"
        ∧ getBookingUserKey exampleLib (exampleRandomText 1) bookingOtherRoom = "booking:33"
        ∧ d.usersWithBookingCount = 1) :=
  ⟨⟨_, rfl, rfl, rfl, rfl, by decide, rfl⟩, ⟨_, rfl, rfl, rfl, by decide, by decide, rfl⟩⟩

/-- C16 (amended). In a dashboard load that succeeds, users-with-bookings is the number
of distinct booking-owner keys of the stored booking list. The key of a booking with
a resolvable (truthy) user id is that id as a string, trimmed and lower-cased, so two
such bookings share a key exactly when their ids agree after this normalisation. The
key of a booking without one is `booking:` followed by the text of its booking id,
or, when it has no booking id, by the text of a random number drawn for it; such a
key is never empty, two owner-less bookings that have a booking id share a key exactly
when their booking ids have the same text, and two that have none share a key exactly
when the same random text was drawn for both. -/
theorem loadDataValues_usersWithBookings_spec (lib : JsLib) (now : Int)
    (randomText : Nat → String) (allUsersRaw allBookingsRaw allRooms : List JsObject)
    (d : DashboardData)
    (h : loadDataValues lib now randomText allUsersRaw allBookingsRaw allRooms = .ok d) :
    d.usersWithBookingCount
        = ((((d.bookings.enum.map
                (fun p => getBookingUserKey lib (randomText p.1) p.2)).filter
              (fun k => k ≠ "")).toFinset.card : Nat) : Int)
      ∧ (∀ r bk, (bookingPossibleId bk).truthy = true →
          getBookingUserKey lib r bk
            = lib.toLowerCase (lib.trim (bookingPossibleId bk).toTemplate))
      ∧ (∀ r bk, (bookingPossibleId bk).truthy = false → (bk.get "id").isNullish = false →
          getBookingUserKey lib r bk = "booking:" ++ (bk.get "id").toTemplate)
      ∧ (∀ r bk, (bookingPossibleId bk).truthy = false → (bk.get "id").isNullish = true →
          getBookingUserKey lib r bk = "booking:" ++ r)
      ∧ (∀ r1 r2 bk1 bk2, (bookingPossibleId bk1).truthy = true →
          (bookingPossibleId bk2).truthy = true →
          (getBookingUserKey lib r1 bk1 = getBookingUserKey lib r2 bk2 ↔
            lib.toLowerCase (lib.trim (bookingPossibleId bk1).toTemplate)
              = lib.toLowerCase (lib.trim (bookingPossibleId bk2).toTemplate)))
      ∧ (∀ r1 r2 bk1 bk2, (bookingPossibleId bk1).truthy = false →
          (bookingPossibleId bk2).truthy = false →
          (bk1.get "id").isNullish = false → (bk2.get "id").isNullish = false →
          (getBookingUserKey lib r1 bk1 = getBookingUserKey lib r2 bk2 ↔
            (bk1.get "id").toTemplate = (bk2.get "id").toTemplate))
      ∧ (∀ r1 r2 bk1 bk2, (bookingPossibleId bk1).truthy = false →
          (bookingPossibleId bk2).truthy = false →
          (bk1.get "id").isNullish = true → (bk2.get "id").isNullish = true →
          (getBookingUserKey lib r1 bk1 = getBookingUserKey lib r2 bk2 ↔ r1 = r2))
      ∧ (∀ r bk, (bookingPossibleId bk).truthy = false →
          getBookingUserKey lib r bk ≠ "") := by
  obtain ⟨active, _, hb, _, hcount, _, _, _⟩ :=
    loadDataValues_ok lib now randomText allUsersRaw allBookingsRaw allRooms d h
  refine ⟨?_, ?_, ?_, ?_, ?_, ?_, ?_, ?_⟩
  · rw [hcount, hb]
    unfold usersWithBookings
    rw [userKeysLoop_eq_foldl, length_foldl_setAdd, bookingUserKeys_eq]
    rfl
  · intro r bk h1
    simp [getBookingUserKey, h1]
  · intro r bk h1 hn
    simp [getBookingUserKey, h1, hn]
  · intro r bk h1 hn
    simp [getBookingUserKey, h1, hn]
  · intro r1 r2 bk1 bk2 h1 h2
    simp [getBookingUserKey, h1, h2]
  · intro r1 r2 bk1 bk2 h1 h2 hn1 hn2
    simp only [getBookingUserKey, h1, h2, hn1, hn2, Bool.false_eq_true, if_false]
    exact string_append_left_cancel _ _ _
  · intro r1 r2 bk1 bk2 h1 h2 hn1 hn2
    simp only [getBookingUserKey, h1, h2, hn1, hn2, Bool.false_eq_true, if_false, if_true]
    exact string_append_left_cancel _ _ _
  · intro r bk h1
    simp only [getBookingUserKey, h1, Bool.false_eq_true, if_false]
    intro hempty
    have hd := congrArg String.data hempty
    simp [String.data_append] at hd

/-- Witness for C16: a load of four bookings, two of the user `u-7`, one without owner
(booking 33) and one without owner and without booking id, stores three users with
bookings; the last booking is keyed by the random text drawn for it. -/
theorem loadDataValues_usersWithBookings_spec_witness :
    ∃ d, loadDataValues exampleLib 1762336800000 exampleRandomText exampleUsersRaw
          [bookingEndingLater, bookingOtherRoom, bookingSameRoomText, bookingAnonymous]
          exampleRooms = .ok d
      ∧ d.bookings
          = [bookingOtherRoom, bookingAnonymous, bookingEndingLater, bookingSameRoomText]
      ∧ d.bookings.enum.map
            (fun p => getBookingUserKey exampleLib (exampleRandomText p.1) p.2)
          = ["booking:33", "booking:0.252", "u-7", "u-7"]
      ∧ d.usersWithBookingCount = 3
      ∧ d.usersWithBookingCount
          = ((((d.bookings.enum.map
                  (fun p => getBookingUserKey exampleLib (exampleRandomText p.1) p.2)).filter
                (fun k => k ≠ "")).toFinset.card : Nat) : Int)
      ∧ getBookingUserKey exampleLib "0.252" bookingAnonymous = "booking:" ++ "0.252" :=
  ⟨_, rfl, rfl, by decide, rfl,
    (loadDataValues_usersWithBookings_spec exampleLib 1762336800000 exampleRandomText
      exampleUsersRaw
      [bookingEndingLater, bookingOtherRoom, bookingSameRoomText, bookingAnonymous]
      exampleRooms _ rfl).1,
    (loadDataValues_usersWithBookings_spec exampleLib 1762336800000 exampleRandomText
      exampleUsersRaw
      [bookingEndingLater, bookingOtherRoom, bookingSameRoomText, bookingAnonymous]
      exampleRooms _ rfl).2.2.2.1 "0.252" bookingAnonymous rfl rfl⟩

/-- C17 (counterexample). A load that fetches a booking that starts on 2024-02-20, a
booking whose start date is not a date and a booking without start date, in this
order, stores them in this order: the comparator answers `NaN` for each pair of
neighbours, so nothing is moved. The booking without start date (timestamp 0) then
comes after a booking with a positive start timestamp. -/
theorem loadDataValues_bookings_counterexample :
    ∃ d, loadDataValues exampleLib 1762336800000 exampleRandomText [] exampleBookingsUnparsed
          [] = .ok d
      ∧ compareBookings exampleLib [("id", .num 3), ("startDate", .str "garbage")]
          [("id", .num 1), ("startDate", .str "2024-02-20T00:00:00.000Z")] = .nan
      ∧ compareBookings exampleLib [("id", .num 4)]
          [("id", .num 3), ("startDate", .str "garbage")] = .nan
      ∧ d.bookings
          = [[("id", .num 1), ("startDate", .str "2024-02-20T00:00:00.000Z")],
             [("id", .num 3), ("startDate", .str "garbage")],
             [("id", .num 4)]]
      ∧ bookingStartTime exampleLib [("id", .num 4)] = .int 0
      ∧ bookingStartTime exampleLib
          [("id", .num 1), ("startDate", .str "2024-02-20T00:00:00.000Z")]
          = .int 1708387200000
      ∧ List.Sublist
          [[("id", .num 1), ("startDate", .str "2024-02-20T00:00:00.000Z")], [("id", .num 4)]]
          d.bookings :=
  ⟨_, rfl, rfl, rfl, rfl, rfl, rfl, by
    refine List.Sublist.cons₂ _ (List.Sublist.cons _ (List.Sublist.refl _))⟩

/-- C17 (amended). In a dashboard load that succeeds, the displayed booking list is a
permutation of the fetched booking list; and when every start date that is present
in the fetched list is a valid date, it is the fetched list sorted ascending by start
timestamp, where a booking with no start date is given timestamp 0 (so it never
comes after a booking with a positive start timestamp), and two bookings that are in
order of timestamp in the fetched list (in particular two with equal timestamps) keep
their fetched relative order. -/
theorem loadDataValues_bookings_spec (lib : JsLib) (now : Int) (randomText : Nat → String)
    (allUsersRaw allBookingsRaw allRooms : List JsObject) (d : DashboardData)
    (h : loadDataValues lib now randomText allUsersRaw allBookingsRaw allRooms = .ok d) :
    d.bookings.Perm allBookingsRaw
      ∧ ((∀ b ∈ allBookingsRaw, (b.get "startDate").truthy = true →
            lib.dateOf (b.get "startDate") ≠ .nan) →
          d.bookings.Sorted (fun a b => startKey lib a ≤ startKey lib b)
            ∧ (∀ b ∈ allBookingsRaw, (b.get "startDate").truthy = true →
                lib.dateOf (b.get "startDate") = .int (startKey lib b))
            ∧ (∀ b, (b.get "startDate").truthy = false → startKey lib b = 0)
            ∧ (∀ a b, (a.get "startDate").truthy = false → 0 < startKey lib b →
                ¬ List.Sublist [b, a] d.bookings)
            ∧ (∀ a b, List.Sublist [a, b] allBookingsRaw →
                startKey lib a ≤ startKey lib b → List.Sublist [a, b] d.bookings)) := by
  obtain ⟨active, _, hb, _, _, _, _, _⟩ :=
    loadDataValues_ok lib now randomText allUsersRaw allBookingsRaw allRooms d h
  rw [hb]
  refine ⟨jsSort_perm _ _, ?_⟩
  intro hvalid
  have hvalid2 : ∀ b ∈ allBookingsRaw, bookingStartTime lib b ≠ .nan := by
    intro b hbmem
    unfold bookingStartTime
    by_cases ht : (b.get "startDate").truthy = true
    · simp only [ht, if_true]
      exact hvalid b hbmem ht
    · simp [ht]
  obtain ⟨_, h2, h3, h4, h5⟩ := sortBookings_spec lib allBookingsRaw hvalid2
  refine ⟨h2, ?_, h3, h4, h5⟩
  intro b hbmem ht
  unfold startKey bookingStartTime
  simp only [ht, if_true]
  cases hd : lib.dateOf (b.get "startDate") with
  | nan => exact absurd hd (hvalid b hbmem ht)
  | int t => rfl

/-- Witness for C17: a load of four bookings with valid start dates; the booking
without start date comes first, then the one of 2024-01-10, then the two of
2024-02-20 in their fetched order. -/
theorem loadDataValues_bookings_spec_witness :
    ∃ d, loadDataValues exampleLib 1762336800000 exampleRandomText exampleUsersRaw
          exampleBookingsRaw exampleRooms = .ok d
      ∧ d.bookings
          = [[("id", .num 2)],
             [("id", .num 3), ("startDate", .str "2024-01-10T00:00:00.000Z")],
             [("id", .num 1), ("startDate", .str "2024-02-20T00:00:00.000Z")],
             [("id", .num 4), ("startDate", .str "2024-02-20T00:00:00.000Z")]]
      ∧ d.bookings.Perm exampleBookingsRaw
      ∧ d.bookings.Sorted (fun a b => startKey exampleLib a ≤ startKey exampleLib b) :=
  have hvalid : ∀ b ∈ exampleBookingsRaw, (b.get "startDate").truthy = true →
      exampleLib.dateOf (b.get "startDate") ≠ .nan := by
    intro b hb
    simp only [exampleBookingsRaw, List.mem_cons, List.mem_singleton, List.not_mem_nil,
      or_false] at hb
    rcases hb with rfl | rfl | rfl | rfl <;> decide
  ⟨_, rfl, rfl,
    (loadDataValues_bookings_spec exampleLib 1762336800000 exampleRandomText exampleUsersRaw
      exampleBookingsRaw exampleRooms _ rfl).1,
    ((loadDataValues_bookings_spec exampleLib 1762336800000 exampleRandomText exampleUsersRaw
      exampleBookingsRaw exampleRooms _ rfl).2 hvalid).1⟩

/-! ### Reloading the users -/

/-- The dashboard load stores the users sorted by creation date. -/
theorem loadDataValues_users (lib : JsLib) (now : Int) (randomText : Nat → String)
    (allUsersRaw allBookingsRaw allRooms : List JsObject) (d : DashboardData)
    (h : loadDataValues lib now randomText allUsersRaw allBookingsRaw allRooms = .ok d) :
    d.users = sortUsers lib allUsersRaw := by
  unfold loadDataValues at h
  simp only at h
  cases ha : activeList lib now (sortBookings lib allBookingsRaw) with
  | error e => rw [ha] at h; cases h
  | ok active =>
    rw [ha] at h
    simp only [except_ok_bind, except_pure_eq, Except.ok.injEq] at h
    rw [← h]

/-- The reload after a role change stores the users in the order of the response. -/
theorem reloadUsers_users (st : DashboardState) (data : List JsObject) :
    (reloadUsers st (.ok data)).users = data := rfl

/-- C19 (failing input). For the response `exampleUsersRaw` (users 1, 2, 3, 4, of which
user 3 is the oldest and users 2 and 4 have no creation date) the dashboard load
stores the order 3, 1, 2, 4, while `reloadUsers` stores the order 1, 2, 3, 4 of the
response. -/
theorem reloadUsers_not_sorted :
    (∃ d, loadDataValues exampleLib 1762336800000 exampleRandomText exampleUsersRaw [] []
          = .ok d
        ∧ d.users
          = [[("id", .num 3), ("created_at", .str "2024-01-10T00:00:00.000Z")],
             [("id", .num 1), ("createdAt", .str "2024-02-20T00:00:00.000Z")],
             [("id", .num 2)],
             [("id", .num 4), ("createdAt", .str "yesterday")]])
      ∧ (reloadUsers
            { users := [], bookings := [], userFilter := "all", usersPage := 1,
              bookingsPage := 1 } (.ok exampleUsersRaw)).users
          = [[("id", .num 1), ("createdAt", .str "2024-02-20T00:00:00.000Z")],
             [("id", .num 2)],
             [("id", .num 3), ("created_at", .str "2024-01-10T00:00:00.000Z")],
             [("id", .num 4), ("createdAt", .str "yesterday")]]
      ∧ (reloadUsers
            { users := [], bookings := [], userFilter := "all", usersPage := 1,
              bookingsPage := 1 } (.ok exampleUsersRaw)).users
          ≠ sortUsers exampleLib exampleUsersRaw := by
  refine ⟨⟨_, rfl, rfl⟩, rfl, ?_⟩
  have h1 : (reloadUsers
      { users := [], bookings := [], userFilter := "all", usersPage := 1,
        bookingsPage := 1 } (.ok exampleUsersRaw)).users = exampleUsersRaw := rfl
  have h2 : sortUsers exampleLib exampleUsersRaw
      = [[("id", .num 3), ("created_at", .str "2024-01-10T00:00:00.000Z")],
         [("id", .num 1), ("createdAt", .str "2024-02-20T00:00:00.000Z")],
         [("id", .num 2)],
         [("id", .num 4), ("createdAt", .str "yesterday")]] := rfl
  rw [h1, h2]
  simp [exampleUsersRaw]

/-! ### The pagination safety check -/

theorem ceilDiv_sub_one_mul_lt (a b : Int) (hb : 0 < b) : (ceilDiv a b - 1) * b < a := by
  unfold ceilDiv
  have h2 : -a < ((-a) / b + 1) * b := Int.lt_ediv_add_one_mul_self _ hb
  linarith

theorem getTotalPages_pos {α : Type} (l : List α) (hne : l ≠ []) : 1 ≤ getTotalPages l := by
  unfold getTotalPages ITEMS_PER_PAGE
  have h1 : (l.length : Int) ≤ ceilDiv (l.length : Int) 5 * 5 := le_ceilDiv_mul _ _ (by decide)
  have hlen : 0 < l.length := List.length_pos.mpr hne
  omega

theorem getPaginatedData_ne_nil {α : Type} (l : List α) (p : Int) (hp : 1 ≤ p)
    (hle : p ≤ getTotalPages l) : getPaginatedData l p ≠ [] := by
  rw [getPaginatedData_eq l p hp]
  unfold getTotalPages ITEMS_PER_PAGE at hle
  have h1 : (ceilDiv (l.length : Int) 5 - 1) * 5 < (l.length : Int) :=
    ceilDiv_sub_one_mul_lt _ _ (by decide)
  have hlt : ((p - 1) * 5).toNat < l.length := by omega
  intro hnil
  have hlen := congrArg List.length hnil
  simp only [List.length_take, List.length_drop, List.length_nil] at hlen
  omega

/-- C20. After the pagination safety check has run for a list (the bookings list, or
the user list under the current filter tab) that is non-empty, with a current page
`p >= 1`, the resulting page number lies between 1 and the list's total page count,
so the slice displayed for it is non-empty; a page number that was already within
bounds is left unchanged. The check changes neither the lists nor the filter. -/
theorem paginationSafetyEffect_spec (st : DashboardState) :
    (st.bookings ≠ [] → 1 ≤ st.bookingsPage →
      1 ≤ (paginationSafetyEffect st).bookingsPage
        ∧ (paginationSafetyEffect st).bookingsPage ≤ getTotalPages st.bookings
        ∧ getPaginatedData st.bookings (paginationSafetyEffect st).bookingsPage ≠ []
        ∧ (st.bookingsPage ≤ getTotalPages st.bookings →
            (paginationSafetyEffect st).bookingsPage = st.bookingsPage))
    ∧ (getFilteredUsers st ≠ [] → 1 ≤ st.usersPage →
      1 ≤ (paginationSafetyEffect st).usersPage
        ∧ (paginationSafetyEffect st).usersPage ≤ getTotalPages (getFilteredUsers st)
        ∧ getPaginatedData (getFilteredUsers st) (paginationSafetyEffect st).usersPage ≠ []
        ∧ (st.usersPage ≤ getTotalPages (getFilteredUsers st) →
            (paginationSafetyEffect st).usersPage = st.usersPage))
    ∧ (paginationSafetyEffect st).bookings = st.bookings
    ∧ (paginationSafetyEffect st).users = st.users
    ∧ (paginationSafetyEffect st).userFilter = st.userFilter := by
  have hbp : (paginationSafetyEffect st).bookingsPage
      = if st.bookingsPage > getTotalPages st.bookings ∧ st.bookings.length > 0 then 1
        else st.bookingsPage := by
    unfold paginationSafetyEffect
    simp only [Bool.and_eq_true, decide_eq_true_eq]
    split <;> split <;> rfl
  have hup : (paginationSafetyEffect st).usersPage
      = if st.usersPage > getTotalPages (getFilteredUsers st)
          ∧ (getFilteredUsers st).length > 0 then 1
        else st.usersPage := by
    unfold paginationSafetyEffect getTotalPages
    simp only [Bool.and_eq_true, decide_eq_true_eq]
    split <;> split <;> rfl
  refine ⟨?_, ?_, ?_, ?_, ?_⟩
  · intro hne hp
    have hpos := getTotalPages_pos st.bookings hne
    have hlen : st.bookings.length > 0 := List.length_pos.mpr hne
    have hrange : 1 ≤ (paginationSafetyEffect st).bookingsPage
        ∧ (paginationSafetyEffect st).bookingsPage ≤ getTotalPages st.bookings := by
      rw [hbp]
      split <;> omega
    refine ⟨hrange.1, hrange.2, getPaginatedData_ne_nil _ _ hrange.1 hrange.2, ?_⟩
    intro hin
    rw [hbp]
    have : ¬ (st.bookingsPage > getTotalPages st.bookings ∧ st.bookings.length > 0) := by
      omega
    simp only [this, if_false]
  · intro hne hp
    have hpos := getTotalPages_pos (getFilteredUsers st) hne
    have hlen : (getFilteredUsers st).length > 0 := List.length_pos.mpr hne
    have hrange : 1 ≤ (paginationSafetyEffect st).usersPage
        ∧ (paginationSafetyEffect st).usersPage ≤ getTotalPages (getFilteredUsers st) := by
      rw [hup]
      split <;> omega
    refine ⟨hrange.1, hrange.2, getPaginatedData_ne_nil _ _ hrange.1 hrange.2, ?_⟩
    intro hin
    rw [hup]
    have : ¬ (st.usersPage > getTotalPages (getFilteredUsers st)
        ∧ (getFilteredUsers st).length > 0) := by
      omega
    simp only [this, if_false]
  · unfold paginationSafetyEffect
    simp only
    split <;> split <;> rfl
  · unfold paginationSafetyEffect
    simp only
    split <;> split <;> rfl
  · unfold paginationSafetyEffect
    simp only
    split <;> split <;> rfl

/-- Witness for C20: on the `admin` tab with one admin among four users, page 2 is
reset to page 1, whose slice is not empty; the bookings page 1 stays. -/
theorem paginationSafetyEffect_spec_witness :
    (paginationSafetyEffect exampleDashboard).usersPage = 1
      ∧ (paginationSafetyEffect exampleDashboard).bookingsPage = 1
      ∧ getPaginatedData (getFilteredUsers exampleDashboard)
          (paginationSafetyEffect exampleDashboard).usersPage ≠ []
      ∧ getPaginatedData exampleDashboard.bookings
          (paginationSafetyEffect exampleDashboard).bookingsPage ≠ [] :=
  ⟨by decide, by decide,
    ((paginationSafetyEffect_spec exampleDashboard).2.1
      (List.ne_nil_of_length_pos (by decide)) (by decide)).2.2.1,
    ((paginationSafetyEffect_spec exampleDashboard).1
      (List.ne_nil_of_length_pos (by decide)) (by decide)).2.2.1⟩

/-! ### The reject action -/

/-- For every booking id that the dashboard acts on, its reject action and
`rejectBooking` of the call surface address the same path, but the dashboard sends a
`PUT` and `rejectBooking` a `DELETE`. -/
theorem handleBookingActionRequest_reject (id : JsVal) (h : id.truthy = true) :
    ∃ req, handleBookingActionRequest id "reject" = some req
      ∧ req.path = (rejectBooking id).path
      ∧ req.method = "PUT" ∧ (rejectBooking id).method = "DELETE" := by
  refine ⟨{ method := "PUT", path := "/Admin/bookings/" ++ id.toTemplate ++ "/reject" },
    ?_, rfl, rfl, rfl⟩
  simp [handleBookingActionRequest, h]

/-- C26 (failing input). For the booking id 12 the dashboard's reject action issues
`PUT /Admin/bookings/12/reject`, while `rejectBooking(12)` builds
`DELETE /Admin/bookings/12/reject`: the methods differ. -/
theorem handleBookingActionRequest_reject_is_put :
    handleBookingActionRequest (.num 12) "reject"
        = some { method := "PUT", path := "/Admin/bookings/12/reject" }
      ∧ rejectBooking (.num 12) = { method := "DELETE", path := "/Admin/bookings/12/reject" }
      ∧ handleBookingActionRequest (.num 12) "reject" ≠ some (rejectBooking (.num 12)) := by
  decide

/-! ### Filter tab and row rendering -/

/-- Every user shown on the admin tab is rendered as an admin, as soon as lower-casing
maps `Admin` to `admin`. -/
theorem getFilteredUsers_admin_rowIsAdmin (lib : JsLib) (st : DashboardState)
    (hlib : lib.toLowerCase "Admin" = "admin") (hf : st.userFilter = "admin") :
    ∀ u ∈ getFilteredUsers st, rowIsAdmin lib u = true := by
  intro u hu
  simp only [getFilteredUsers, hf, beq_self_eq_true, if_true, List.mem_filter] at hu
  obtain ⟨_, hrole⟩ := hu
  unfold rowIsAdmin
  cases hr : u.get "role" with
  | str s =>
    rw [hr] at hrole
    have hs : s = "Admin" := by simpa [JsVal.strictEqStr] using hrole
    subst hs
    simp [JsVal.or, JsVal.truthy, JsVal.toTemplate, hlib]
  | _ => rw [hr] at hrole; simp [JsVal.strictEqStr] at hrole

/-- C27 (failing input). Of the four example users, user 4 has the role `admin` in
lower case: its row is rendered as an admin, yet the admin tab shows only user 1 and
the guest tab shows user 4 among the guests. -/
theorem getFilteredUsers_rowIsAdmin_mismatch :
    exampleUsers.filter (rowIsAdmin exampleLib)
        = [[("id", .num 1), ("role", .str "Admin")], [("id", .num 4), ("role", .str "admin")]]
      ∧ getFilteredUsers (exampleDashboardTab "admin")
        = [[("id", .num 1), ("role", .str "Admin")]]
      ∧ getFilteredUsers (exampleDashboardTab "user")
        = [[("id", .num 2), ("role", .str "User")], [("id", .num 3)],
           [("id", .num 4), ("role", .str "admin")]]
      ∧ rowIsAdmin exampleLib [("id", .num 4), ("role", .str "admin")] = true :=
  ⟨rfl, rfl, rfl, rfl⟩

/-! ### Pages partition a list -/

theorem pagesConcat_eq_take {α : Type} (l : List α) (n : Nat) :
    pagesConcat l n = l.take (n * 5) := by
  induction n with
  | zero => simp [pagesConcat]
  | succ n ih =>
    unfold pagesConcat at ih ⊢
    rw [List.range_succ, List.flatMap_append, ih]
    simp only [List.flatMap_cons, List.flatMap_nil, List.append_nil]
    rw [getPaginatedData_eq l ((n : Int) + 1) (by omega)]
    have h1 : (((n : Int) + 1 - 1) * 5).toNat = n * 5 := by omega
    rw [h1, Nat.succ_mul, List.take_add]

/-- C28. For every list, the pages `1 .. getTotalPages(list)` partition it:
concatenating `getPaginatedData(list, p)` for `p = 1 .. getTotalPages(list)` gives back
the list, every page but the last has exactly 5 elements, and the last page is
non-empty. -/
theorem getPaginatedData_partition {α : Type} (l : List α) :
    pagesConcat l (getTotalPages l).toNat = l
      ∧ (∀ p : Int, 1 ≤ p → p < getTotalPages l → (getPaginatedData l p).length = 5)
      ∧ (1 ≤ getTotalPages l → getPaginatedData l (getTotalPages l) ≠ []) := by
  have h0 : 0 ≤ getTotalPages l := ceilDiv_nonneg _ _ (by omega) (by decide)
  have h1 : (l.length : Int) ≤ getTotalPages l * 5 := le_ceilDiv_mul _ _ (by decide)
  have h2 : (getTotalPages l - 1) * 5 < (l.length : Int) :=
    ceilDiv_sub_one_mul_lt _ _ (by decide)
  refine ⟨?_, ?_, ?_⟩
  · rw [pagesConcat_eq_take]
    apply List.take_of_length_le
    omega
  · intro p hp hlt
    rw [getPaginatedData_eq l p hp]
    simp only [List.length_take, List.length_drop]
    omega
  · intro hpos
    exact getPaginatedData_ne_nil l _ hpos (le_refl _)

/-- Witness for C28: a list of seven elements has the pages `[10 .. 14]` and
`[15, 16]`, which together give the list. -/
theorem getPaginatedData_partition_witness :
    pagesConcat [10, 11, 12, 13, 14, 15, 16] 2 = [10, 11, 12, 13, 14, 15, 16]
      ∧ (getPaginatedData [10, 11, 12, 13, 14, 15, 16] 1).length = 5
      ∧ getPaginatedData [10, 11, 12, 13, 14, 15, 16] (getTotalPages [10, 11, 12, 13, 14, 15, 16])
          ≠ [] :=
  ⟨(getPaginatedData_partition [10, 11, 12, 13, 14, 15, 16]).1,
    (getPaginatedData_partition [10, 11, 12, 13, 14, 15, 16]).2.1 1 (by decide) (by decide),
    (getPaginatedData_partition [10, 11, 12, 13, 14, 15, 16]).2.2 (by decide)⟩

/-! ### The payment page: loading step -/

/-- Whenever the booking-detail fetch is rejected, the page shows the error view, also
when the payment intent comes with a client secret. -/
theorem initPage_booking_rejected (st : PaymentState) (e : JsVal)
    (intentRes : Except JsVal JsVal) :
    ∃ msg, paymentView (initPage st (.error e) intentRes) = .errorView msg := by
  unfold initPage paymentView
  cases intentRes with
  | error e' => exact ⟨"Error connecting to payment server.", by simp⟩
  | ok res =>
    cases hd : res.prop "data" with
    | error t => exact ⟨"Error connecting to payment server.", by simp [hd]⟩
    | ok data =>
      by_cases hs : data.truthy = true ∧ (data.optProp "clientSecret").truthy = true
      · exact ⟨"Could not load booking details.", by simp [hd, hs]⟩
      · exact ⟨"Failed to initialize payment gateway.", by simp [hd, hs]⟩

/-- When both fetches succeed and the intent has a client secret, the page started from
its initial state shows the checkout form. -/
theorem initPage_ready (r d res data : JsVal) (hr : r.prop "data" = .ok d)
    (hres : res.prop "data" = .ok data) (hdata : data.truthy = true)
    (hsecret : (data.optProp "clientSecret").truthy = true) :
    paymentView (initPage PaymentState.initial (.ok r) (.ok res)) = .checkout true := by
  simp [initPage, paymentView, PaymentState.initial, hr, hres, hdata, hsecret]

/-- C21 (failing input). The booking-detail fetch is rejected (a timeout) and the
payment intent is created with the client secret `pi_3_secret_9`: the page stores the
secret, yet it ends in the error view with "Could not load booking details.", not in
the checkout view that it shows when the booking detail loads as well. -/
theorem initPage_booking_failure_shows_error :
    (paymentPageEffect (.str "31") PaymentState.initial (.error errTimeout)
        (.ok intentResponse)).clientSecret = .str "pi_3_secret_9"
      ∧ paymentView (paymentPageEffect (.str "31") PaymentState.initial (.error errTimeout)
          (.ok intentResponse)) = .errorView "Could not load booking details."
      ∧ paymentView (paymentPageEffect (.str "31") PaymentState.initial (.ok bookingResponse)
          (.ok intentResponse)) = .checkout true :=
  ⟨rfl, by decide, by decide⟩

/-! ### The checkout submission -/

theorem JsVal.strictEqStr_iff (v : JsVal) (s : String) :
    v.strictEqStr s = true ↔ v = .str s := by
  cases v <;> simp [JsVal.strictEqStr]

/-- With the payment library loaded, whether the success callback is invoked. -/
theorem checkoutHandleSubmit_successInvoked (result : JsVal)
    (confirmResult : Except JsVal JsVal) :
    (checkoutHandleSubmit true true result confirmResult).successInvoked
      = (!(result.optProp "error").truthy
          && ((result.optProp "paymentIntent").optProp "status").strictEqStr "succeeded"
          && confirmResult.toBool) := by
  unfold checkoutHandleSubmit
  cases result with
  | obj fields =>
    simp only [JsVal.prop, JsVal.optProp, Bool.not_true, Bool.or_self, Bool.false_eq_true,
      if_false]
    by_cases he : (JsVal.lookupField fields "error").truthy = true
    · simp [he]
    · simp only [he, Bool.false_eq_true, if_false]
      cases hp : JsVal.lookupField fields "paymentIntent" with
      | obj pf =>
        simp only [JsVal.prop, JsVal.optProp]
        by_cases hs : (JsVal.lookupField pf "status").strictEqStr "succeeded" = true
        · cases confirmResult <;> simp [hs, he, Except.toBool]
        · simp [hs]
      | _ => simp [JsVal.prop, JsVal.optProp, JsVal.strictEqStr]
  | _ => simp [JsVal.prop, JsVal.optProp, JsVal.truthy, JsVal.strictEqStr]

/-- C22. In the checkout submission, the success callback is invoked if and only if
the payment library is loaded, the processor reports the charge as succeeded (no
error, status `succeeded`) and the confirm-payment call succeeds; when the charge
succeeds but confirm-payment fails, success is not invoked, the loading flag is reset
and the error shown is the fixed message "Payment succeeded but failed to confirm with
server.", whatever the processor returned; a charge failure shows the processor's own
message. -/
theorem checkoutHandleSubmit_success_iff (stripe elements : Bool) (result : JsVal)
    (confirmResult : Except JsVal JsVal) :
    ((checkoutHandleSubmit stripe elements result confirmResult).successInvoked = true ↔
      (stripe = true ∧ elements = true
        ∧ (result.optProp "error").truthy = false
        ∧ (result.optProp "paymentIntent").optProp "status" = .str "succeeded"
        ∧ ∃ r, confirmResult = .ok r))
    ∧ (stripe = true → elements = true → (result.optProp "error").truthy = false →
        (result.optProp "paymentIntent").optProp "status" = .str "succeeded" →
        (∃ e, confirmResult = .error e) →
        (checkoutHandleSubmit stripe elements result confirmResult).successInvoked = false
          ∧ (checkoutHandleSubmit stripe elements result confirmResult).state.loading = false
          ∧ (checkoutHandleSubmit stripe elements result confirmResult).state.error
              = .str "Payment succeeded but failed to confirm with server.")
    ∧ (stripe = true → elements = true → (result.optProp "error").truthy = true →
        (checkoutHandleSubmit stripe elements result confirmResult).successInvoked = false
          ∧ (checkoutHandleSubmit stripe elements result confirmResult).state.error
              = (result.optProp "error").optProp "message") := by
  refine ⟨?_, ?_, ?_⟩
  · cases stripe
    · simp [checkoutHandleSubmit]
    cases elements
    · simp [checkoutHandleSubmit]
    rw [checkoutHandleSubmit_successInvoked]
    simp only [Bool.and_eq_true, Bool.not_eq_true', JsVal.strictEqStr_iff, true_and]
    constructor
    · rintro ⟨⟨h1, h2⟩, h3⟩
      refine ⟨h1, h2, ?_⟩
      cases confirmResult with
      | ok r => exact ⟨r, rfl⟩
      | error e => simp [Except.toBool] at h3
    · rintro ⟨h1, h2, r, hr⟩
      subst hr
      exact ⟨⟨h1, h2⟩, rfl⟩
  · intro hst hel herr hstat hconf
    obtain ⟨e, he⟩ := hconf
    subst hst hel he
    cases result with
    | obj fields =>
      simp only [JsVal.optProp] at herr hstat
      cases hp : JsVal.lookupField fields "paymentIntent" with
      | obj pf =>
        rw [hp] at hstat
        simp only [JsVal.optProp] at hstat
        simp [checkoutHandleSubmit, JsVal.prop, JsVal.optProp, herr, hp, hstat,
          JsVal.strictEqStr]
      | _ => rw [hp] at hstat; simp [JsVal.optProp] at hstat
    | _ => simp [JsVal.optProp] at hstat
  · intro hst hel herr
    subst hst hel
    cases result with
    | obj fields =>
      simp only [JsVal.optProp] at herr
      simp [checkoutHandleSubmit, JsVal.prop, JsVal.optProp, herr]
    | _ => simp [JsVal.optProp, JsVal.truthy] at herr

/-- Witness for C22: a succeeded charge followed by a successful confirmation invokes
the success callback; followed by a failed confirmation it shows the fixed message,
which is not the processor's message of a declined card. -/
theorem checkoutHandleSubmit_success_iff_witness :
    (checkoutHandleSubmit true true chargeSucceeded (.ok (.obj []))).successInvoked = true
      ∧ ((checkoutHandleSubmit true true chargeSucceeded (.error errStringBody)).successInvoked
            = false
          ∧ (checkoutHandleSubmit true true chargeSucceeded (.error errStringBody)).state.loading
            = false
          ∧ (checkoutHandleSubmit true true chargeSucceeded (.error errStringBody)).state.error
            = .str "Payment succeeded but failed to confirm with server.")
      ∧ ((checkoutHandleSubmit true true chargeDeclined (.ok (.obj []))).successInvoked = false
          ∧ (checkoutHandleSubmit true true chargeDeclined (.ok (.obj []))).state.error
            = .str "Your card was declined.") :=
  ⟨(checkoutHandleSubmit_success_iff true true chargeSucceeded (.ok (.obj []))).1.mpr
      ⟨rfl, rfl, rfl, rfl, .obj [], rfl⟩,
    (checkoutHandleSubmit_success_iff true true chargeSucceeded (.error errStringBody)).2.1
      rfl rfl rfl rfl ⟨errStringBody, rfl⟩,
    (checkoutHandleSubmit_success_iff true true chargeDeclined (.ok (.obj []))).2.2
      rfl rfl rfl⟩

/-- C29 (failing input). The processor answers the charge with a payment intent whose
status is `requires_capture` (no error): the handler ends with the loading flag
still set, no error and no success, so the pay button stays disabled. The same
happens when the handler runs before the payment library is loaded. -/
theorem checkoutHandleSubmit_stuck_loading :
    (checkoutHandleSubmit true true chargeRequiresCapture (.ok (.obj []))).successInvoked
        = false
      ∧ (checkoutHandleSubmit true true chargeRequiresCapture (.ok (.obj []))).state.loading
        = true
      ∧ (checkoutHandleSubmit true true chargeRequiresCapture (.ok (.obj []))).state.error
        = .null
      ∧ (checkoutHandleSubmit true true chargeRequiresCapture (.ok (.obj []))).uncaught = none
      ∧ payButtonDisabled true
          (checkoutHandleSubmit true true chargeRequiresCapture (.ok (.obj []))).state = true
      ∧ (checkoutHandleSubmit false false chargeSucceeded (.ok (.obj []))).successInvoked
        = false
      ∧ (checkoutHandleSubmit false false chargeSucceeded (.ok (.obj []))).state.loading
        = true :=
  ⟨rfl, rfl, rfl, rfl, rfl, rfl, rfl⟩

/-- In the two branches that report an error the loading flag is reset. -/
theorem checkoutHandleSubmit_error_resets_loading (result : JsVal)
    (confirmResult : Except JsVal JsVal)
    (h : (checkoutHandleSubmit true true result confirmResult).state.error.truthy = true) :
    (checkoutHandleSubmit true true result confirmResult).state.loading = false := by
  unfold checkoutHandleSubmit at h ⊢
  simp only [Bool.not_true, Bool.or_self, Bool.false_eq_true, if_false] at h ⊢
  split
  · rename_i t ht
    rw [ht] at h
    simp [JsVal.truthy] at h
  · rename_i err herr
    rw [herr] at h
    simp only at h
    by_cases he : err.truthy = true
    · simp [he]
    · simp only [he, Bool.false_eq_true, if_false] at h ⊢
      split
      · rename_i t ht
        rw [ht] at h
        simp [JsVal.truthy] at h
      · rename_i status hstatus
        rw [hstatus] at h
        simp only at h
        by_cases hs : status.strictEqStr "succeeded" = true
        · simp only [hs, if_true] at h ⊢
          cases confirmResult with
          | ok r => simp [JsVal.truthy] at h
          | error e => rfl
        · simp [hs, JsVal.truthy] at h

/-! ### The dashboard load is atomic on failure -/

theorem loadData_of_failure (lib : JsLib) (strToNum : String → JsNum) (now : Int)
    (randomText : Nat → String) (st : DashboardStore) (uRes bRes rRes sRes : FetchResult)
    (hfail : (∃ e, uRes = .error e) ∨ (∃ e, bRes = .error e) ∨ (∃ e, rRes = .error e)
      ∨ (∃ e, sRes = .error e)) :
    loadData lib strToNum now randomText st uRes bRes rRes sRes
      = ({ st with loading := false }, [loadDataErrorDialog]) := by
  unfold loadData
  rcases hfail with ⟨e, h⟩ | ⟨e, h⟩ | ⟨e, h⟩ | ⟨e, h⟩ <;> subst h
  · rfl
  · cases uRes <;> rfl
  · cases uRes <;> cases bRes <;> rfl
  · cases uRes <;> cases bRes <;> cases rRes <;> rfl

/-- C23. The dashboard load is atomic on failure: if any one of the four fetches
(users, bookings, rooms, services) fails, then the stored users, bookings, rooms,
services and all five statistics are exactly what they were before the load, and
exactly one error dialog is raised. -/
theorem loadData_atomic (lib : JsLib) (strToNum : String → JsNum) (now : Int)
    (randomText : Nat → String) (st : DashboardStore) (uRes bRes rRes sRes : FetchResult)
    (hfail : (∃ e, uRes = .error e) ∨ (∃ e, bRes = .error e) ∨ (∃ e, rRes = .error e)
      ∨ (∃ e, sRes = .error e)) :
    (loadData lib strToNum now randomText st uRes bRes rRes sRes).1.lists = st.lists
      ∧ (loadData lib strToNum now randomText st uRes bRes rRes sRes).1.rooms = st.rooms
      ∧ (loadData lib strToNum now randomText st uRes bRes rRes sRes).1.services = st.services
      ∧ (loadData lib strToNum now randomText st uRes bRes rRes sRes).1.accountsCount
          = st.accountsCount
      ∧ (loadData lib strToNum now randomText st uRes bRes rRes sRes).1.usersWithBookingCount
          = st.usersWithBookingCount
      ∧ (loadData lib strToNum now randomText st uRes bRes rRes sRes).1.roomsBookedNow
          = st.roomsBookedNow
      ∧ (loadData lib strToNum now randomText st uRes bRes rRes sRes).1.roomsFreeNow
          = st.roomsFreeNow
      ∧ (loadData lib strToNum now randomText st uRes bRes rRes sRes).1.nextRoomFree
          = st.nextRoomFree
      ∧ (loadData lib strToNum now randomText st uRes bRes rRes sRes).2
          = [.swal "Error" (.str "Failed to load dashboard data.") "error"] := by
  rw [loadData_of_failure lib strToNum now randomText st uRes bRes rRes sRes hfail]
  exact ⟨rfl, rfl, rfl, rfl, rfl, rfl, rfl, rfl, rfl⟩

/-- Witness for C23: the services fetch times out while the other three succeed; the
store keeps the data of the earlier load and one error dialog is raised. -/
theorem loadData_atomic_witness :
    (loadData exampleLib noNumericStrings 1762336800000 exampleRandomText exampleStore
        (.ok exampleUsersRaw) (.ok exampleBookingsRaw) (.ok []) (.error errTimeout)).1.lists.users
        = exampleUsers
      ∧ (loadData exampleLib noNumericStrings 1762336800000 exampleRandomText exampleStore
        (.ok exampleUsersRaw) (.ok exampleBookingsRaw) (.ok []) (.error errTimeout)).1.rooms
        = exampleRooms
      ∧ (loadData exampleLib noNumericStrings 1762336800000 exampleRandomText exampleStore
        (.ok exampleUsersRaw) (.ok exampleBookingsRaw) (.ok []) (.error errTimeout)).2
        = [.swal "Error" (.str "Failed to load dashboard data.") "error"] :=
  have h := loadData_atomic exampleLib noNumericStrings 1762336800000 exampleRandomText
    exampleStore (.ok exampleUsersRaw) (.ok exampleBookingsRaw) (.ok []) (.error errTimeout)
    (Or.inr (Or.inr (Or.inr ⟨errTimeout, rfl⟩)))
  ⟨congrArg DashboardState.users h.1, h.2.1, h.2.2.2.2.2.2.2.2⟩

/-- When the four fetches succeed (and no status is ill-typed) the load stores the
sorted lists and raises no dialog. -/
theorem loadData_success_example :
    (loadData exampleLib noNumericStrings 1762336800000 exampleRandomText exampleStore
        (.ok exampleUsersRaw) (.ok [bookingEndingToday, bookingEndingLater, bookingOtherRoom])
        (.ok exampleRooms) (.ok exampleServices)).2 = []
      ∧ (loadData exampleLib noNumericStrings 1762336800000 exampleRandomText exampleStore
        (.ok exampleUsersRaw) (.ok [bookingEndingToday, bookingEndingLater, bookingOtherRoom])
        (.ok exampleRooms) (.ok exampleServices)).1.roomsBookedNow = 2 := by
  refine ⟨rfl, by decide⟩

/-! ### Phone numbers of the profile form -/

theorem dropWhile_eq_self_of_all_false {α : Type} (p : α → Bool) (l : List α)
    (h : ∀ c ∈ l, p c = false) : l.dropWhile p = l := by
  cases l with
  | nil => rfl
  | cons a rest => simp [List.dropWhile, h a (List.mem_cons_self _ _)]

/-- Trimming does not change a string without white space. -/
theorem jsTrim_of_no_whitespace (l : List Char) (h : ∀ c ∈ l, jsIsWhitespace c = false) :
    jsTrim (String.mk l) = String.mk l := by
  unfold jsTrim
  simp only
  rw [dropWhile_eq_self_of_all_false _ l h,
    dropWhile_eq_self_of_all_false _ l.reverse (fun c hc => h c (List.mem_reverse.mp hc)),
    List.reverse_reverse]

theorem isDigit_not_whitespace (c : Char) (h : c.isDigit = true) : jsIsWhitespace c = false := by
  simp only [Char.isDigit, Bool.and_eq_true, decide_eq_true_eq] at h
  obtain ⟨h1, h2⟩ := h
  have h1' : 48 ≤ c.toNat := h1
  have h2' : c.toNat ≤ 57 := h2
  unfold jsIsWhitespace
  simp only [Bool.or_eq_false_iff, Bool.and_eq_false_iff, beq_eq_false_iff_ne, ne_eq,
    decide_eq_false_iff_not]
  omega

theorem plus_not_digit : Char.isDigit '+' = false := by decide

theorem plus_not_whitespace : jsIsWhitespace '+' = false := by decide

/-- The shape test accepts exactly an optional `+` followed by 10 to 15 digits. -/
theorem phoneRegexTest_iff (s : String) :
    phoneRegexTest s = true ↔
      ∃ body : List Char, (s.data = body ∨ s.data = '+' :: body)
        ∧ (∀ c ∈ body, c.isDigit = true) ∧ 10 ≤ body.length ∧ body.length ≤ 15 := by
  unfold phoneRegexTest
  constructor
  · intro h
    simp only [Bool.and_eq_true, decide_eq_true_eq, List.all_eq_true] at h
    split at h
    · rename_i rest hrest
      exact ⟨rest, Or.inr hrest, h.1.1, h.1.2, h.2⟩
    · exact ⟨s.data, Or.inl rfl, h.1.1, h.1.2, h.2⟩
  · rintro ⟨body, hshape, hdig, h10, h15⟩
    simp only [Bool.and_eq_true, decide_eq_true_eq, List.all_eq_true]
    rcases hshape with hs | hs
    · rw [hs]
      split
      · have hplus := hdig '+' (List.mem_cons_self _ _)
        simp [plus_not_digit] at hplus
      · exact ⟨⟨hdig, h10⟩, h15⟩
    · rw [hs]
      exact ⟨⟨hdig, h10⟩, h15⟩


/-- The repeated-digit test is true exactly when there are at least two digits and
they are all equal. -/
theorem isRepeatingDigits_iff (p : String) :
    isRepeatingDigits p = true ↔
      2 ≤ (digitsOf p).length
        ∧ ∀ c ∈ (digitsOf p).data, ∀ c' ∈ (digitsOf p).data, c = c' := by
  unfold isRepeatingDigits
  have hlen : (digitsOf p).length = (digitsOf p).data.length := rfl
  rw [hlen]
  cases hd : (digitsOf p).data with
  | nil => simp
  | cons d rest =>
    simp only [Bool.and_eq_true, Bool.not_eq_true', List.isEmpty_eq_false, List.all_eq_true,
      beq_iff_eq, List.length_cons, List.mem_cons]
    constructor
    · rintro ⟨hne, hall⟩
      refine ⟨?_, ?_⟩
      · have : 0 < rest.length := List.length_pos.mpr hne
        omega
      · intro c hc c' hc'
        have h1 : c = d := by rcases hc with h | h; exact h; exact hall c h
        have h2 : c' = d := by rcases hc' with h | h; exact h; exact hall c' h
        rw [h1, h2]
    · rintro ⟨hlen2, hall⟩
      refine ⟨?_, fun c hc => hall c (Or.inr hc) d (Or.inl rfl)⟩
      intro hnil
      rw [hnil] at hlen2
      simp at hlen2

/-- The sanitized input, character by character: a `+` exactly when the input starts
with `+`, then the first 15 digits of the input. -/
theorem sanitizePhoneInput_data (input : String) :
    (sanitizePhoneInput input).data
      = (if input.data.head? = some '+' then ['+'] else [])
          ++ (input.data.filter Char.isDigit).take 15 := by
  unfold sanitizePhoneInput digitsOf
  by_cases he : input = ""
  · subst he
    rfl
  · simp only [he, if_false]
    by_cases hp : input.data.head? = some '+'
    · simp [hp, String.data_append]
    · simp [hp]

theorem sanitized_chars (input : String) :
    ∃ pre ds : List Char,
      (sanitizePhoneInput input).data = pre ++ ds
        ∧ (pre = ['+'] ∨ pre = [])
        ∧ (pre = ['+'] ↔ input.data.head? = some '+')
        ∧ ds = (input.data.filter Char.isDigit).take 15
        ∧ (∀ c ∈ ds, c.isDigit = true) ∧ ds.length ≤ 15 := by
  refine ⟨if input.data.head? = some '+' then ['+'] else [],
    (input.data.filter Char.isDigit).take 15, sanitizePhoneInput_data input, ?_, ?_, rfl, ?_, ?_⟩
  · by_cases hp : input.data.head? = some '+' <;> simp [hp]
  · by_cases hp : input.data.head? = some '+' <;> simp [hp]
  · intro c hc
    have := List.mem_of_mem_take hc
    exact (List.mem_filter.mp this).2
  · simp [List.length_take]

theorem sanitizePhoneInput_of_shape (pre ds : List Char) (hpre : pre = ['+'] ∨ pre = [])
    (hdig : ∀ c ∈ ds, c.isDigit = true) (hlen : ds.length ≤ 15) :
    sanitizePhoneInput (String.mk (pre ++ ds)) = String.mk (pre ++ ds) := by
  apply String.ext
  rw [sanitizePhoneInput_data]
  have hfilter : ds.filter Char.isDigit = ds := List.filter_eq_self.mpr hdig
  rcases hpre with h | h
  · subst h
    simp [List.filter_cons, plus_not_digit, hfilter, List.take_of_length_le hlen]
  · subst h
    have hhead : ¬ ds.head? = some '+' := by
      intro hh
      cases ds with
      | nil => simp at hh
      | cons d rest =>
        simp only [List.head?_cons, Option.some.injEq] at hh
        have := hdig d (List.mem_cons_self _ _)
        rw [hh, plus_not_digit] at this
        cases this
    simp [hhead, hfilter, List.take_of_length_le hlen]

/-- C30. For every input string, `sanitizePhoneInput` returns a `+` if and only if the
input starts with `+`, followed by the first 15 decimal digits of the input in their
original order (all of them if there are fewer) and nothing else; consequently
sanitizing is idempotent, and every sanitized value with at least 10 digits passes
the profile form's phone-shape check. -/
theorem sanitizePhoneInput_spec (input : String) :
    (sanitizePhoneInput input).data
        = (if input.data.head? = some '+' then ['+'] else [])
            ++ (input.data.filter Char.isDigit).take 15
      ∧ sanitizePhoneInput (sanitizePhoneInput input) = sanitizePhoneInput input
      ∧ (10 ≤ (digitsOf (sanitizePhoneInput input)).length →
          phoneRegexTest (jsTrim (sanitizePhoneInput input)) = true) := by
  obtain ⟨pre, ds, hdata, hpre, _, _, hdig, hlen⟩ := sanitized_chars input
  have hmk : sanitizePhoneInput input = String.mk (pre ++ ds) := String.ext hdata
  refine ⟨sanitizePhoneInput_data input, ?_, ?_⟩
  · rw [hmk]
    exact sanitizePhoneInput_of_shape pre ds hpre hdig hlen
  · intro h10
    rw [hmk] at h10 ⊢
    have hdigits : (digitsOf (String.mk (pre ++ ds))).length = ds.length := by
      have hfilter : ds.filter Char.isDigit = ds := List.filter_eq_self.mpr hdig
      rcases hpre with h | h <;> subst h <;>
        simp [digitsOf, String.length, List.filter_cons, plus_not_digit, hfilter]
    rw [hdigits] at h10
    have hws : ∀ c ∈ pre ++ ds, jsIsWhitespace c = false := by
      intro c hc
      rcases List.mem_append.mp hc with hc | hc
      · rcases hpre with h | h
        · rw [h] at hc
          simp only [List.mem_singleton] at hc
          rw [hc]
          exact plus_not_whitespace
        · rw [h] at hc
          cases hc
      · exact isDigit_not_whitespace c (hdig c hc)
    rw [jsTrim_of_no_whitespace _ hws, phoneRegexTest_iff]
    refine ⟨ds, ?_, hdig, h10, hlen⟩
    rcases hpre with h | h <;> subst h
    · exact Or.inr rfl
    · exact Or.inl rfl

/-- Witness for C30: the typed text `+20 (101) 234-5678 ext 12345678` is sanitized to
`+201012345678123`, which passes the shape check and is left as it is by a second pass. -/
theorem sanitizePhoneInput_spec_witness :
    sanitizePhoneInput "+20 (101) 234-5678 ext 12345678" = "+201012345678123"
      ∧ sanitizePhoneInput "+201012345678123" = "+201012345678123"
      ∧ phoneRegexTest (jsTrim (sanitizePhoneInput "+20 (101) 234-5678 ext 12345678")) = true :=
  ⟨by decide, by decide,
    (sanitizePhoneInput_spec "+20 (101) 234-5678 ext 12345678").2.2 (by decide)⟩

/-! ### Submission of the profile form -/

theorem profileHandleSubmit_request_phone (lib : JsLib) (parseJwt : JsVal → JsVal)
    (form : ProfileForm) (updateResult : Except JsVal JsVal)
    (h : (profileHandleSubmit lib parseJwt form updateResult).any ProfileEffect.isRequest
      = true) :
    phoneRegexTest (jsTrim form.phoneNumber) = true
      ∧ isRepeatingDigits (jsTrim form.phoneNumber) = false := by
  unfold profileHandleSubmit at h
  simp only at h
  by_cases h1 : phoneRegexTest (jsTrim form.phoneNumber) = true
  · by_cases h2 : isRepeatingDigits (jsTrim form.phoneNumber) = true
    · simp [h1, h2, ProfileEffect.isRequest] at h
    · exact ⟨h1, by simpa using h2⟩
  · simp [h1, ProfileEffect.isRequest] at h

theorem profileHandleSubmit_phone_rejected (lib : JsLib) (parseJwt : JsVal → JsVal)
    (form : ProfileForm) (updateResult : Except JsVal JsVal)
    (h : phoneRegexTest (jsTrim form.phoneNumber) = false
      ∨ isRepeatingDigits (jsTrim form.phoneNumber) = true) :
    ∃ title text,
      profileHandleSubmit lib parseJwt form updateResult
        = [.preventDefault, .setLoading true, .swal "error" title text, .setLoading false,
           .setLoading false] := by
  unfold profileHandleSubmit
  simp only
  by_cases h1 : phoneRegexTest (jsTrim form.phoneNumber) = true
  · rcases h with h | h
    · rw [h1] at h
      cases h
    · exact ⟨"Fake Number Detected",
        .str "You cannot use a sequence of repeating digits as a phone number.",
        by simp [h1, h]⟩
  · exact ⟨"Invalid Phone Number",
      .str "Please enter a valid phone number (10-15 digits). Example: 01012345678 or +2010...",
      by simp [h1]⟩

/-- With a valid phone number, a name and an email, the update request is sent with
the trimmed fields. -/
theorem profileHandleSubmit_sends_request (lib : JsLib) (parseJwt : JsVal → JsVal)
    (form : ProfileForm) (updateResult : Except JsVal JsVal)
    (h1 : phoneRegexTest (jsTrim form.phoneNumber) = true)
    (h2 : isRepeatingDigits (jsTrim form.phoneNumber) = false)
    (h3 : jsTrim form.fullName ≠ "") (h4 : jsTrim form.email ≠ "") :
    ProfileEffect.updateProfile (jsTrim form.fullName) (jsTrim form.email)
        (removeWhitespace (jsTrim form.phoneNumber))
      ∈ profileHandleSubmit lib parseJwt form updateResult := by
  unfold profileHandleSubmit
  simp [h1, h2, h3, h4]

/-- C25. In the profile form, the update request is sent only if the trimmed phone
number consists of an optional leading `+` followed by 10 to 15 decimal digits and
its digits are not all the same digit; every phone number failing either condition
is rejected with one error dialog and no network call; and `isRepeatingDigits(p)` is
true exactly when the digits of `p` number at least two and are all equal. -/
theorem profileHandleSubmit_phone_guard (lib : JsLib) (parseJwt : JsVal → JsVal)
    (form : ProfileForm) (updateResult : Except JsVal JsVal) :
    ((profileHandleSubmit lib parseJwt form updateResult).any ProfileEffect.isRequest = true →
      (∃ body : List Char,
          ((jsTrim form.phoneNumber).data = body ∨ (jsTrim form.phoneNumber).data = '+' :: body)
            ∧ (∀ c ∈ body, c.isDigit = true) ∧ 10 ≤ body.length ∧ body.length ≤ 15)
        ∧ isRepeatingDigits (jsTrim form.phoneNumber) = false)
    ∧ ((phoneRegexTest (jsTrim form.phoneNumber) = false
        ∨ isRepeatingDigits (jsTrim form.phoneNumber) = true) →
      (∃ title text,
        profileHandleSubmit lib parseJwt form updateResult
          = [.preventDefault, .setLoading true, .swal "error" title text, .setLoading false,
             .setLoading false])
      ∧ (profileHandleSubmit lib parseJwt form updateResult).any ProfileEffect.isRequest
          = false)
    ∧ (∀ p : String, isRepeatingDigits p = true ↔
        2 ≤ (digitsOf p).length
          ∧ ∀ c ∈ (digitsOf p).data, ∀ c' ∈ (digitsOf p).data, c = c') := by
  refine ⟨?_, ?_, isRepeatingDigits_iff⟩
  · intro h
    obtain ⟨h1, h2⟩ := profileHandleSubmit_request_phone lib parseJwt form updateResult h
    exact ⟨(phoneRegexTest_iff _).mp h1, h2⟩
  · intro h
    obtain ⟨title, text, heq⟩ :=
      profileHandleSubmit_phone_rejected lib parseJwt form updateResult h
    exact ⟨⟨title, text, heq⟩, by rw [heq]; simp [ProfileEffect.isRequest]⟩

/-- Witness for C25: the phone number `11111111111` has the right shape but repeats
one digit, so the submission ends with the "Fake Number Detected" dialog and no
request; `01012345678` is not a repeated digit. -/
theorem profileHandleSubmit_phone_guard_witness :
    phoneRegexTest (jsTrim "11111111111") = true
      ∧ isRepeatingDigits (jsTrim "11111111111") = true
      ∧ isRepeatingDigits "01012345678" = false
      ∧ (profileHandleSubmit exampleLib exampleParseJwt
          { fullName := "Sara Adel", email := "sara@example.com", phoneNumber := "11111111111" }
          (.ok updateResponseWithToken)).any ProfileEffect.isRequest = false :=
  ⟨by decide, by decide, by decide,
    ((profileHandleSubmit_phone_guard exampleLib exampleParseJwt
      { fullName := "Sara Adel", email := "sara@example.com", phoneNumber := "11111111111" }
      (.ok updateResponseWithToken)).2.1 (Or.inr (by decide))).2⟩

/-! ### The cached profile after a profile update -/

/-- The profile written from a token has the role `admin` or `user`. -/
theorem profileFromToken_role (lib : JsLib) (form : ProfileForm) (decoded : JsVal) :
    (profileFromToken lib form decoded).get "role" = .str "admin"
      ∨ (profileFromToken lib form decoded).get "role" = .str "user" := by
  unfold profileFromToken
  simp only
  split
  · left; rfl
  · right; rfl

/-- The profile written from a returned user object has the role that the server
sent, whenever that is truthy. -/
theorem profileFromUser_role (form : ProfileForm) (returnedUser : JsVal)
    (h : (returnedUser.optProp "role").truthy = true) :
    (profileFromUser form returnedUser).get "role" = returnedUser.optProp "role" := by
  have hget : (profileFromUser form returnedUser).get "role"
      = (returnedUser.optProp "role").or (.str "user") := rfl
  rw [hget]
  simp [JsVal.or, h]

/-- C24 (failing input). The update succeeds with the response
`{ data: { user: { fullName: "Sara Adel", role: "Admin" } } }` (a user object, no
token): the profile written to the cache has the role `Admin`, which is neither `admin`
nor `user`; with a token whose role claim is `Admin` the written role is `admin`. -/
theorem profileHandleSubmit_stores_raw_role :
    profileHandleSubmit exampleLib exampleParseJwt exampleForm (.ok updateResponseWithUser)
        = [.preventDefault, .setLoading true,
           .updateProfile "Sara Adel" "sara@example.com" "+201012345678",
           .setUser [("fullName", .str "Sara Adel"), ("email", .str "sara@example.com"),
             ("phoneNumber", .str "+201012345678"), ("role", .str "Admin")],
           .dispatchUserLogin,
           .swal "success" "Profile Updated"
             (.str "Your information has been saved successfully."),
           .navigate "/profile", .setLoading false]
      ∧ (profileFromUser exampleForm
          ((updateResponseWithUser.optProp "data").optProp "user")).get "role" = .str "Admin"
      ∧ JsVal.str "Admin" ≠ .str "admin" ∧ JsVal.str "Admin" ≠ .str "user"
      ∧ (profileFromToken exampleLib exampleForm
          (exampleParseJwt (.str "aaa.bbb.ccc"))).get "role" = .str "admin" := by
  refine ⟨rfl, rfl, by simp, by simp, rfl⟩

end HotelRegistration
